import Mathlib

/-!
# OpenRCT2 slice: object manager, mouse-input queue and widget hit-testing

A shallow embedding of parts of

* `src/openrct2/object/ObjectManager.cpp`
* `src/openrct2-ui/input/MouseInput.cpp`
* `src/openrct2-ui/interface/Widget.cpp`

Machine integers are `Nat`/`Int` with explicit wrap-around; pointers to objects are
modelled by the identity of the pointee; global variables are fields of explicit state
records that every operation takes and returns.
-/

namespace OpenRCT2

/-! ## Machine integers -/

/-- Conversion of an integer to `uint32_t` (reduction modulo 2^32). -/
def toUInt32 (v : Int) : Nat := (v % 4294967296).toNat

/-- Conversion of an integer to `int32_t` (two's-complement wrap-around). -/
def toInt32 (v : Int) : Int := (v + 2147483648) % 4294967296 - 2147483648

/-- Conversion of an integer to `size_t` (reduction modulo 2^64). -/
def toSizeT (v : Int) : Nat := (v % 18446744073709551616).toNat

/-! ## Mouse-input queue (`MouseInput.cpp`) -/

/-- The `rct_mouse_data` record: three `uint32_t` fields. -/
structure rct_mouse_data where
  x : Nat
  y : Nat
  state : Nat
deriving DecidableEq, Repr

/-- The `ScreenCoordsXY` value type (two `int32_t`). -/
structure ScreenCoordsXY where
  x : Int
  y : Int
deriving DecidableEq, Repr

/-- The three file-level statics of the queue: `_mouseInputQueue[64]`,
`_mouseInputQueueReadIndex` and `_mouseInputQueueWriteIndex` (both `uint8_t`). -/
structure MouseInputQueue where
  _mouseInputQueue : List rct_mouse_data
  _mouseInputQueueReadIndex : Nat
  _mouseInputQueueWriteIndex : Nat
deriving DecidableEq, Repr

/-- Number of cells, `std::size(_mouseInputQueue)`. -/
def mouseInputQueueSize : Nat := 64

/-- Static initialisation: 64 zeroed cells, both indices 0. -/
def MouseInputQueue.initial : MouseInputQueue :=
  { _mouseInputQueue := List.replicate mouseInputQueueSize ⟨0, 0, 0⟩
    _mouseInputQueueReadIndex := 0
    _mouseInputQueueWriteIndex := 0 }

/-- The cell that `store_mouse_input` writes for a sample: the `int32_t` coordinates and
state are converted to the `uint32_t` fields. -/
def mouseSample (state : Int) (screenCoords : ScreenCoordsXY) : rct_mouse_data :=
  { x := toUInt32 screenCoords.x, y := toUInt32 screenCoords.y, state := toUInt32 state }

/-- Embeds `store_mouse_input(state, screenCoords)`. -/
def store_mouse_input (state : Int) (screenCoords : ScreenCoordsXY) (q : MouseInputQueue) :
    MouseInputQueue :=
  let writeIndex := q._mouseInputQueueWriteIndex
  let nextWriteIndex := (writeIndex + 1) % mouseInputQueueSize
  -- Check if the queue is full
  if nextWriteIndex ≠ q._mouseInputQueueReadIndex then
    { q with
      _mouseInputQueue := q._mouseInputQueue.set writeIndex (mouseSample state screenCoords)
      _mouseInputQueueWriteIndex := nextWriteIndex % 256 }
  else
    q

/-- Embeds `get_mouse_input()`: the cell read (`none` for `nullptr`) and the new queue
state. -/
def get_mouse_input (q : MouseInputQueue) : Option rct_mouse_data × MouseInputQueue :=
  if q._mouseInputQueueReadIndex = q._mouseInputQueueWriteIndex then
    (none, q)
  else
    (some (q._mouseInputQueue.getD q._mouseInputQueueReadIndex ⟨0, 0, 0⟩),
     { q with
       _mouseInputQueueReadIndex :=
         ((q._mouseInputQueueReadIndex + 1) % mouseInputQueueSize) % 256 })

/-- A producer or consumer call on the queue. -/
inductive MouseQueueOp where
  | store (state : Int) (screenCoords : ScreenCoordsXY)
  | get
deriving DecidableEq, Repr

/-- Run a sequence of calls; collects what every `get_mouse_input` call returned. -/
def runMouseQueue : List MouseQueueOp → MouseInputQueue →
    List (Option rct_mouse_data) × MouseInputQueue
  | [], q => ([], q)
  | MouseQueueOp.store st c :: ops, q => runMouseQueue ops (store_mouse_input st c q)
  | MouseQueueOp.get :: ops, q =>
    let r := get_mouse_input q
    let rest := runMouseQueue ops r.2
    (r.1 :: rest.1, rest.2)

/-- Consecutive `store_mouse_input` calls, one per sample, no dequeue in between. -/
def storeAll (samples : List (Int × ScreenCoordsXY)) (q : MouseInputQueue) : MouseInputQueue :=
  samples.foldl (fun acc s => store_mouse_input s.1 s.2 acc) q

/-- Call `get_mouse_input` until it reports no sample; `none` when `fuel` calls were not
enough to see the "no sample" answer. -/
def drainMouseQueue : Nat → MouseInputQueue → Option MouseInputQueue
  | 0, _ => none
  | fuel + 1, q =>
    match get_mouse_input q with
    | (none, q1) => some q1
    | (some _, q1) => drainMouseQueue fuel q1

/-- Number of samples currently buffered: the distance from the read index to the write
index around the ring. -/
def bufferedCount (q : MouseInputQueue) : Nat :=
  (q._mouseInputQueueWriteIndex + mouseInputQueueSize - q._mouseInputQueueReadIndex)
    % mouseInputQueueSize

/-- The buffered samples, oldest first: the cells from the read index up to, excluding,
the write index. -/
def bufferedSamples (q : MouseInputQueue) : List rct_mouse_data :=
  (List.range (bufferedCount q)).map fun k =>
    q._mouseInputQueue.getD ((q._mouseInputQueueReadIndex + k) % mouseInputQueueSize) ⟨0, 0, 0⟩

/-- Representation invariant of the queue statics: 64 cells, both indices below 64. -/
def MouseInputQueue.WellFormed (q : MouseInputQueue) : Prop :=
  q._mouseInputQueue.length = mouseInputQueueSize ∧
  q._mouseInputQueueReadIndex < mouseInputQueueSize ∧
  q._mouseInputQueueWriteIndex < mouseInputQueueSize

/-! ### The specification's queue: a bounded FIFO list with drop-newest -/

/-- Specification-side producer: append unless 63 samples are already buffered. -/
def fifoStore (s : rct_mouse_data) (l : List rct_mouse_data) : List rct_mouse_data :=
  if l.length < 63 then l ++ [s] else l

/-- Specification-side consumer: the oldest sample, if any, and the remaining list. -/
def fifoGet (l : List rct_mouse_data) : Option rct_mouse_data × List rct_mouse_data :=
  match l with
  | [] => (none, [])
  | s :: rest => (some s, rest)

/-- Run a sequence of calls on the specification's FIFO list. -/
def runFifo : List MouseQueueOp → List rct_mouse_data →
    List (Option rct_mouse_data) × List rct_mouse_data
  | [], l => ([], l)
  | MouseQueueOp.store st c :: ops, l => runFifo ops (fifoStore (mouseSample st c) l)
  | MouseQueueOp.get :: ops, l =>
    let r := fifoGet l
    let rest := runFifo ops r.2
    (r.1 :: rest.1, rest.2)

/-! ## Object manager (`ObjectManager.cpp`) -/

/-- The legacy descriptor `rct_object_entry`: flags, the 8-byte name and a checksum. -/
structure rct_object_entry where
  flags : Nat
  name : List Nat
  checksum : Nat
deriving DecidableEq, Repr

/-- Modelled from the spec: `rct_object_entry::GetType`, declared outside the excerpt
("classifies an entry descriptor's declared object type"); the type tag is read from the
low four bits of the flags. -/
def rct_object_entry.GetType (entry : rct_object_entry) : Nat := entry.flags % 16

/-- Modelled from the spec: `object_entry_is_empty`, defined outside the excerpt ("empty
entries represented by an all-zero/empty descriptor"). -/
def object_entry_is_empty (entry : rct_object_entry) : Bool :=
  entry.flags == 0 && entry.name.all (fun b => b == 0) && entry.checksum == 0

/-- A live `Object` instance as seen through an `Object*`: the identity of the allocation
and the descriptor it was created for (`GetObjectEntry()`), which never changes. -/
structure Object where
  id : Nat
  entry : rct_object_entry
deriving DecidableEq, Repr

/-- Modelled from the spec: `Object::GetObjectType`, declared outside the excerpt (the
slot-type invariant compares "every occupied slot's object type"); it is the type of the
object's own descriptor. -/
def Object.GetObjectType (object : Object) : Nat := object.entry.GetType

/-- An `ObjectRepositoryItem`: the catalogue descriptor and the non-owning pointer to the
live instance. `materializes` records whether the repository's `LoadObject` produces an
instance for this item. -/
structure ObjectRepositoryItem where
  ObjectEntry : rct_object_entry
  LoadedObject : Option Object
  materializes : Bool
deriving DecidableEq, Repr

/-- Constants of `ObjectLimits.h`, which is outside the excerpt: the per-type capacity
table, the total number of slots and the scenario-text type tag. -/
structure ObjectLimits where
  object_entry_group_counts : List Int
  OBJECT_ENTRY_COUNT : Nat
  OBJECT_TYPE_SCENARIO_TEXT : Nat
deriving DecidableEq, Repr

/-- What happens to object instances: construction by the repository, the `Load` and
`Unload` hooks, and destruction of the instance by a `unique_ptr` that owned it. -/
inductive ObjectEvent where
  | materialize (object : Object)
  | load (object : Object)
  | unload (object : Object)
  | release (object : Object)
deriving DecidableEq, Repr

/-- State of the object manager and of the repository it refers to: the catalogue
(`_objectRepository`), the allocator's next identity, the slot store `_loadedObjects`
(`none` for a null `unique_ptr`) and the history of object events. -/
structure ObjectManager where
  items : List ObjectRepositoryItem
  nextObjectId : Nat
  _loadedObjects : List (Option Object)
  events : List ObjectEvent
deriving DecidableEq, Repr

/-- Dereference of an `ObjectRepositoryItem*` given as a catalogue index. -/
def ObjectManager.ori (m : ObjectManager) (index : Nat) : ObjectRepositoryItem :=
  m.items.getD index ⟨⟨0, [], 0⟩, none, false⟩

/-- Modelled from the spec: the search behind `IObjectRepository::FindObject`, by
descriptor name, from catalogue position `index` on. -/
def findObjectFrom (entry : rct_object_entry) : List ObjectRepositoryItem → Nat → Option Nat
  | [], _ => none
  | item :: rest, index =>
    if item.ObjectEntry.name = entry.name then some index
    else findObjectFrom entry rest (index + 1)

/-- Modelled from the spec: `IObjectRepository::FindObject`, outside the excerpt (the
repository is "the external catalog of all known object definitions, loaded or not, keyed
by on-disk entry descriptor"); `none` is `nullptr`. The key is the name, the only field
`LoadObject(const std::string&)` fills in. -/
def FindObject (m : ObjectManager) (entry : rct_object_entry) : Option Nat :=
  findObjectFrom entry m.items 0

/-- Modelled from the spec: `IObjectRepository::LoadObject`, outside the excerpt ("asks the
repository to materialize the object"): a fresh instance for the item's descriptor, or
`none` when the item does not materialize. -/
def RepositoryLoadObject (ori : Nat) (m : ObjectManager) : Option Object × ObjectManager :=
  if (m.ori ori).materializes then
    let object : Object := { id := m.nextObjectId, entry := (m.ori ori).ObjectEntry }
    (some object,
     { m with nextObjectId := m.nextObjectId + 1
              events := m.events ++ [ObjectEvent.materialize object] })
  else
    (none, m)

/-- Modelled from the spec: `IObjectRepository::RegisterLoadedObject`, outside the excerpt
("the Object Repository holds a non-owning back-pointer to the live instance per catalog
entry"). -/
def RegisterLoadedObject (ori : Nat) (object : Object) (m : ObjectManager) : ObjectManager :=
  { m with items := m.items.set ori { m.ori ori with LoadedObject := some object } }

/-- Modelled from the spec: `IObjectRepository::UnregisterLoadedObject`, outside the
excerpt ("unregisters the live-instance back-pointer from the repository"). -/
def UnregisterLoadedObject (ori : Nat) (_object : Object) (m : ObjectManager) : ObjectManager :=
  { m with items := m.items.set ori { m.ori ori with LoadedObject := none } }

/-- Append one event to the history. -/
def ObjectManager.record (m : ObjectManager) (e : ObjectEvent) : ObjectManager :=
  { m with events := m.events ++ [e] }

/-- Embeds `std::vector::resize` on a vector of `unique_ptr`: new cells are null. -/
def vectorResize (v : List (Option Object)) (n : Nat) : List (Option Object) :=
  v.take n ++ List.replicate (n - v.length) none

/-- Destruction of a vector of `unique_ptr`: every instance it still owns is released. -/
def releaseOwned (v : List (Option Object)) (m : ObjectManager) : ObjectManager :=
  { m with events := m.events ++ v.filterMap (fun obj => obj.map ObjectEvent.release) }

/-- Embeds `ObjectManager::GetIndexFromTypeEntry(objectType, entryIndex)`, in `int32_t`
arithmetic. -/
def GetIndexFromTypeEntry (L : ObjectLimits) (objectType : Int) (entryIndex : Nat) : Int :=
  let result := (List.range objectType.toNat).foldl
    (fun result i => toInt32 (result + L.object_entry_group_counts.getD i 0)) 0
  toInt32 (result + toInt32 entryIndex)

/-- The loop of `FindSpareSlot`, from index `i`, with `fuel` iterations left. -/
def FindSpareSlot.scan (endIndex : Nat) (m : ObjectManager) : Nat → Nat → Int × ObjectManager
  | 0, _ => (-1, m)
  | fuel + 1, i =>
    if i < endIndex then
      if m._loadedObjects.length ≤ i then
        (toInt32 i, { m with _loadedObjects := vectorResize m._loadedObjects (i + 1) })
      else if m._loadedObjects.getD i none = none then
        (toInt32 i, m)
      else
        FindSpareSlot.scan endIndex m fuel (i + 1)
    else
      (-1, m)

/-- Embeds `ObjectManager::FindSpareSlot(objectType)`. -/
def FindSpareSlot (L : ObjectLimits) (objectType : Nat) (m : ObjectManager) :
    Int × ObjectManager :=
  let firstIndex := toSizeT (GetIndexFromTypeEntry L objectType 0)
  let endIndex :=
    (firstIndex + toSizeT (L.object_entry_group_counts.getD objectType 0))
      % 18446744073709551616
  FindSpareSlot.scan endIndex m (endIndex - firstIndex) firstIndex

/-- Embeds `ObjectManager::GetOrLoadObject(ori)`. -/
def GetOrLoadObject (ori : Nat) (m : ObjectManager) : Option Object × ObjectManager :=
  match (m.ori ori).LoadedObject with
  | some _ => (none, m)
  | none =>
    -- Try to load object
    match RepositoryLoadObject ori m with
    | (some object, m1) =>
      -- Connect the ori to the registered object
      (some object, RegisterLoadedObject ori object (m1.record (ObjectEvent.load object)))
    | (none, m1) => (none, m1)

/-- Embeds `ObjectManager::LoadObject(const rct_object_entry*)`. The closing calls
`UpdateSceneryGroupIndexes` and `ResetTypeToRideEntryIndexMap` write the derived indexes
only, which are not part of this state. -/
def LoadObject (L : ObjectLimits) (entry : rct_object_entry) (m : ObjectManager) :
    Option Object × ObjectManager :=
  match FindObject m entry with
  | none => (none, m)
  | some ori =>
    match (m.ori ori).LoadedObject with
    | some loadedObject => (some loadedObject, m)
    | none =>
      let objectType := (m.ori ori).ObjectEntry.GetType % 256
      match FindSpareSlot L objectType m with
      | (slot, m1) =>
        if slot ≠ -1 then
          match GetOrLoadObject ori m1 with
          | (some object, m2) =>
            let grown :=
              if m2._loadedObjects.length ≤ toSizeT slot then
                vectorResize m2._loadedObjects (toSizeT (slot + 1))
              else m2._loadedObjects
            (some object, { m2 with _loadedObjects := grown.set (toSizeT slot) (some object) })
          | (none, m2) => (none, m2)
        else
          (none, m1)

/-- Index of the first slot holding the instance (`std::find_if` over `_loadedObjects`). -/
def findLoadedObject (object : Object) : List (Option Object) → Option Nat
  | [] => none
  | obj :: rest =>
    if obj = some object then some 0
    else (findLoadedObject object rest).map (fun i => i + 1)

/-- Embeds `ObjectManager::UnloadObject(object)`. Assigning `nullptr` to a `unique_ptr`
that holds the instance destroys the instance, once per slot reset. -/
def UnloadObject (object : Option Object) (m : ObjectManager) : ObjectManager :=
  match object with
  | none => m
  | some o =>
    let m1 := m.record (ObjectEvent.unload o)
    let m2 :=
      match FindObject m1 o.entry with
      | some ori => UnregisterLoadedObject ori o m1
      | none => m1
    { m2 with
      _loadedObjects := m2._loadedObjects.map (fun obj => if obj = some o then none else obj)
      events := m2.events
        ++ List.replicate (m2._loadedObjects.count (some o)) (ObjectEvent.release o) }

/-- Embeds `ObjectManager::UnloadAll()`: `UnloadObject` on the current content of every
slot in turn (the derived-index recomputation is not part of this state). -/
def UnloadAll (m : ObjectManager) : ObjectManager :=
  (List.range m._loadedObjects.length).foldl
    (fun acc i => UnloadObject (acc._loadedObjects.getD i none) acc) m

/-- Embeds `ObjectManager::UnloadObjects(entries)` (the derived-index recomputation is not
part of this state). -/
def UnloadObjects (entries : List rct_object_entry) (m : ObjectManager) : ObjectManager :=
  entries.foldl
    (fun acc entry =>
      match FindObject acc entry with
      | some ori =>
        match (acc.ori ori).LoadedObject with
        | some loadedObject => UnloadObject (some loadedObject) acc
        | none => acc
      | none => acc)
    m

/-- Embeds `ObjectManager::ResetObjects()`: `Unload` then `Load` on every loaded object,
slot by slot (the derived-index recomputation is not part of this state). -/
def ResetObjects (m : ObjectManager) : ObjectManager :=
  m._loadedObjects.foldl
    (fun acc loadedObject =>
      match loadedObject with
      | some o => (acc.record (ObjectEvent.unload o)).record (ObjectEvent.load o)
      | none => acc)
    m

/-- Embeds `ObjectManager::UnloadObjectsExcept(newLoadedObjects)`. -/
def UnloadObjectsExcept (newLoadedObjects : List (Option Object)) (m : ObjectManager) :
    ObjectManager :=
  -- Build a hash set for quick checking
  let exceptSet := newLoadedObjects.filterMap id
  -- Unload objects that are not in the hash set
  (List.range m._loadedObjects.length).foldl
    (fun acc i =>
      match acc._loadedObjects.getD i none with
      | some object => if object ∈ exceptSet then acc else UnloadObject (some object) acc
      | none => acc)
    m

/-- Embeds `ObjectManager::SetNewLoadedObjectList(newLoadedObjects)`. The move assignment
destroys the old vector and with it whatever the old slots still own. -/
def SetNewLoadedObjectList (newLoadedObjects : List (Option Object)) (m : ObjectManager) :
    ObjectManager :=
  let m1 :=
    if newLoadedObjects.isEmpty then UnloadAll m
    else UnloadObjectsExcept newLoadedObjects m
  { releaseOwned m1._loadedObjects m1 with _loadedObjects := newLoadedObjects }

/-- The loop of `ObjectManager::GetRequiredObjects`: the catalogue item of every entry
(`none` for `nullptr`) and the missing descriptors, both in input order. -/
def GetRequiredObjects.collect (L : ObjectLimits) (m : ObjectManager) :
    List rct_object_entry → List (Option Nat) × List rct_object_entry
  | [] => ([], [])
  | entry :: rest =>
    let ori := if !object_entry_is_empty entry then FindObject m entry else none
    let missing := !object_entry_is_empty entry && ori.isNone
      && entry.GetType != L.OBJECT_TYPE_SCENARIO_TEXT
    let r := GetRequiredObjects.collect L m rest
    (ori :: r.1, if missing then entry :: r.2 else r.2)

/-- Embeds `ObjectManager::GetRequiredObjects(entries, count)`; `Except.error` is the
thrown `ObjectLoadException` with its list of descriptors. -/
def GetRequiredObjects (L : ObjectLimits) (entries : List rct_object_entry)
    (m : ObjectManager) : Except (List rct_object_entry) (List (Option Nat)) :=
  let r := GetRequiredObjects.collect L m entries
  if r.2 ≠ [] then Except.error r.2 else Except.ok r.1

/-- Locals of the private `LoadObjects`: `objects`, `loadedObjects`, `badObjects`. -/
structure BulkLoad where
  objects : List (Option Object)
  loadedObjects : List Object
  badObjects : List rct_object_entry
deriving DecidableEq, Repr

/-- Body of the lambda that the private `LoadObjects` hands to `ParallelFor`: the object
for index `i` is found, and the last statement, `objects[i] = std::move(object)`, stores it
in the vector `objects` of `OBJECT_ENTRY_COUNT` elements. Past the end of that vector the
write is undefined, and there is no result. -/
def LoadObjects.readObject (i : Nat) (requiredObject : Option Nat)
    (st : BulkLoad × ObjectManager) : Option (BulkLoad × ObjectManager) :=
  let r : Option Object × BulkLoad × ObjectManager :=
    match requiredObject with
    | none => (none, st.1, st.2)
    | some ori =>
      match (st.2.ori ori).LoadedObject with
      | none =>
        -- Object requires to be loaded
        match RepositoryLoadObject ori st.2 with
        | (none, m1) =>
          (none, { st.1 with badObjects := st.1.badObjects ++ [(m1.ori ori).ObjectEntry] }, m1)
        | (some object, m1) =>
          (some object, { st.1 with loadedObjects := st.1.loadedObjects ++ [object] },
            RegisterLoadedObject ori object m1)
      | some loadedObject =>
        -- The object is already loaded: move the element out of `_loadedObjects`
        match findLoadedObject loadedObject st.2._loadedObjects with
        | some it =>
          (some loadedObject, st.1,
            { st.2 with _loadedObjects := st.2._loadedObjects.set it none })
        | none => (none, st.1, st.2)
  if i < r.2.1.objects.length then
    some ({ r.2.1 with objects := r.2.1.objects.set i r.1 }, r.2.2)
  else none

/-- The read phase over all indices. `ParallelFor` gives each worker a contiguous range;
here the indices are visited in ascending order, as with a single worker. No result when a
write to `objects[i]` is undefined. -/
def LoadObjects.readObjects : Nat → List (Option Nat) → BulkLoad × ObjectManager →
    Option (BulkLoad × ObjectManager)
  | _, [], st => some st
  | i, requiredObject :: rest, st =>
    match LoadObjects.readObject i requiredObject st with
    | none => none
    | some st1 => LoadObjects.readObjects (i + 1) rest st1

/-- The private `ObjectManager::LoadObjects(requiredObjects, outNewObjectsLoaded)`. On the
throwing path the local vector `objects` is destroyed during unwinding, which releases
every instance it owns. No result when the read phase writes past the end of `objects`. -/
def LoadObjects.required (L : ObjectLimits) (requiredObjects : List (Option Nat))
    (m : ObjectManager) :
    Option (Except (List rct_object_entry) (List (Option Object) × Nat) × ObjectManager) :=
  let start : BulkLoad :=
    { objects := List.replicate L.OBJECT_ENTRY_COUNT none, loadedObjects := [], badObjects := [] }
  -- Read objects
  match LoadObjects.readObjects 0 requiredObjects (start, m) with
  | none => none
  | some (b, m1) =>
    -- Load objects
    let m2 := b.loadedObjects.foldl (fun acc obj => acc.record (ObjectEvent.load obj)) m1
    if b.badObjects ≠ [] then
      -- Unload all the new objects we loaded
      let m3 := b.loadedObjects.foldl (fun acc object => UnloadObject (some object) acc) m2
      some (Except.error b.badObjects, releaseOwned b.objects m3)
    else
      some (Except.ok (b.objects, b.loadedObjects.length), m2)

/-- The descriptor built by the private `LoadObject(const std::string& name)`. -/
def namedEntry (name : String) : rct_object_entry :=
  { flags := 0, name := (name.toList.take 8).map Char.toNat, checksum := 0 }

/-- Names loaded by `LoadDefaultObjects`, in call order. -/
def defaultObjectNames : List String :=
  [ -- Surfaces
    "#RCT2SGR", "#RCT2SSY", "#RCT2SDI", "#RCT2SRO", "#RCT2SMA", "#RCT2SCH", "#RCT2SGC",
    "#RCT2SIC", "#RCT2SIR", "#RCT2SIY", "#RCT2SIP", "#RCT2SIG", "#RCT2SSR", "#RCT2SSA",
    -- Edges
    "#RCT2ERO", "#RCT2EWR", "#RCT2EWB", "#RCT2EIC", "#RCT1EBR", "#RCT1EIR", "#RCT1EGY",
    "#RCT1EYE", "#RCT1ERE", "#RCT1EPU", "#RCT1EGR", "#RCT1ESN", "#RCT1ESG", "#RCT1ESA",
    "#RCT1ESB",
    -- Stations
    "#RCT2STN", "#RCT2STW", "#RCT2STV", "#RCT2ST3", "#RCT2ST4", "#RCT2STJ", "#RCT2STL",
    "#RCT2STC", "#RCT2STA", "#RCT2STS", "#RCT2STP", "#RCT2STE", "#ORCT2SN" ]

/-- Embeds `ObjectManager::LoadDefaultObjects()`. -/
def LoadDefaultObjects (L : ObjectLimits) (m : ObjectManager) : ObjectManager :=
  defaultObjectNames.foldl (fun acc name => (LoadObject L (namedEntry name) acc).2) m

/-- The public `ObjectManager::LoadObjects(entries, count)`; `entries` holds the `count`
descriptors. The result is `Except.error` with the exception's list when the call throws;
the state returned is the one the caller is left with in either case. No result when the
call is undefined: more than `OBJECT_ENTRY_COUNT` descriptors make the private `LoadObjects`
write past the end of its vector. -/
def LoadObjects (L : ObjectLimits) (entries : List rct_object_entry) (m : ObjectManager) :
    Option (Except (List rct_object_entry) Unit × ObjectManager) :=
  -- Find all the required objects
  match GetRequiredObjects L entries m with
  | Except.error missingObjects => some (Except.error missingObjects, m)
  | Except.ok requiredObjects =>
    -- Load the required objects
    match LoadObjects.required L requiredObjects m with
    | none => none
    | some (Except.error badObjects, m1) => some (Except.error badObjects, m1)
    | some (Except.ok (loadedObjects, _), m1) =>
      some (Except.ok (), LoadDefaultObjects L (SetNewLoadedObjectList loadedObjects m1))

/-- Modelled from the spec: the walk behind `get_type_entry_index` along the capacity
table, subtracting the capacities of the types passed. -/
def get_type_entry_index.scan : List Int → Nat → Nat → Option (Nat × Nat)
  | [], _, _ => none
  | groupCount :: rest, index, objectType =>
    if index ≥ toSizeT groupCount then
      get_type_entry_index.scan rest (index - toSizeT groupCount) (objectType + 1)
    else
      some (objectType, index)

/-- Modelled from the spec: `get_type_entry_index`, declared in `ObjectList.h` and defined
outside the excerpt ("maps a flat object-slot index to its (object-type, per-type-index)
pair"); `none` when the index lies past the last partition. -/
def get_type_entry_index (L : ObjectLimits) (index : Nat) : Option (Nat × Nat) :=
  get_type_entry_index.scan L.object_entry_group_counts index 0

/-- The slot-type invariant of the slot store: every occupied slot holds an object whose
type is the type of the capacity partition that contains the slot index. -/
def SlotTypeInvariant (L : ObjectLimits) (slots : List (Option Object)) : Prop :=
  ∀ (i : Nat) (o : Object), slots.getD i none = some o →
    (get_type_entry_index L i).map Prod.fst = some o.GetObjectType

/-- Consistency of the repository's back-pointers: the live instance registered for a
catalogue item was created for that item's descriptor. -/
def RepositoryConsistent (m : ObjectManager) : Prop :=
  ∀ (k : Nat) (o : Object), (m.ori k).LoadedObject = some o → o.entry = (m.ori k).ObjectEntry

/-- The capacity table is usable in `int32_t` arithmetic: capacities are not negative and
their sum is below 2^31. -/
def ObjectLimits.WellFormed (L : ObjectLimits) : Prop :=
  (∀ c ∈ L.object_entry_group_counts, 0 ≤ c) ∧ L.object_entry_group_counts.sum < 2147483648

/-- Slot `slot` lies in the range of type `objectType`:
`[GetIndexFromTypeEntry(objectType, 0), GetIndexFromTypeEntry(objectType, 0) +
object_entry_group_counts[objectType])`, the range `FindSpareSlot` scans. -/
@[reducible] def inSlotRange (L : ObjectLimits) (objectType slot : Nat) : Prop :=
  GetIndexFromTypeEntry L objectType 0 ≤ (slot : Int) ∧
    (slot : Int) < GetIndexFromTypeEntry L objectType 0
      + L.object_entry_group_counts.getD objectType 0

/-- The slot-type invariant together with the consistency of the repository's
back-pointers. -/
def ObjectManagerInvariant (L : ObjectLimits) (m : ObjectManager) : Prop :=
  SlotTypeInvariant L m._loadedObjects ∧ RepositoryConsistent m

/-- The catalogue descriptors of `m` and `n` agree item by item. -/
def SameCatalogue (m n : ObjectManager) : Prop :=
  ∀ k, (n.ori k).ObjectEntry = (m.ori k).ObjectEntry

/-- Loop invariant of the read phase of the private `LoadObjects`. -/
def ReadPhaseInvariant (L : ObjectLimits) (m0 : ObjectManager)
    (st : BulkLoad × ObjectManager) : Prop :=
  ObjectManagerInvariant L st.2 ∧ SameCatalogue m0 st.2 ∧ SlotTypeInvariant L st.1.objects

/-! ## Widgets (`Widget.cpp`) -/

/-- The input state machine's states (`InputState`). -/
inductive InputState where
  | Reset
  | Normal
  | WidgetPressed
  | PositioningWindow
  | ViewportRight
  | DropdownActive
  | ViewportLeft
  | ScrollLeft
  | Resizing
  | ScrollRight
deriving DecidableEq, Repr

/-- The composite reference `widget_ref`. -/
structure widget_ref where
  window_classification : Nat
  window_number : Nat
  widget_index : Int
deriving DecidableEq, Repr

/-- The input globals the widget predicates read: `_inputState`, `_inputFlags` and
`gPressedWidget`. -/
structure InputGlobals where
  _inputState : InputState
  _inputFlags : Nat
  gPressedWidget : widget_ref
deriving DecidableEq, Repr

/-- Constants of headers outside the excerpt (`Window.h`, `Input.h`): the scrollbar width,
the two scrollbar-visibility flag bits and the widget-pressed input flag. -/
structure UiConstants where
  SCROLLBAR_WIDTH : Int
  HSCROLLBAR_VISIBLE : Nat
  VSCROLLBAR_VISIBLE : Nat
  INPUT_FLAG_WIDGET_PRESSED : Nat
deriving DecidableEq, Repr

/-- Modelled from the spec: `input_get_state`, defined outside the excerpt; it reads the
state of "the input state machine", the global `_inputState`. -/
def input_get_state (g : InputGlobals) : InputState := g._inputState

/-- Modelled from the spec: `input_test_flag`, defined outside the excerpt; it tests a flag
of the global `_inputFlags` the way `MouseInput.cpp` does (`_inputFlags & flag`). -/
def input_test_flag (g : InputGlobals) (flag : Nat) : Bool := g._inputFlags &&& flag ≠ 0

/-- Widget kinds (`WWT_*`). -/
inductive WidgetType where
  | WWT_EMPTY
  | WWT_FRAME
  | WWT_RESIZE
  | WWT_IMGBTN
  | WWT_COLOURBTN
  | WWT_TRNBTN
  | WWT_TAB
  | WWT_FLATBTN
  | WWT_BUTTON
  | WWT_LABEL_CENTRED
  | WWT_TABLE_HEADER
  | WWT_LABEL
  | WWT_SPINNER
  | WWT_DROPDOWN
  | WWT_VIEWPORT
  | WWT_GROUPBOX
  | WWT_CAPTION
  | WWT_CLOSEBOX
  | WWT_SCROLL
  | WWT_CHECKBOX
  | WWT_PLACEHOLDER
  | WWT_TEXT_BOX
  | WWT_LAST
deriving DecidableEq, Repr

/-- The geometry and kind of an `rct_widget`. -/
structure rct_widget where
  type : WidgetType
  left : Int
  right : Int
  top : Int
  bottom : Int
deriving DecidableEq, Repr

/-- The per-scroll-widget state `rct_scroll`. -/
structure rct_scroll where
  flags : Nat
  h_left : Nat
  h_right : Nat
  h_thumb_left : Nat
  h_thumb_right : Nat
  v_top : Nat
  v_bottom : Nat
  v_thumb_top : Nat
  v_thumb_bottom : Nat
deriving DecidableEq, Repr

/-- The fields of `rct_window` that the widget predicates and hit-testing read, and the
size of the window. -/
structure rct_window where
  classification : Nat
  number : Nat
  windowPos : ScreenCoordsXY
  widgets : List rct_widget
  enabled_widgets : Nat
  disabled_widgets : Nat
  pressed_widgets : Nat
  hold_down_widgets : Nat
  scrolls : List rct_scroll
  width : Int := 0
  height : Int := 0
deriving DecidableEq, Repr

/-- The scroll sub-parts (`SCROLL_PART_*`). -/
inductive ScrollPart where
  | SCROLL_PART_NONE
  | SCROLL_PART_VIEW
  | SCROLL_PART_HSCROLLBAR_LEFT
  | SCROLL_PART_HSCROLLBAR_RIGHT
  | SCROLL_PART_HSCROLLBAR_LEFT_TROUGH
  | SCROLL_PART_HSCROLLBAR_RIGHT_TROUGH
  | SCROLL_PART_HSCROLLBAR_THUMB
  | SCROLL_PART_VSCROLLBAR_TOP
  | SCROLL_PART_VSCROLLBAR_BOTTOM
  | SCROLL_PART_VSCROLLBAR_TOP_TROUGH
  | SCROLL_PART_VSCROLLBAR_BOTTOM_TROUGH
  | SCROLL_PART_VSCROLLBAR_THUMB
deriving DecidableEq, Repr

/-- Embeds `widget_is_pressed(w, widgetIndex)`. The mask `1LL << widgetIndex` is taken in 64
bits. -/
def widget_is_pressed (K : UiConstants) (g : InputGlobals) (w : rct_window)
    (widgetIndex : Nat) : Bool :=
  if w.pressed_widgets &&& ((1 <<< widgetIndex) % 18446744073709551616) ≠ 0 then
    true
  else if input_get_state g = InputState.WidgetPressed
      ∨ input_get_state g = InputState.DropdownActive then
    if ¬ (input_test_flag g K.INPUT_FLAG_WIDGET_PRESSED = true) then false
    else if g.gPressedWidget.window_classification ≠ w.classification then false
    else if g.gPressedWidget.window_number ≠ w.number then false
    else if g.gPressedWidget.widget_index ≠ (widgetIndex : Int) then false
    else true
  else
    false

/-- The three outputs of `widget_scroll_get_part`. -/
structure ScrollHit where
  retScreenCoords : ScreenCoordsXY
  output_scroll_area : ScrollPart
  scroll_id : Nat
deriving DecidableEq, Repr

/-- The widget a `rct_widget*` into `w->widgets` points at. -/
def rct_window.widgetAt (w : rct_window) (widgetIndex : Nat) : rct_widget :=
  w.widgets.getD widgetIndex ⟨WidgetType.WWT_EMPTY, 0, 0, 0, 0⟩

/-- The first loop of `widget_scroll_get_part`: the number of `WWT_SCROLL` widgets that
precede the widget in the window's table. -/
def widgetScrollId (w : rct_window) (widgetIndex : Nat) : Nat :=
  (w.widgets.take widgetIndex).countP (fun it => it.type = WidgetType.WWT_SCROLL)

/-- The scroll region `w->scrolls[scroll_id]`. -/
def rct_window.scrollAt (w : rct_window) (scroll_id : Nat) : rct_scroll :=
  w.scrolls.getD scroll_id ⟨0, 0, 0, 0, 0, 0, 0, 0, 0⟩

/-- Embeds `widget_scroll_get_part(w, widget, screenCoords, retScreenCoords, output_scroll_area,
scroll_id)`; `widget` points at `w->widgets[widgetIndex]`, and `retScreenCoords` comes in
with the caller's value. Coordinates are signed; the sums are taken in the integers. -/
def widget_scroll_get_part (K : UiConstants) (w : rct_window) (widgetIndex : Nat)
    (screenCoords : ScreenCoordsXY) (retScreenCoords : ScreenCoordsXY) : ScrollHit :=
  let widget := w.widgetAt widgetIndex
  let scroll_id := widgetScrollId w widgetIndex
  let scroll := w.scrollAt scroll_id
  if scroll.flags &&& K.HSCROLLBAR_VISIBLE ≠ 0
      ∧ screenCoords.y ≥ w.windowPos.y + widget.bottom - (K.SCROLLBAR_WIDTH + 1) then
    -- horizontal scrollbar
    let rightOffset : Int :=
      if ¬ (scroll.flags &&& K.VSCROLLBAR_VISIBLE ≠ 0) then K.SCROLLBAR_WIDTH + 1 else 0
    let iteratorLeft := widget.left + w.windowPos.x + K.SCROLLBAR_WIDTH
    let iteratorRight := widget.right + w.windowPos.x - K.SCROLLBAR_WIDTH
    let area :=
      if screenCoords.x ≤ iteratorLeft then
        ScrollPart.SCROLL_PART_HSCROLLBAR_LEFT
      else if screenCoords.x ≥ iteratorRight + rightOffset then
        ScrollPart.SCROLL_PART_NONE
      else if screenCoords.x ≥ iteratorRight + rightOffset - K.SCROLLBAR_WIDTH then
        ScrollPart.SCROLL_PART_HSCROLLBAR_RIGHT
      else if screenCoords.x < widget.left + w.windowPos.x + scroll.h_thumb_left then
        ScrollPart.SCROLL_PART_HSCROLLBAR_LEFT_TROUGH
      else if screenCoords.x > widget.left + w.windowPos.x + scroll.h_thumb_right then
        ScrollPart.SCROLL_PART_HSCROLLBAR_RIGHT_TROUGH
      else
        ScrollPart.SCROLL_PART_HSCROLLBAR_THUMB
    { retScreenCoords := retScreenCoords, output_scroll_area := area, scroll_id := scroll_id }
  else if scroll.flags &&& K.VSCROLLBAR_VISIBLE ≠ 0
      ∧ screenCoords.x ≥ w.windowPos.x + widget.right - (K.SCROLLBAR_WIDTH + 1) then
    -- vertical scrollbar
    let bottomOffset : Int :=
      if scroll.flags &&& K.HSCROLLBAR_VISIBLE ≠ 0 then K.SCROLLBAR_WIDTH + 1 else 0
    let iteratorTop := widget.top + w.windowPos.y + K.SCROLLBAR_WIDTH
    let iteratorBottom := widget.bottom + w.windowPos.y
    let area :=
      if screenCoords.y ≤ iteratorTop then
        ScrollPart.SCROLL_PART_VSCROLLBAR_TOP
      else if screenCoords.y ≥ iteratorBottom - bottomOffset then
        ScrollPart.SCROLL_PART_NONE
      else if screenCoords.y ≥ iteratorBottom - bottomOffset - K.SCROLLBAR_WIDTH then
        ScrollPart.SCROLL_PART_VSCROLLBAR_BOTTOM
      else if screenCoords.y < widget.top + w.windowPos.y + scroll.v_thumb_top then
        ScrollPart.SCROLL_PART_VSCROLLBAR_TOP_TROUGH
      else if screenCoords.y > widget.top + w.windowPos.y + scroll.v_thumb_bottom then
        ScrollPart.SCROLL_PART_VSCROLLBAR_BOTTOM_TROUGH
      else
        ScrollPart.SCROLL_PART_VSCROLLBAR_THUMB
    { retScreenCoords := retScreenCoords, output_scroll_area := area, scroll_id := scroll_id }
  else
    -- view
    let x := screenCoords.x - widget.left - w.windowPos.x
    let y := screenCoords.y - widget.top - w.windowPos.y
    if x ≤ 0 ∨ y ≤ 0 then
      { retScreenCoords := ⟨x, y⟩
        output_scroll_area := ScrollPart.SCROLL_PART_NONE
        scroll_id := scroll_id }
    else
      { retScreenCoords := ⟨x + (scroll.h_left - 1), y + (scroll.v_top - 1)⟩
        output_scroll_area := ScrollPart.SCROLL_PART_VIEW
        scroll_id := scroll_id }

/-- A sample assignment of the constants, for evaluating the functions on concrete
windows. -/
def UiConstants.sample : UiConstants :=
  { SCROLLBAR_WIDTH := 10
    HSCROLLBAR_VISIBLE := 1
    VSCROLLBAR_VISIBLE := 16
    INPUT_FLAG_WIDGET_PRESSED := 1 }

/-! ## Cheats window (`Cheats.cpp`) -/

/-- Embeds `std::clamp(v, lo, hi)`; the library requires `lo ≤ hi`. -/
def clamp (v lo hi : Int) : Int := if v < lo then lo else if hi < v then hi else v

/-- Modelled from the spec: the `MONEY(whole, fraction)` macro, defined outside the
excerpt; a money value counts tenths of a currency unit, so that `MONEY(5000, 00)` is the
step "5000.00". -/
def MONEY (whole fraction : Int) : Int := whole * 10 + Int.tdiv fraction 10

/-- The macro `CHEATS_MONEY_DEFAULT`. -/
def CHEATS_MONEY_DEFAULT : Int := MONEY 10000 0

/-- The macro `CHEATS_MONEY_INCREMENT_DIV`. -/
def CHEATS_MONEY_INCREMENT_DIV : Int := MONEY 5000 0

/-- Modelled from the spec: `add_clamp_money32`, defined outside the excerpt; addition of
`money32` values "saturating at the money32 limits". -/
def add_clamp_money32 (value value_to_add : Int) : Int :=
  if value_to_add > 0 then
    if value > 2147483647 - value_to_add then 2147483647 else value + value_to_add
  else
    if value < -2147483648 - value_to_add then -2147483648 else value + value_to_add

/-- Constants of `Date.h`, which is outside the excerpt: the last year, the number of
months and the table of days per month. -/
structure DateConstants where
  MAX_YEAR : Int
  MONTH_COUNT : Int
  days_in_month : List Int
deriving DecidableEq, Repr

/-- The cheats the embedded handlers dispatch (`CheatType`). -/
inductive CheatType where
  | AddMoney
  | SetForcedParkRating
deriving DecidableEq, Repr

/-- What the embedded handlers hand to the game: a `CheatsSet` call with its first
parameter, or a `ParkSetDateAction` with year, month and day. -/
inductive CheatDispatch where
  | CheatsSet (cheat : CheatType) (param1 : Int)
  | ParkSetDateAction (year month day : Int)
deriving DecidableEq, Repr

/-- The file-level statics of the cheats window that the embedded handlers use, the forced
park rating behind `get_forced_park_rating()`, and the calls dispatched so far. -/
structure CheatsState where
  _moneySpinnerValue : Int
  _parkRatingSpinnerValue : Int
  _yearSpinnerValue : Int
  _monthSpinnerValue : Int
  _daySpinnerValue : Int
  gForcedParkRating : Int
  dispatched : List CheatDispatch
deriving DecidableEq, Repr

/-- Widget indices of the money page (`WINDOW_CHEATS_WIDGET_IDX`). -/
def WIDX_MONEY_SPINNER_INCREMENT : Int := 11
def WIDX_MONEY_SPINNER_DECREMENT : Int := 12
def WIDX_ADD_MONEY : Int := 13
def WIDX_YEAR_UP : Int := 18
def WIDX_YEAR_DOWN : Int := 19
def WIDX_MONTH_UP : Int := 21
def WIDX_MONTH_DOWN : Int := 22
def WIDX_DAY_UP : Int := 24
def WIDX_DAY_DOWN : Int := 25
def WIDX_DATE_SET : Int := 26
def WIDX_DATE_RESET : Int := 27

/-- Modelled from the spec: `get_forced_park_rating`, defined outside the excerpt; the
rating forced by the cheat, negative while the cheat is off. -/
def get_forced_park_rating (c : CheatsState) : Int := c.gForcedParkRating

/-- Modelled from the spec: `CheatsSet`, defined outside the excerpt (a cheat is
"dispatched through a single named cheat-set operation"); the call is recorded, and
`SetForcedParkRating` sets the forced rating to its parameter. -/
def CheatsSet (cheat : CheatType) (param1 : Int) (c : CheatsState) : CheatsState :=
  match cheat with
  | CheatType.SetForcedParkRating =>
    { c with gForcedParkRating := param1,
             dispatched := c.dispatched ++ [CheatDispatch.CheatsSet cheat param1] }
  | CheatType.AddMoney =>
    { c with dispatched := c.dispatched ++ [CheatDispatch.CheatsSet cheat param1] }

/-- The entry `days_in_month[month - 1]`, as `int32_t`. -/
def DateConstants.daysInMonth (D : DateConstants) (month : Int) : Int :=
  D.days_in_month.getD (month - 1).toNat 0

/-- Embeds `window_cheats_money_mousedown(w, widgetIndex, widget)`, without the
invalidation calls. The spinner values are `int32_t`; the sums are taken in the integers and
`/` is the truncating division of the source language. -/
def window_cheats_money_mousedown (D : DateConstants) (widgetIndex : Int) (c : CheatsState) :
    CheatsState :=
  if widgetIndex = WIDX_MONEY_SPINNER_INCREMENT then
    { c with _moneySpinnerValue := add_clamp_money32
               (CHEATS_MONEY_INCREMENT_DIV
                 * Int.tdiv c._moneySpinnerValue CHEATS_MONEY_INCREMENT_DIV)
               CHEATS_MONEY_INCREMENT_DIV }
  else if widgetIndex = WIDX_MONEY_SPINNER_DECREMENT then
    { c with _moneySpinnerValue := add_clamp_money32
               (CHEATS_MONEY_INCREMENT_DIV
                 * Int.tdiv c._moneySpinnerValue CHEATS_MONEY_INCREMENT_DIV)
               (-CHEATS_MONEY_INCREMENT_DIV) }
  else if widgetIndex = WIDX_ADD_MONEY then
    CheatsSet CheatType.AddMoney c._moneySpinnerValue c
  else if widgetIndex = WIDX_YEAR_UP then
    { c with _yearSpinnerValue := clamp (c._yearSpinnerValue + 1) 1 D.MAX_YEAR }
  else if widgetIndex = WIDX_YEAR_DOWN then
    { c with _yearSpinnerValue := clamp (c._yearSpinnerValue - 1) 1 D.MAX_YEAR }
  else if widgetIndex = WIDX_MONTH_UP then
    let month := clamp (c._monthSpinnerValue + 1) 1 D.MONTH_COUNT
    { c with _monthSpinnerValue := month,
             _daySpinnerValue := clamp c._daySpinnerValue 1 (D.daysInMonth month) }
  else if widgetIndex = WIDX_MONTH_DOWN then
    let month := clamp (c._monthSpinnerValue - 1) 1 D.MONTH_COUNT
    { c with _monthSpinnerValue := month,
             _daySpinnerValue := clamp c._daySpinnerValue 1 (D.daysInMonth month) }
  else if widgetIndex = WIDX_DAY_UP then
    { c with _daySpinnerValue := clamp (c._daySpinnerValue + 1) 1
               (D.daysInMonth c._monthSpinnerValue) }
  else if widgetIndex = WIDX_DAY_DOWN then
    { c with _daySpinnerValue := clamp (c._daySpinnerValue - 1) 1
               (D.daysInMonth c._monthSpinnerValue) }
  else if widgetIndex = WIDX_DATE_SET then
    { c with dispatched := c.dispatched
               ++ [CheatDispatch.ParkSetDateAction c._yearSpinnerValue c._monthSpinnerValue
                    c._daySpinnerValue] }
  else if widgetIndex = WIDX_DATE_RESET then
    { c with dispatched := c.dispatched ++ [CheatDispatch.ParkSetDateAction 1 1 1] }
  else
    c

/-- The `WIDX_FORCE_PARK_RATING` case of `window_cheats_misc_mouseup`. -/
def window_cheats_misc_mouseup_force_park_rating (c : CheatsState) : CheatsState :=
  if get_forced_park_rating c ≥ 0 then
    CheatsSet CheatType.SetForcedParkRating (-1) c
  else
    CheatsSet CheatType.SetForcedParkRating c._parkRatingSpinnerValue c

/-- The assignment to `_parkRatingSpinnerValue` at the end of `window_cheats_open`;
`alreadyOpen` tells whether `window_bring_to_front_by_class(WC_CHEATS)` found the window,
in which case the function returns before the assignment. -/
def window_cheats_open (alreadyOpen : Bool) (c : CheatsState) : CheatsState :=
  if alreadyOpen then c
  else
    { c with _parkRatingSpinnerValue := if get_forced_park_rating c ≥ 0
               then get_forced_park_rating c else 999 }

/-! ## Tooltips (`Tooltip.cpp`, `input_update_tooltip`) -/

/-- The `WC_TOOLTIP` window made by `window_create`: position and size. -/
structure TooltipWindow where
  x : Int
  y : Int
  width : Int
  height : Int
deriving DecidableEq, Repr

/-- The calls into the window system that the tooltip code makes. -/
inductive TooltipCall where
  | window_tooltip_open (widgetIndex : Int) (screenCoords : ScreenCoordsXY)
  | window_close_by_class_WC_TOOLTIP
  | window_create (x y width height : Int)
deriving DecidableEq, Repr

/-- The tooltip globals `gTooltipWidget`, `gTooltipCursor`, `gTooltipTimeout` (a
`uint16_t`) and `_tooltipNotShownTicks`, the open `WC_TOOLTIP` window if any, and the calls
made so far. -/
structure TooltipGlobals where
  gTooltipWidget : widget_ref
  gTooltipCursor : ScreenCoordsXY
  gTooltipTimeout : Nat
  _tooltipNotShownTicks : Nat
  tooltipWindow : Option TooltipWindow
  calls : List TooltipCall
deriving DecidableEq, Repr

/-- What the tooltip code reads from outside the excerpt: whether a `WC_ERROR` window is
open, the width returned by `FormatTextForTooltip` and the line count it leaves in
`_tooltipNumLines`, `font_get_line_height(FONT_SPRITE_BASE_MEDIUM)`, the screen size of
`context_get_width()` and `context_get_height()`, the constant `STR_NONE`, the hovered
widget's `tooltip` string and the string returned by `window_event_tooltip_call`. -/
structure TooltipEnv where
  errorWindowOpen : Bool
  textWidth : Int
  _tooltipNumLines : Int
  lineHeight : Int
  screenWidth : Int
  screenHeight : Int
  STR_NONE : Nat
  widgetTooltip : Nat
  eventTooltipResult : Nat
deriving DecidableEq, Repr

/-- Modelled from the spec: `reset_tooltip_not_shown`, defined outside the excerpt; it
"resets the not-shown counter". -/
def reset_tooltip_not_shown (g : TooltipGlobals) : TooltipGlobals :=
  { g with _tooltipNotShownTicks := 0 }

/-- Modelled from the spec: `window_close_by_class(WC_TOOLTIP)`, defined outside the
excerpt; the tooltip window, if any, is closed. -/
def window_close_by_class_WC_TOOLTIP (g : TooltipGlobals) : TooltipGlobals :=
  { g with tooltipWindow := none,
           calls := g.calls ++ [TooltipCall.window_close_by_class_WC_TOOLTIP] }

/-- The local `width` of `window_tooltip_show`. -/
def TooltipEnv.width (E : TooltipEnv) : Int := E.textWidth + 3

/-- The local `height` of `window_tooltip_show`. -/
def TooltipEnv.height (E : TooltipEnv) : Int := ((E._tooltipNumLines + 1) * E.lineHeight) + 4

/-- Embeds `window_tooltip_show(message, screenCoords)`; the text measurement is read from
the environment, `window_create` is the new `WC_TOOLTIP` window. Coordinates are `int32_t`;
the sums are taken in the integers and `/` is the truncating division of the source
language. -/
def window_tooltip_show (E : TooltipEnv) (screenCoords : ScreenCoordsXY)
    (g : TooltipGlobals) : TooltipGlobals :=
  if E.errorWindowOpen then g
  else
    let width := E.width
    let height := E.height
    let x := clamp (screenCoords.x - Int.tdiv width 2) 0 (E.screenWidth - width)
    let max_y := E.screenHeight - height
    let y0 := screenCoords.y + 26
    let y1 := if y0 > max_y then y0 - (height + 40) else y0
    let y := clamp y1 22 max_y
    reset_tooltip_not_shown
      { g with tooltipWindow := some ⟨x, y, width, height⟩,
               calls := g.calls ++ [TooltipCall.window_create x y width height] }

/-- Embeds `window_tooltip_open(widgetWindow, widgetIndex, screenCords)`; the call itself is
recorded first. -/
def window_tooltip_open (E : TooltipEnv) (widgetWindow : Option rct_window) (widgetIndex : Int)
    (screenCords : ScreenCoordsXY) (g : TooltipGlobals) : TooltipGlobals :=
  let g0 := { g with calls := g.calls ++ [TooltipCall.window_tooltip_open widgetIndex screenCords] }
  match widgetWindow with
  | none => g0
  | some w =>
    if widgetIndex = -1 then g0
    else if E.widgetTooltip = E.STR_NONE then g0
    else
      let g1 := { g0 with gTooltipWidget := ⟨w.classification, w.number, widgetIndex⟩ }
      if E.eventTooltipResult = E.STR_NONE then g1
      else window_tooltip_show E screenCords g1

/-- Embeds `window_tooltip_close()`. -/
def window_tooltip_close (g : TooltipGlobals) : TooltipGlobals :=
  let g1 := window_close_by_class_WC_TOOLTIP g
  { g1 with gTooltipTimeout := 0,
            gTooltipWidget := { g1.gTooltipWidget with window_classification := 255 } }

/-- Embeds `input_update_tooltip(w, widgetIndex, screenCoords)`; `gCurrentDeltaTime`, the
ticks of the frame, is defined outside the excerpt. The counters are 16 bits wide. -/
def input_update_tooltip (E : TooltipEnv) (gCurrentDeltaTime : Nat) (w : Option rct_window)
    (widgetIndex : Int) (screenCoords : ScreenCoordsXY) (g : TooltipGlobals) : TooltipGlobals :=
  if g.gTooltipWidget.window_classification = 255 then
    let g1 :=
      if g.gTooltipCursor = screenCoords then
        let g2 := { g with _tooltipNotShownTicks := (g._tooltipNotShownTicks + 1) % 65536 }
        if g2._tooltipNotShownTicks > 50 then
          window_tooltip_open E w widgetIndex screenCoords { g2 with gTooltipTimeout := 0 }
        else g2
      else g
    { g1 with gTooltipTimeout := 0, gTooltipCursor := screenCoords }
  else
    let g1 := reset_tooltip_not_shown g
    let mismatch : Bool :=
      match w with
      | none => true
      | some win =>
        g1.gTooltipWidget.window_classification ≠ win.classification
          || g1.gTooltipWidget.window_number ≠ win.number
          || g1.gTooltipWidget.widget_index ≠ widgetIndex
    let g2 := if mismatch then window_tooltip_close g1 else g1
    let g3 := { g2 with gTooltipTimeout := (g2.gTooltipTimeout + gCurrentDeltaTime) % 65536 }
    if g3.gTooltipTimeout ≥ 8000 then window_close_by_class_WC_TOOLTIP g3 else g3

/-- A run of `input_update_tooltip` calls over the same hovered widget; each update brings
the ticks of its frame and the cursor position. -/
def runTooltipUpdates (E : TooltipEnv) (w : Option rct_window) (widgetIndex : Int) :
    List (Nat × ScreenCoordsXY) → TooltipGlobals → TooltipGlobals
  | [], g => g
  | (delta, screenCoords) :: rest, g =>
    runTooltipUpdates E w widgetIndex rest
      (input_update_tooltip E delta w widgetIndex screenCoords g)

/-! ## Scroll offsets (`MouseInput.cpp`) -/

/-- Conversion of an integer to `uint16_t`. -/
def toUInt16 (v : Int) : Nat := (v % 65536).toNat

/-- Conversion of an integer to `int16_t`. -/
def toInt16 (v : Int) : Int := (v + 32768) % 65536 - 32768

/-- Modelled from the spec: `rct_widget::width()`, defined outside the excerpt; the distance
from the left to the right edge (`input_scroll_begin` writes `bottom - top - 1` where its
siblings write `height() - 1`). -/
def rct_widget.width (widget : rct_widget) : Int := widget.right - widget.left

/-- Modelled from the spec: `rct_widget::height()`, defined outside the excerpt; the
distance from the top to the bottom edge. -/
def rct_widget.height (widget : rct_widget) : Int := widget.bottom - widget.top

/-- What the scroll input code takes from outside the excerpt: the pressed-subpart flag
bits of a scroll region and `widget_scroll_update_thumbs(w, widgetIndex)`, which recomputes
the cached thumb spans. -/
structure ScrollConstants where
  HSCROLLBAR_THUMB_PRESSED : Nat
  HSCROLLBAR_LEFT_PRESSED : Nat
  HSCROLLBAR_RIGHT_PRESSED : Nat
  VSCROLLBAR_THUMB_PRESSED : Nat
  VSCROLLBAR_UP_PRESSED : Nat
  VSCROLLBAR_DOWN_PRESSED : Nat
  widget_scroll_update_thumbs : rct_window → Nat → rct_window

/-- The assignment `w->scrolls[scroll_id] = scroll`. -/
def rct_window.setScroll (w : rct_window) (scroll_id : Nat) (scroll : rct_scroll) : rct_window :=
  { w with scrolls := w.scrolls.set scroll_id scroll }

/-- Embeds `input_scroll_drag_continue(screenCoords, w)`, up to the thumb update; the
globals `_dragWidget.widget_index`, `_dragScrollIndex` and `gInputDragLast` are arguments.
`size` is an `int16_t` and `std::min<uint16_t>` converts both operands to 16 bits. -/
def input_scroll_drag_continue (K : UiConstants) (S : ScrollConstants)
    (dragWidgetIndex dragScrollIndex : Nat) (gInputDragLast screenCoords : ScreenCoordsXY)
    (w : rct_window) : rct_window :=
  let widget := w.widgetAt dragWidgetIndex
  let scroll := w.scrollAt dragScrollIndex
  let differentialCoords : ScreenCoordsXY :=
    ⟨screenCoords.x - gInputDragLast.x, screenCoords.y - gInputDragLast.y⟩
  let scroll1 :=
    if scroll.flags &&& K.HSCROLLBAR_VISIBLE ≠ 0 then
      let size0 := toInt16 (widget.width - 1)
      let size1 := if scroll.flags &&& K.VSCROLLBAR_VISIBLE ≠ 0 then toInt16 (size0 - 11) else size0
      let size2 := toInt16 (max 0 (scroll.h_right - size1))
      { scroll with
        h_left := min (toUInt16 (max 0 (scroll.h_left + differentialCoords.x))) (toUInt16 size2) }
    else scroll
  let scroll2 :=
    if scroll1.flags &&& K.VSCROLLBAR_VISIBLE ≠ 0 then
      let size0 := toInt16 (widget.height - 1)
      let size1 := if scroll1.flags &&& K.HSCROLLBAR_VISIBLE ≠ 0 then toInt16 (size0 - 11) else size0
      let size2 := toInt16 (max 0 (scroll1.v_bottom - size1))
      { scroll1 with
        v_top := min (toUInt16 (max 0 (scroll1.v_top + differentialCoords.y))) (toUInt16 size2) }
    else scroll1
  S.widget_scroll_update_thumbs (w.setScroll dragScrollIndex scroll2) dragWidgetIndex

/-- Embeds `input_scroll_begin(w, widgetIndex, screenCoords)` as far as the scroll region
goes: the input globals it sets and the window callbacks are left out. The locals are
`int32_t`; the results are stored in 16-bit fields. -/
def input_scroll_begin (K : UiConstants) (S : ScrollConstants) (w : rct_window)
    (widgetIndex : Nat) (screenCoords : ScreenCoordsXY) : rct_window :=
  let hit := widget_scroll_get_part K w widgetIndex screenCoords ⟨0, 0⟩
  let scroll_area := hit.output_scroll_area
  let scroll_id := hit.scroll_id
  if scroll_area = ScrollPart.SCROLL_PART_VIEW then w
  else
    let widg := w.widgetAt widgetIndex
    let scroll := w.scrollAt scroll_id
    let widget_width0 : Int := widg.width - 1
    let widget_width : Int :=
      if scroll.flags &&& K.VSCROLLBAR_VISIBLE ≠ 0 then widget_width0 - (K.SCROLLBAR_WIDTH + 1)
      else widget_width0
    let widget_content_width : Int := max (scroll.h_right - widget_width) 0
    let widget_height0 : Int := widg.bottom - widg.top - 1
    let widget_height : Int :=
      if scroll.flags &&& K.HSCROLLBAR_VISIBLE ≠ 0 then widget_height0 - (K.SCROLLBAR_WIDTH + 1)
      else widget_height0
    let widget_content_height : Int := max (scroll.v_bottom - widget_height) 0
    let scroll1 : rct_scroll :=
      match scroll_area with
      | ScrollPart.SCROLL_PART_HSCROLLBAR_LEFT =>
        { scroll with h_left := toUInt16 (max (scroll.h_left - 3) 0) }
      | ScrollPart.SCROLL_PART_HSCROLLBAR_RIGHT =>
        { scroll with h_left := toUInt16 (min (scroll.h_left + 3) widget_content_width) }
      | ScrollPart.SCROLL_PART_HSCROLLBAR_LEFT_TROUGH =>
        { scroll with h_left := toUInt16 (max (scroll.h_left - widget_width) 0) }
      | ScrollPart.SCROLL_PART_HSCROLLBAR_RIGHT_TROUGH =>
        { scroll with h_left := toUInt16 (min (scroll.h_left + widget_width) widget_content_width) }
      | ScrollPart.SCROLL_PART_VSCROLLBAR_TOP =>
        { scroll with v_top := toUInt16 (max (scroll.v_top - 3) 0) }
      | ScrollPart.SCROLL_PART_VSCROLLBAR_BOTTOM =>
        { scroll with v_top := toUInt16 (min (scroll.v_top + 3) widget_content_height) }
      | ScrollPart.SCROLL_PART_VSCROLLBAR_TOP_TROUGH =>
        { scroll with v_top := toUInt16 (max (scroll.v_top - widget_height) 0) }
      | ScrollPart.SCROLL_PART_VSCROLLBAR_BOTTOM_TROUGH =>
        { scroll with v_top := toUInt16 (min (scroll.v_top + widget_height) widget_content_height) }
      | _ => scroll
    S.widget_scroll_update_thumbs (w.setScroll scroll_id scroll1) widgetIndex

/-- Embeds `input_scroll_part_update_hthumb(w, widgetIndex, x, scroll_id)`; `windowFound`
is the result of `window_find_by_number`. The locals are `int32_t`, `/` truncates, and a
zero divisor gives no result. -/
def input_scroll_part_update_hthumb (K : UiConstants) (S : ScrollConstants) (windowFound : Bool)
    (w : rct_window) (widgetIndex : Nat) (x : Int) (scroll_id : Nat) : Option rct_window :=
  let widget := w.widgetAt widgetIndex
  if windowFound then
    let scroll := w.scrollAt scroll_id
    let newLeft0 : Int := scroll.h_right * x
    let x1 : Int := widget.width - 21
    let x2 : Int :=
      if scroll.flags &&& K.VSCROLLBAR_VISIBLE ≠ 0 then x1 - (K.SCROLLBAR_WIDTH + 1) else x1
    if x2 = 0 then none
    else
      let x3 : Int := Int.tdiv newLeft0 x2
      let flags1 := scroll.flags ||| S.HSCROLLBAR_THUMB_PRESSED
      let newLeft1 : Int := scroll.h_left + x3
      let newLeft2 : Int := if newLeft1 < 0 then 0 else newLeft1
      let x4 : Int := widget.width - 1
      let x5 : Int :=
        if flags1 &&& K.VSCROLLBAR_VISIBLE ≠ 0 then x4 - (K.SCROLLBAR_WIDTH + 1) else x4
      let x6 : Int := x5 * -1 + scroll.h_right
      let x7 : Int := if x6 < 0 then 0 else x6
      let newLeft3 : Int := if newLeft2 > x7 then x7 else newLeft2
      some (S.widget_scroll_update_thumbs
        (w.setScroll scroll_id { scroll with flags := flags1, h_left := toUInt16 newLeft3 })
        widgetIndex)
  else some w

/-- Embeds `input_scroll_part_update_vthumb(w, widgetIndex, y, scroll_id)`. -/
def input_scroll_part_update_vthumb (K : UiConstants) (S : ScrollConstants) (windowFound : Bool)
    (w : rct_window) (widgetIndex : Nat) (y : Int) (scroll_id : Nat) : Option rct_window :=
  let widget := w.widgetAt widgetIndex
  if windowFound then
    let scroll := w.scrollAt scroll_id
    let newTop0 : Int := scroll.v_bottom * y
    let y1 : Int := widget.height - 21
    let y2 : Int :=
      if scroll.flags &&& K.HSCROLLBAR_VISIBLE ≠ 0 then y1 - (K.SCROLLBAR_WIDTH + 1) else y1
    if y2 = 0 then none
    else
      let y3 : Int := Int.tdiv newTop0 y2
      let flags1 := scroll.flags ||| S.VSCROLLBAR_THUMB_PRESSED
      let newTop1 : Int := scroll.v_top + y3
      let newTop2 : Int := if newTop1 < 0 then 0 else newTop1
      let y4 : Int := widget.height - 1
      let y5 : Int :=
        if flags1 &&& K.HSCROLLBAR_VISIBLE ≠ 0 then y4 - (K.SCROLLBAR_WIDTH + 1) else y4
      let y6 : Int := y5 * -1 + scroll.v_bottom
      let y7 : Int := if y6 < 0 then 0 else y6
      let newTop3 : Int := if newTop2 > y7 then y7 else newTop2
      some (S.widget_scroll_update_thumbs
        (w.setScroll scroll_id { scroll with flags := flags1, v_top := toUInt16 newTop3 })
        widgetIndex)
  else some w

/-- Embeds `input_scroll_part_update_hleft(w, widgetIndex, scroll_id)`. -/
def input_scroll_part_update_hleft (S : ScrollConstants) (windowFound : Bool)
    (w : rct_window) (widgetIndex : Nat) (scroll_id : Nat) : rct_window :=
  if windowFound then
    let scroll := w.scrollAt scroll_id
    let scroll1 := { scroll with flags := scroll.flags ||| S.HSCROLLBAR_LEFT_PRESSED }
    let scroll2 :=
      if scroll1.h_left ≥ 3 then { scroll1 with h_left := scroll1.h_left - 3 } else scroll1
    S.widget_scroll_update_thumbs (w.setScroll scroll_id scroll2) widgetIndex
  else w

/-- Embeds `input_scroll_part_update_hright(w, widgetIndex, scroll_id)`. -/
def input_scroll_part_update_hright (K : UiConstants) (S : ScrollConstants) (windowFound : Bool)
    (w : rct_window) (widgetIndex : Nat) (scroll_id : Nat) : rct_window :=
  let widget := w.widgetAt widgetIndex
  if windowFound then
    let scroll := w.scrollAt scroll_id
    let scroll1 := { scroll with flags := scroll.flags ||| S.HSCROLLBAR_RIGHT_PRESSED }
    let scroll2 := { scroll1 with h_left := (scroll1.h_left + 3) % 65536 }
    let newLeft0 : Int := widget.width - 1
    let newLeft1 : Int :=
      if scroll2.flags &&& K.VSCROLLBAR_VISIBLE ≠ 0 then newLeft0 - (K.SCROLLBAR_WIDTH + 1)
      else newLeft0
    let newLeft2 : Int := newLeft1 * -1 + scroll2.h_right
    let newLeft3 : Int := if newLeft2 < 0 then 0 else newLeft2
    let scroll3 :=
      if (scroll2.h_left : Int) > newLeft3 then { scroll2 with h_left := toUInt16 newLeft3 }
      else scroll2
    S.widget_scroll_update_thumbs (w.setScroll scroll_id scroll3) widgetIndex
  else w

/-- Embeds `input_scroll_part_update_vtop(w, widgetIndex, scroll_id)`. -/
def input_scroll_part_update_vtop (S : ScrollConstants) (windowFound : Bool)
    (w : rct_window) (widgetIndex : Nat) (scroll_id : Nat) : rct_window :=
  if windowFound then
    let scroll := w.scrollAt scroll_id
    let scroll1 := { scroll with flags := scroll.flags ||| S.VSCROLLBAR_UP_PRESSED }
    let scroll2 :=
      if scroll1.v_top ≥ 3 then { scroll1 with v_top := scroll1.v_top - 3 } else scroll1
    S.widget_scroll_update_thumbs (w.setScroll scroll_id scroll2) widgetIndex
  else w

/-- Embeds `input_scroll_part_update_vbottom(w, widgetIndex, scroll_id)`. -/
def input_scroll_part_update_vbottom (K : UiConstants) (S : ScrollConstants) (windowFound : Bool)
    (w : rct_window) (widgetIndex : Nat) (scroll_id : Nat) : rct_window :=
  let widget := w.widgetAt widgetIndex
  if windowFound then
    let scroll := w.scrollAt scroll_id
    let scroll1 := { scroll with flags := scroll.flags ||| S.VSCROLLBAR_DOWN_PRESSED }
    let scroll2 := { scroll1 with v_top := (scroll1.v_top + 3) % 65536 }
    let newTop0 : Int := widget.height - 1
    let newTop1 : Int :=
      if scroll2.flags &&& K.HSCROLLBAR_VISIBLE ≠ 0 then newTop0 - (K.SCROLLBAR_WIDTH + 1)
      else newTop0
    let newTop2 : Int := newTop1 * -1 + scroll2.v_bottom
    let newTop3 : Int := if newTop2 < 0 then 0 else newTop2
    let scroll3 :=
      if (scroll2.v_top : Int) > newTop3 then { scroll2 with v_top := toUInt16 newTop3 }
      else scroll2
    S.widget_scroll_update_thumbs (w.setScroll scroll_id scroll3) widgetIndex
  else w

/-- The visible width of a scroll widget: `width()` minus 1, reduced by
`SCROLLBAR_WIDTH + 1` when the vertical scrollbar is visible. -/
def visibleWidth (K : UiConstants) (widget : rct_widget) (scroll : rct_scroll) : Int :=
  widget.width - 1
    - (if scroll.flags &&& K.VSCROLLBAR_VISIBLE ≠ 0 then K.SCROLLBAR_WIDTH + 1 else 0)

/-- The visible height of a scroll widget: `height()` minus 1, reduced by
`SCROLLBAR_WIDTH + 1` when the horizontal scrollbar is visible. -/
def visibleHeight (K : UiConstants) (widget : rct_widget) (scroll : rct_scroll) : Int :=
  widget.height - 1
    - (if scroll.flags &&& K.HSCROLLBAR_VISIBLE ≠ 0 then K.SCROLLBAR_WIDTH + 1 else 0)

/-- The scroll-offset invariant: `h_left` within `[0, max(0, h_right - visibleWidth)]` and
`v_top` within `[0, max(0, v_bottom - visibleHeight)]`. -/
def ScrollOffsetsInRange (K : UiConstants) (widget : rct_widget) (scroll : rct_scroll) : Prop :=
  (0 : Int) ≤ scroll.h_left
    ∧ (scroll.h_left : Int) ≤ max 0 (scroll.h_right - visibleWidth K widget scroll)
    ∧ (0 : Int) ≤ scroll.v_top
    ∧ (scroll.v_top : Int) ≤ max 0 (scroll.v_bottom - visibleHeight K widget scroll)

/-- The pressed-subpart flags are other bits than the two visibility flags. -/
def ScrollConstants.PressedFlagsApart (S : ScrollConstants) (K : UiConstants) : Prop :=
  ∀ p, p ∈ [S.HSCROLLBAR_THUMB_PRESSED, S.HSCROLLBAR_LEFT_PRESSED, S.HSCROLLBAR_RIGHT_PRESSED,
      S.VSCROLLBAR_THUMB_PRESSED, S.VSCROLLBAR_UP_PRESSED, S.VSCROLLBAR_DOWN_PRESSED] →
    p &&& K.HSCROLLBAR_VISIBLE = 0 ∧ p &&& K.VSCROLLBAR_VISIBLE = 0

/-- The thumb update recomputes the cached thumb spans only: widgets, flags, offsets and
content extents stay. -/
def ScrollConstants.ThumbUpdateKeepsOffsets (S : ScrollConstants) : Prop :=
  ∀ (w : rct_window) (widgetIndex : Nat),
    (S.widget_scroll_update_thumbs w widgetIndex).widgets = w.widgets
    ∧ ∀ scroll_id,
      ((S.widget_scroll_update_thumbs w widgetIndex).scrollAt scroll_id).flags
          = (w.scrollAt scroll_id).flags
      ∧ ((S.widget_scroll_update_thumbs w widgetIndex).scrollAt scroll_id).h_left
          = (w.scrollAt scroll_id).h_left
      ∧ ((S.widget_scroll_update_thumbs w widgetIndex).scrollAt scroll_id).h_right
          = (w.scrollAt scroll_id).h_right
      ∧ ((S.widget_scroll_update_thumbs w widgetIndex).scrollAt scroll_id).v_top
          = (w.scrollAt scroll_id).v_top
      ∧ ((S.widget_scroll_update_thumbs w widgetIndex).scrollAt scroll_id).v_bottom
          = (w.scrollAt scroll_id).v_bottom

/-- A sample assignment of the scroll constants, with a thumb update that leaves the window
as it is. -/
def ScrollConstants.sample : ScrollConstants :=
  { HSCROLLBAR_THUMB_PRESSED := 2
    HSCROLLBAR_LEFT_PRESSED := 4
    HSCROLLBAR_RIGHT_PRESSED := 8
    VSCROLLBAR_THUMB_PRESSED := 32
    VSCROLLBAR_UP_PRESSED := 64
    VSCROLLBAR_DOWN_PRESSED := 128
    widget_scroll_update_thumbs := fun w _ => w }

/-! ## Inventions list (`EditorInventionsList.cpp`, `Research.h`) -/

/-- The struct `ResearchItem`: the union with `rawValue` (entry index, base ride type and
entry type packed), the flags and the category. -/
structure ResearchItem where
  rawValue : Nat
  flags : Nat
  category : Nat
deriving DecidableEq, Repr

/-- The flag `RESEARCH_ENTRY_FLAG_SCENERY_SET_ALWAYS_RESEARCHED`. -/
def RESEARCH_ENTRY_FLAG_SCENERY_SET_ALWAYS_RESEARCHED : Nat := 1 <<< 5

/-- The flag `RESEARCH_ENTRY_FLAG_RIDE_ALWAYS_RESEARCHED`. -/
def RESEARCH_ENTRY_FLAG_RIDE_ALWAYS_RESEARCHED : Nat := 1 <<< 6

/-- Modelled from the spec: `ResearchItem::Equals`, declared in `Research.h` and defined
outside the excerpt; two items are equal when they carry the same tagged payload, the
union read as `rawValue`. -/
def ResearchItem.Equals (item otherItem : ResearchItem) : Bool :=
  item.rawValue = otherItem.rawValue

/-- Modelled from the spec: `ResearchItem::IsAlwaysResearched`, declared in `Research.h`
and defined outside the excerpt; one of the two always-researched flags is set. -/
def ResearchItem.IsAlwaysResearched (item : ResearchItem) : Bool :=
  item.flags &&& (RESEARCH_ENTRY_FLAG_RIDE_ALWAYS_RESEARCHED
    ||| RESEARCH_ENTRY_FLAG_SCENERY_SET_ALWAYS_RESEARCHED) ≠ 0

/-- The two research vectors `gResearchItemsInvented` and `gResearchItemsUninvented`. -/
structure ResearchLists where
  gResearchItemsInvented : List ResearchItem
  gResearchItemsUninvented : List ResearchItem
deriving DecidableEq, Repr

/-- A `ResearchItem*` into one of the two vectors: the vector (by scroll index, 0 for the
invented one) and the slot. The pointer names the slot, not the item that was there when
the pointer was taken. -/
structure ResearchItemPtr where
  scrollIndex : Int
  index : Nat
deriving DecidableEq, Repr

/-- The choice `scrollIndex == 0 ? gResearchItemsInvented : gResearchItemsUninvented`. -/
def ResearchLists.list (L : ResearchLists) (scrollIndex : Int) : List ResearchItem :=
  if scrollIndex = 0 then L.gResearchItemsInvented else L.gResearchItemsUninvented

/-- Assignment to the vector chosen by `scrollIndex`. -/
def ResearchLists.setList (L : ResearchLists) (scrollIndex : Int) (l : List ResearchItem) :
    ResearchLists :=
  if scrollIndex = 0 then { L with gResearchItemsInvented := l }
  else { L with gResearchItemsUninvented := l }

/-- Reading through a pointer: the item in the slot now, or nothing when the slot lies past
the end of the vector (the read is then undefined). -/
def ResearchLists.deref (L : ResearchLists) (p : ResearchItemPtr) : Option ResearchItem :=
  (L.list p.scrollIndex).get? p.index

/-- Modelled from the spec: `research_remove`, declared in `Research.h` and defined outside
the excerpt; it "removes a specific item from whichever list holds it": the first item
equal to it is erased from the uninvented vector, or else from the invented one. -/
def research_remove (researchItem : ResearchItem) (L : ResearchLists) : ResearchLists :=
  if L.gResearchItemsUninvented.any (fun it => it.Equals researchItem) then
    { L with gResearchItemsUninvented :=
        L.gResearchItemsUninvented.eraseP (fun it => it.Equals researchItem) }
  else
    { L with gResearchItemsInvented :=
        L.gResearchItemsInvented.eraseP (fun it => it.Equals researchItem) }

/-- The loop of `move_research_item`: the dragged item is inserted in front of the first
item equal to `beforeItem`; no result when there is none. -/
def move_research_item.insertBefore (beforeItem dragged : ResearchItem) :
    List ResearchItem → Option (List ResearchItem)
  | [] => none
  | x :: rest =>
    if x.Equals beforeItem then some (dragged :: x :: rest)
    else (move_research_item.insertBefore beforeItem dragged rest).map (fun l => x :: l)

/-- Embeds `move_research_item(beforeItem, scrollIndex)`, without the window invalidation;
`dragged` is `_editorInventionsListDraggedItem`. `beforeItem` is read inside the loop, after
`research_remove` has run. -/
def move_research_item (beforeItem : Option ResearchItemPtr) (scrollIndex : Int)
    (dragged : ResearchItem) (L : ResearchLists) : Option ResearchLists :=
  let L1 := research_remove dragged L
  let researchList := L1.list scrollIndex
  let appended := L1.setList scrollIndex (researchList ++ [dragged])
  match beforeItem with
  | none => some appended
  | some p =>
    if researchList = [] then some appended
    else
      match L1.deref p with
      | none => none
      | some target =>
        match move_research_item.insertBefore target dragged researchList with
        | some l => some (L1.setList scrollIndex l)
        | none => some appended

/-- What the inventions window takes from outside the excerpt: the two row heights and
`window_find_widget_from_point`. -/
structure InventionsConstants where
  SCROLLABLE_ROW_HEIGHT : Int
  LIST_ROW_HEIGHT : Int
  window_find_widget_from_point : rct_window → ScreenCoordsXY → Int

/-- The widget index `WIDX_PRE_RESEARCHED_SCROLL`. -/
def WIDX_PRE_RESEARCHED_SCROLL : Int := 5

/-- The widget index `WIDX_RESEARCH_ORDER_SCROLL`. -/
def WIDX_RESEARCH_ORDER_SCROLL : Int := 6

/-- The loop of `window_editor_inventions_list_get_item_from_scroll_y_include_seps`: the
slot of the first row at which `y`, lowered by a row height per row, is negative. -/
def get_item_from_scroll_y_include_seps.scan (rowHeight : Int) :
    List ResearchItem → Int → Nat → Option Nat
  | [], _, _ => none
  | _ :: rest, y, i =>
    if y - rowHeight < 0 then some i
    else get_item_from_scroll_y_include_seps.scan rowHeight rest (y - rowHeight) (i + 1)

/-- Embeds `window_editor_inventions_list_get_item_from_scroll_y_include_seps(scrollIndex,
y)`. -/
def window_editor_inventions_list_get_item_from_scroll_y_include_seps
    (E : InventionsConstants) (L : ResearchLists) (scrollIndex : Int) (y : Int) :
    Option ResearchItemPtr :=
  (get_item_from_scroll_y_include_seps.scan E.SCROLLABLE_ROW_HEIGHT (L.list scrollIndex) y 0).map
    (fun i => ⟨scrollIndex, i⟩)

/-- Embeds `get_research_item_at(screenCoords, outScrollId)`: the item pointer and
`*outScrollId`; `w` is the result of `window_find_by_class(WC_EDITOR_INVENTION_LIST)`. The
write to `gPressedWidget` is left out. -/
def get_research_item_at (E : InventionsConstants) (K : UiConstants) (w : Option rct_window)
    (L : ResearchLists) (screenCoords : ScreenCoordsXY) : Option ResearchItemPtr × Int :=
  match w with
  | none => (none, -1)
  | some w =>
    if w.windowPos.x ≤ screenCoords.x ∧ w.windowPos.y < screenCoords.y
        ∧ w.windowPos.x + w.width > screenCoords.x
        ∧ w.windowPos.y + w.height > screenCoords.y then
      let widgetIndex := E.window_find_widget_from_point w screenCoords
      if widgetIndex = WIDX_PRE_RESEARCHED_SCROLL ∨ widgetIndex = WIDX_RESEARCH_ORDER_SCROLL then
        let hit := widget_scroll_get_part K w widgetIndex.toNat screenCoords ⟨0, 0⟩
        if hit.output_scroll_area = ScrollPart.SCROLL_PART_VIEW then
          let outScrollId : Int := if hit.scroll_id = 0 then 0 else 1
          let scrollY := hit.retScreenCoords.y + 6
          (window_editor_inventions_list_get_item_from_scroll_y_include_seps E L outScrollId
            scrollY, outScrollId)
        else (none, -1)
      else (none, -1)
    else (none, -1)

/-- The `do ... while` loop of `window_editor_inventions_list_drag_moved`: the last
`researchItem` and `scrollId`. Every round costs one unit of `fuel`; no result when the
fuel runs out. -/
def drag_moved.walk (E : InventionsConstants) (K : UiConstants) (w : Option rct_window)
    (L : ResearchLists) : Nat → ScreenCoordsXY → Option (Option ResearchItemPtr × Int)
  | 0, _ => none
  | fuel + 1, newScreenCoords =>
    let r := get_research_item_at E K w L newScreenCoords
    let next : ScreenCoordsXY := ⟨newScreenCoords.x, newScreenCoords.y + E.LIST_ROW_HEIGHT⟩
    match r.1 with
    | none => some r
    | some p =>
      match L.deref p with
      | none => none
      | some item =>
        if item.IsAlwaysResearched then drag_moved.walk E K w L fuel next else some r

/-- Embeds `window_editor_inventions_list_drag_moved(w, screenCoords)` as far as the
research vectors go: closing the drag window and clearing the dragged item are left out. -/
def window_editor_inventions_list_drag_moved (E : InventionsConstants) (K : UiConstants)
    (w : Option rct_window) (fuel : Nat) (screenCoords : ScreenCoordsXY)
    (dragged : ResearchItem) (L : ResearchLists) : Option ResearchLists :=
  match drag_moved.walk E K w L fuel screenCoords with
  | none => none
  | some (researchItem, scrollId) =>
    if scrollId ≠ -1 then move_research_item researchItem scrollId dragged L
    else some L

/-- Modelled from the spec: a sample `window_find_widget_from_point`, defined outside the
excerpt; the last widget, not of the empty type, whose rectangle holds the point, or -1. -/
def sampleFindWidgetFromPoint (w : rct_window) (screenCoords : ScreenCoordsXY) : Int :=
  ((List.range w.widgets.length).foldl
    (fun (found : Int) i =>
      let widget := w.widgetAt i
      if widget.type ≠ WidgetType.WWT_EMPTY
          ∧ screenCoords.x ≥ w.windowPos.x + widget.left
          ∧ screenCoords.x ≤ w.windowPos.x + widget.right
          ∧ screenCoords.y ≥ w.windowPos.y + widget.top
          ∧ screenCoords.y ≤ w.windowPos.y + widget.bottom then (i : Int)
      else found) (-1))

/-- A sample assignment of the inventions constants: rows of 12 pixels. -/
def InventionsConstants.sample : InventionsConstants :=
  { SCROLLABLE_ROW_HEIGHT := 12
    LIST_ROW_HEIGHT := 12
    window_find_widget_from_point := sampleFindWidgetFromPoint }

/-- The inventions window at its opening size 600 by 400 at the screen origin: the two
scroll panes are widgets 5 and 6, both with a vertical scrollbar. -/
def sampleInventionsWindow : rct_window :=
  { classification := 1, number := 0, windowPos := ⟨0, 0⟩,
    widgets := [⟨WidgetType.WWT_FRAME, 0, 599, 0, 399⟩,
                ⟨WidgetType.WWT_CAPTION, 1, 598, 1, 14⟩,
                ⟨WidgetType.WWT_CLOSEBOX, 587, 597, 2, 13⟩,
                ⟨WidgetType.WWT_RESIZE, 0, 599, 43, 399⟩,
                ⟨WidgetType.WWT_TAB, 3, 33, 17, 43⟩,
                ⟨WidgetType.WWT_SCROLL, 4, 371, 56, 216⟩,
                ⟨WidgetType.WWT_SCROLL, 4, 371, 231, 387⟩],
    enabled_widgets := 0, disabled_widgets := 0, pressed_widgets := 0,
    hold_down_widgets := 0,
    scrolls := [⟨16, 0, 0, 0, 0, 0, 204, 0, 0⟩, ⟨16, 0, 0, 0, 0, 0, 24, 0, 0⟩],
    width := 600, height := 400 }

/-! ## Keyboard input (`MouseInput.cpp`) -/

/-- The loop of `get_next_key`, from index `i` with `fuel` rounds left: the returned index
and the key table. -/
def get_next_key.scan (keysPressed : List Nat) : Nat → Nat → Int × List Nat
  | 0, _ => (0, keysPressed)
  | fuel + 1, i =>
    if keysPressed.getD i 0 ≠ 0 then ((i : Int), keysPressed.set i 0)
    else get_next_key.scan keysPressed fuel (i + 1)

/-- Embeds `get_next_key()`; `keysPressed` is the table behind `context_get_keys_pressed()`,
one `uint8_t` per key. -/
def get_next_key (keysPressed : List Nat) : Int × List Nat :=
  get_next_key.scan keysPressed 221 0

/-! ## Parallel loop (`ObjectManager.cpp`) -/

/-- The loop of one worker of `ParallelFor`: the indices `pbegin`, ..., `pend - 1` that it
hands to `func`, in order. -/
def ParallelFor.worker (pbegin pend : Nat) : List Nat :=
  List.range' pbegin (pend - pbegin)

/-- Embeds `ParallelFor(items, func)`: for every worker, in the order of creation, the
indices it hands to `func`. `partitions` is the result of
`std::thread::hardware_concurrency()`, `itemsSize` is `items.size()`; the arithmetic is that
of `size_t`, and a division by zero gives no result. -/
def ParallelFor (partitions itemsSize : Nat) : Option (List (List Nat)) :=
  if partitions = 0 then none
  else
    let partitionSize := ((itemsSize + (partitions - 1)) % 18446744073709551616) / partitions
    some ((List.range partitions).map fun n =>
      let pbegin := (n * partitionSize) % 18446744073709551616
      let pend := min itemsSize ((pbegin + partitionSize) % 18446744073709551616)
      ParallelFor.worker pbegin pend)

/-! ## Pressed widgets (`MouseInput.cpp`) -/

/-- The calls that the pressed-widget code makes into the window system, and its writes to
the globals of the dropdown module; the string shown by `window_tooltip_show` is the entry
`colourTooltips[dropdown_index]` of the table of 32 colour names. -/
inductive WidgetCall where
  | window_event_mouse_down_call (widgetIndex : Nat)
  | widget_invalidate_by_number (window_classification window_number : Nat) (widgetIndex : Int)
  | window_invalidate_by_class_WC_DROPDOWN
  | audio_play_click
  | set_gDropdownHighlightedIndex (value : Int)
  | set_gDropdownLastColourHover (value : Int)
  | window_tooltip_close
  | window_tooltip_show (dropdown_index : Int) (screenCoords : ScreenCoordsXY)
deriving DecidableEq, Repr

/-- The input globals of the pressed-widget state together with `_clickRepeatTicks` (an
`int16_t`) and the calls made so far. -/
structure WidgetPressGlobals where
  input : InputGlobals
  _clickRepeatTicks : Int
  calls : List WidgetCall
deriving DecidableEq, Repr

/-- What the pressed-widget code reads from the dropdown module, outside the excerpt: the
window class `WC_DROPDOWN`, the constants `DROPDOWN_ITEMS_MAX_SIZE` and
`DROPDOWN_SEPARATOR`, the globals `gDropdownDefaultIndex`, `gDropdownIsColour` and
`gDropdownLastColourHover` as they stand at the call, the table `gDropdownItemsFormat`, and
the functions `dropdown_index_from_point` and `dropdown_is_disabled`. -/
structure DropdownEnv where
  WC_DROPDOWN : Nat
  DROPDOWN_ITEMS_MAX_SIZE : Int
  DROPDOWN_SEPARATOR : Int
  gDropdownDefaultIndex : Int
  gDropdownIsColour : Bool
  gDropdownLastColourHover : Int
  gDropdownItemsFormat : Int → Int
  dropdown_index_from_point : ScreenCoordsXY → rct_window → Int
  dropdown_is_disabled : Int → Bool

/-- Embeds `widget_is_enabled(w, widgetIndex)`; the mask is taken in 64 bits. -/
def widget_is_enabled (w : rct_window) (widgetIndex : Nat) : Bool :=
  w.enabled_widgets &&& ((1 <<< widgetIndex) % 18446744073709551616) ≠ 0

/-- Embeds `widget_is_disabled(w, widgetIndex)`; the mask is taken in 64 bits. -/
def widget_is_disabled (w : rct_window) (widgetIndex : Nat) : Bool :=
  w.disabled_widgets &&& ((1 <<< widgetIndex) % 18446744073709551616) ≠ 0

/-- The `default` case of the switch of `input_widget_left`: the press of a plain widget of
the window `w`, which the caller has found again and brought to the front. -/
def input_widget_left_default (K : UiConstants) (w : rct_window) (widgetIndex : Nat)
    (g : WidgetPressGlobals) : WidgetPressGlobals :=
  if widget_is_enabled w widgetIndex ∧ ¬ widget_is_disabled w widgetIndex then
    { input :=
        { g.input with
          gPressedWidget := ⟨w.classification, w.number, (widgetIndex : Int)⟩,
          _inputFlags := g.input._inputFlags ||| K.INPUT_FLAG_WIDGET_PRESSED,
          _inputState := InputState.WidgetPressed },
      _clickRepeatTicks := 1,
      calls := g.calls ++ [WidgetCall.audio_play_click,
        WidgetCall.widget_invalidate_by_number w.classification w.number (widgetIndex : Int),
        WidgetCall.window_event_mouse_down_call widgetIndex] }
  else g

/-- The statements of `input_state_widget_pressed` behind the `switch`, which every `break`
reaches: the click-repeat counter is reset; outside a dropdown the widget-pressed flag is
cleared (`_inputFlags &= ~INPUT_FLAG_WIDGET_PRESSED`) and the pressed widget invalidated;
with a dropdown active the highlighted item is taken from the point under the cursor. -/
def input_state_widget_pressed.afterSwitch (K : UiConstants) (D : DropdownEnv)
    (screenCoords : ScreenCoordsXY) (w : Option rct_window) (g : WidgetPressGlobals) :
    WidgetPressGlobals :=
  let cursor_w_class := g.input.gPressedWidget.window_classification
  let cursor_w_number := g.input.gPressedWidget.window_number
  let cursor_widgetIndex := g.input.gPressedWidget.widget_index
  let g0 : WidgetPressGlobals := { g with _clickRepeatTicks := 0 }
  if g0.input._inputState ≠ InputState.DropdownActive then
    -- Hold down widget and drag outside of area??
    if g0.input._inputFlags &&& K.INPUT_FLAG_WIDGET_PRESSED ≠ 0 then
      { g0 with
        input := { g0.input with
          _inputFlags := g0.input._inputFlags
            ^^^ (g0.input._inputFlags &&& K.INPUT_FLAG_WIDGET_PRESSED) },
        calls := g0.calls
          ++ [WidgetCall.widget_invalidate_by_number cursor_w_class cursor_w_number
                cursor_widgetIndex] }
    else g0
  else
    let g1 : WidgetPressGlobals :=
      { g0 with calls := g0.calls ++ [WidgetCall.set_gDropdownHighlightedIndex (-1),
          WidgetCall.window_invalidate_by_class_WC_DROPDOWN] }
    match w with
    | none => g1
    | some w =>
      if w.classification = D.WC_DROPDOWN then
        let dropdown_index := D.dropdown_index_from_point screenCoords w
        if dropdown_index = -1 then g1
        else
          let g2 : WidgetPressGlobals :=
            if D.gDropdownIsColour = true ∧ D.gDropdownLastColourHover ≠ dropdown_index then
              { g1 with calls := g1.calls
                  ++ [WidgetCall.set_gDropdownLastColourHover dropdown_index,
                      WidgetCall.window_tooltip_close,
                      WidgetCall.window_tooltip_show dropdown_index screenCoords] }
            else g1
          if dropdown_index < D.DROPDOWN_ITEMS_MAX_SIZE
              ∧ D.dropdown_is_disabled dropdown_index = true then g2
          else if D.gDropdownItemsFormat dropdown_index = D.DROPDOWN_SEPARATOR then g2
          else
            { g2 with calls := g2.calls
                ++ [WidgetCall.set_gDropdownHighlightedIndex dropdown_index,
                    WidgetCall.window_invalidate_by_class_WC_DROPDOWN] }
      else
        { g1 with calls := g1.calls ++ [WidgetCall.set_gDropdownLastColourHover (-1),
            WidgetCall.window_tooltip_close] }

/-- The `MOUSE_STATE_RELEASED` case of `input_state_widget_pressed`, with the lookup of the
pressed window in front of the switch and the statements behind the switch that its
`break`s reach; `cursorWindowFound` is the result of `window_find_by_number` for the pressed
widget's window. The masks `1ULL << widgetIndex` are taken in 64 bits. -/
def input_state_widget_pressed_released (K : UiConstants) (D : DropdownEnv)
    (cursorWindowFound : Bool) (screenCoords : ScreenCoordsXY)
    (w : Option rct_window) (widgetIndex : Nat) (g : WidgetPressGlobals) : WidgetPressGlobals :=
  let cursor_w_class := g.input.gPressedWidget.window_classification
  let cursor_w_number := g.input.gPressedWidget.window_number
  let cursor_widgetIndex := g.input.gPressedWidget.widget_index
  if ¬ cursorWindowFound then
    { g with input := { g.input with _inputState := InputState.Reset } }
  else
    match w with
    | none => input_state_widget_pressed.afterSwitch K D screenCoords none g
    | some w =>
      if cursor_w_class ≠ w.classification ∨ cursor_w_number ≠ w.number
          ∨ (widgetIndex : Int) ≠ cursor_widgetIndex then
        input_state_widget_pressed.afterSwitch K D screenCoords (some w) g
      else if w.disabled_widgets &&& ((1 <<< widgetIndex) % 18446744073709551616) ≠ 0 then
        input_state_widget_pressed.afterSwitch K D screenCoords (some w) g
      else
        let g1 : WidgetPressGlobals :=
          if g._clickRepeatTicks ≠ 0 then
            let ticks := toInt16 (g._clickRepeatTicks + 1)
            let g2 := { g with _clickRepeatTicks := ticks }
            -- Handle click repeat
            if ticks ≥ 16 ∧ ticks % 4 = 0 then
              if w.hold_down_widgets &&& ((1 <<< widgetIndex) % 18446744073709551616) ≠ 0 then
                { g2 with calls := g2.calls ++ [WidgetCall.window_event_mouse_down_call widgetIndex] }
              else g2
            else g2
          else g
        if g1.input._inputFlags &&& K.INPUT_FLAG_WIDGET_PRESSED ≠ 0 then
          if g1.input._inputState = InputState.DropdownActive then
            { g1 with calls := g1.calls
                ++ [WidgetCall.set_gDropdownHighlightedIndex D.gDropdownDefaultIndex,
                    WidgetCall.window_invalidate_by_class_WC_DROPDOWN] }
          else g1
        else
          { g1 with
            input := { g1.input with
              _inputFlags := g1.input._inputFlags ||| K.INPUT_FLAG_WIDGET_PRESSED },
            calls := g1.calls
              ++ [WidgetCall.widget_invalidate_by_number cursor_w_class cursor_w_number
                    (widgetIndex : Int)] }

/-- A sample dropdown environment: window class 4 for the dropdown, 64 items at most, no
colour dropdown, every point on item 0 and nothing disabled. -/
def DropdownEnv.sample : DropdownEnv :=
  { WC_DROPDOWN := 4
    DROPDOWN_ITEMS_MAX_SIZE := 64
    DROPDOWN_SEPARATOR := 0
    gDropdownDefaultIndex := -1
    gDropdownIsColour := false
    gDropdownLastColourHover := -1
    gDropdownItemsFormat := fun _ => 1
    dropdown_index_from_point := fun _ _ => 0
    dropdown_is_disabled := fun _ => false }

/-! ## Transposition of the scrollbar hit-test -/

/-- The constants with the roles of the two scrollbar-visibility flags exchanged. -/
def UiConstants.transpose (K : UiConstants) : UiConstants :=
  { K with HSCROLLBAR_VISIBLE := K.VSCROLLBAR_VISIBLE, VSCROLLBAR_VISIBLE := K.HSCROLLBAR_VISIBLE }

/-- A widget with the two axes exchanged: left with top, right with bottom. -/
def rct_widget.transpose (widget : rct_widget) : rct_widget :=
  { widget with left := widget.top, right := widget.bottom,
                top := widget.left, bottom := widget.right }

/-- A scroll region with the two axes exchanged: offsets, extents and cached thumb bounds. -/
def rct_scroll.transpose (scroll : rct_scroll) : rct_scroll :=
  { scroll with
    h_left := scroll.v_top, h_right := scroll.v_bottom,
    h_thumb_left := scroll.v_thumb_top, h_thumb_right := scroll.v_thumb_bottom,
    v_top := scroll.h_left, v_bottom := scroll.h_right,
    v_thumb_top := scroll.h_thumb_left, v_thumb_bottom := scroll.h_thumb_right }

/-- A window with the two axes exchanged, in its position, size, widgets and scroll
regions. -/
def rct_window.transpose (w : rct_window) : rct_window :=
  { w with
    windowPos := ⟨w.windowPos.y, w.windowPos.x⟩,
    widgets := w.widgets.map rct_widget.transpose,
    scrolls := w.scrolls.map rct_scroll.transpose,
    width := w.height, height := w.width }

/-- The scroll part with the two axes exchanged: left with top, right with bottom. -/
def ScrollPart.transpose : ScrollPart → ScrollPart
  | ScrollPart.SCROLL_PART_NONE => ScrollPart.SCROLL_PART_NONE
  | ScrollPart.SCROLL_PART_VIEW => ScrollPart.SCROLL_PART_VIEW
  | ScrollPart.SCROLL_PART_HSCROLLBAR_LEFT => ScrollPart.SCROLL_PART_VSCROLLBAR_TOP
  | ScrollPart.SCROLL_PART_HSCROLLBAR_RIGHT => ScrollPart.SCROLL_PART_VSCROLLBAR_BOTTOM
  | ScrollPart.SCROLL_PART_HSCROLLBAR_LEFT_TROUGH => ScrollPart.SCROLL_PART_VSCROLLBAR_TOP_TROUGH
  | ScrollPart.SCROLL_PART_HSCROLLBAR_RIGHT_TROUGH =>
    ScrollPart.SCROLL_PART_VSCROLLBAR_BOTTOM_TROUGH
  | ScrollPart.SCROLL_PART_HSCROLLBAR_THUMB => ScrollPart.SCROLL_PART_VSCROLLBAR_THUMB
  | ScrollPart.SCROLL_PART_VSCROLLBAR_TOP => ScrollPart.SCROLL_PART_HSCROLLBAR_LEFT
  | ScrollPart.SCROLL_PART_VSCROLLBAR_BOTTOM => ScrollPart.SCROLL_PART_HSCROLLBAR_RIGHT
  | ScrollPart.SCROLL_PART_VSCROLLBAR_TOP_TROUGH => ScrollPart.SCROLL_PART_HSCROLLBAR_LEFT_TROUGH
  | ScrollPart.SCROLL_PART_VSCROLLBAR_BOTTOM_TROUGH =>
    ScrollPart.SCROLL_PART_HSCROLLBAR_RIGHT_TROUGH
  | ScrollPart.SCROLL_PART_VSCROLLBAR_THUMB => ScrollPart.SCROLL_PART_HSCROLLBAR_THUMB

/-- The part that the hit-test of the transposed window, with the transposed constants,
chooses at the transposed point, named back in the axes of the original window. -/
def transposedScrollPart (K : UiConstants) (w : rct_window) (widgetIndex : Nat)
    (screenCoords : ScreenCoordsXY) : ScrollPart :=
  (widget_scroll_get_part K.transpose w.transpose widgetIndex
    ⟨screenCoords.y, screenCoords.x⟩ ⟨0, 0⟩).output_scroll_area.transpose

/-! ## Ride-type index (`ObjectManager.cpp`) -/

/-- What the ride-type index takes from outside the excerpt: the type tag
`OBJECT_TYPE_RIDE`, the number of ride types `RIDE_TYPE_COUNT`, and the `ride_type` array of
a ride object's legacy data (`none` when `GetLegacyData()` is null). -/
structure RideConstants where
  OBJECT_TYPE_RIDE : Nat
  RIDE_TYPE_COUNT : Nat
  ride_type : Object → Option (List Nat)

/-- Embeds `ObjectManager::GetLoadedObject(size_t index)`. -/
def GetLoadedObject (m : ObjectManager) (index : Nat) : Option Object :=
  if index ≥ m._loadedObjects.length then none
  else m._loadedObjects.getD index none

/-- Embeds `ObjectManager::GetLoadedObject(int32_t objectType, size_t index)`. -/
def GetLoadedObject.ofType (L : ObjectLimits) (m : ObjectManager) (objectType : Nat)
    (index : Nat) : Option Object :=
  if index ≥ toSizeT (L.object_entry_group_counts.getD objectType 0) then none
  else
    let objectIndex := GetIndexFromTypeEntry L objectType index
    GetLoadedObject m (toSizeT objectIndex)

/-- The innermost loop of `ResetTypeToRideEntryIndexMap`: the ride object in ride slot `i`
is appended, as an `ObjectEntryIndex` of 16 bits, to the bucket of every ride type of its
`ride_type` array that is within the index. -/
def ResetTypeToRideEntryIndexMap.addEntry (i : Nat) (ride_type : List Nat)
    (_rideTypeToObjectMap : List (List Nat)) : List (List Nat) :=
  ride_type.foldl
    (fun map rideType =>
      if rideType < map.length then map.set rideType (map.getD rideType [] ++ [i % 65536])
      else map)
    _rideTypeToObjectMap

/-- Embeds `ObjectManager::ResetTypeToRideEntryIndexMap()`: the new `_rideTypeToObjectMap`
from the old one. -/
def ResetTypeToRideEntryIndexMap (L : ObjectLimits) (R : RideConstants) (m : ObjectManager)
    (_rideTypeToObjectMap : List (List Nat)) : List (List Nat) :=
  -- Clear all ride objects
  let cleared := _rideTypeToObjectMap.map (fun _ => ([] : List Nat))
  -- Build object lists
  let maxRideObjects := toSizeT (L.object_entry_group_counts.getD R.OBJECT_TYPE_RIDE 0)
  (List.range maxRideObjects).foldl
    (fun map i =>
      match GetLoadedObject.ofType L m R.OBJECT_TYPE_RIDE i with
      | none => map
      | some rideObject =>
        match R.ride_type rideObject with
        | none => map
        | some ride_type => ResetTypeToRideEntryIndexMap.addEntry i ride_type map)
    cleared

/-- Embeds `ObjectManager::GetAllRideEntries(rideType)`; `_nullRideTypeEntries` is never
written and stays empty. -/
def GetAllRideEntries (R : RideConstants) (_rideTypeToObjectMap : List (List Nat))
    (rideType : Nat) : List Nat :=
  if rideType ≥ R.RIDE_TYPE_COUNT then []
  else _rideTypeToObjectMap.getD rideType []

/-- The ride types of the ride object in ride slot `i`, empty when the slot is empty or the
object has no legacy data. -/
def rideTypesOfSlot (L : ObjectLimits) (R : RideConstants) (m : ObjectManager) (i : Nat) :
    List Nat :=
  match GetLoadedObject.ofType L m R.OBJECT_TYPE_RIDE i with
  | none => []
  | some rideObject => (R.ride_type rideObject).getD []

/-! ## Mouse input of a frame (`MouseInput.cpp`) -/

/-- Modelled from the spec: the enumerator `MOUSE_STATE_RELEASED` of `Input.h`, outside the
excerpt; the first of the mouse states, the value 0 that `game_get_next_input` returns when
no sample is buffered. -/
def MOUSE_STATE_RELEASED : Int := 0

/-- The calls that `game_handle_input` makes with a mouse sample. -/
inductive InputCall where
  | game_handle_input_mouse (screenCoords : ScreenCoordsXY) (state : Int)
  | process_mouse_over (screenCoords : ScreenCoordsXY)
  | process_mouse_tool (screenCoords : ScreenCoordsXY)
deriving DecidableEq, Repr

/-- Embeds `game_get_next_input(screenCoords)`: the returned state, the coordinates written
and the queue; `cursorPosition` is `context_get_cursor_state()->position`. -/
def game_get_next_input (cursorPosition : ScreenCoordsXY) (q : MouseInputQueue) :
    Int × ScreenCoordsXY × MouseInputQueue :=
  match get_mouse_input q with
  | (none, q1) => (0, cursorPosition, q1)
  | (some input, q1) => (toInt32 input.state, ⟨toInt32 input.x, toInt32 input.y⟩, q1)

/-- The `while` loop of `game_handle_input`: the state and coordinates of the sample that
ended it, the queue and the calls made. Every round costs one unit of `fuel`; no result when
the fuel runs out. -/
def game_handle_input.drain (cursorPosition : ScreenCoordsXY) :
    Nat → MouseInputQueue → List InputCall →
      Option (Int × ScreenCoordsXY × MouseInputQueue × List InputCall)
  | 0, _, _ => none
  | fuel + 1, q, calls =>
    let r := game_get_next_input cursorPosition q
    if r.1 ≠ MOUSE_STATE_RELEASED then
      game_handle_input.drain cursorPosition fuel r.2.2
        (calls ++ [InputCall.game_handle_input_mouse r.2.1 (r.1 % 256)])
    else some (r.1, r.2.1, r.2.2, calls)

/-- Embeds `game_handle_input()` as far as the mouse samples go: the periodic window updates
before and after are left out, `game_handle_input_mouse`, `process_mouse_over` and
`process_mouse_tool` are recorded as calls. `inputFlag5` is `_inputFlags & INPUT_FLAG_5`,
the screen size comes from `context_get_width()` and `context_get_height()`. -/
def game_handle_input (fuel : Nat) (inputFlag5 : Bool) (screenWidth screenHeight : Int)
    (cursorPosition : ScreenCoordsXY) (q : MouseInputQueue) :
    Option (MouseInputQueue × List InputCall) :=
  match game_handle_input.drain cursorPosition fuel q [] with
  | none => none
  | some (state, screenCoords, q1, calls) =>
    if inputFlag5 then
      some (q1, calls ++ [InputCall.game_handle_input_mouse screenCoords state])
    else
      let clamped : ScreenCoordsXY :=
        ⟨clamp screenCoords.x 0 (screenWidth - 1), clamp screenCoords.y 0 (screenHeight - 1)⟩
      some (q1, calls ++ [InputCall.game_handle_input_mouse clamped state,
        InputCall.process_mouse_over clamped, InputCall.process_mouse_tool clamped])

/-! ## Footpath item loader (`FootpathItemObject.cpp`) -/

/-- Modelled from the spec: the stream `OpenRCT2::IStream`, defined outside the excerpt; the
bytes of the object file and the read position. -/
structure IStream where
  data : List Nat
  position : Nat
deriving DecidableEq, Repr

/-- Modelled from the spec: `IStream::Seek(offset, STREAM_SEEK_CURRENT)`, which skips
`offset` bytes. -/
def IStream.Seek (stream : IStream) (offset : Nat) : IStream :=
  { stream with position := stream.position + offset }

/-- Modelled from the spec: `IStream::ReadValue<uint8_t>()`; no result past the end of the
data, where the stream throws. -/
def IStream.ReadValue_uint8 (stream : IStream) : Option (Nat × IStream) :=
  if stream.position < stream.data.length then
    some (stream.data.getD stream.position 0 % 256, { stream with position := stream.position + 1 })
  else none

/-- Modelled from the spec: `IStream::ReadValue<uint16_t>()`, two bytes, low byte first. -/
def IStream.ReadValue_uint16 (stream : IStream) : Option (Nat × IStream) :=
  if stream.position + 2 ≤ stream.data.length then
    some (stream.data.getD stream.position 0 % 256
        + 256 * (stream.data.getD (stream.position + 1) 0 % 256),
      { stream with position := stream.position + 2 })
  else none

/-- Modelled from the spec: `IStream::ReadValue<int16_t>()`, two bytes, low byte first, read
as a signed value. -/
def IStream.ReadValue_int16 (stream : IStream) : Option (Int × IStream) :=
  match stream.ReadValue_uint16 with
  | none => none
  | some (v, stream1) => some (toInt16 v, stream1)

/-- Modelled from the spec: `IStream::ReadValue<rct_object_entry>()`, sixteen bytes: the
flags (four bytes, low byte first), the eight bytes of the name and the checksum. -/
def IStream.ReadValue_rct_object_entry (stream : IStream) :
    Option (rct_object_entry × IStream) :=
  if stream.position + 16 ≤ stream.data.length then
    let byte := fun (k : Nat) => stream.data.getD (stream.position + k) 0 % 256
    some (⟨byte 0 + 256 * byte 1 + 65536 * byte 2 + 16777216 * byte 3,
           (List.range 8).map (fun k => byte (4 + k)),
           byte 12 + 256 * byte 13 + 65536 * byte 14 + 16777216 * byte 15⟩,
      { stream with position := stream.position + 16 })
  else none

/-- The member `path_bit` of the union in `rct_scenery_entry`. -/
structure rct_path_bit_scenery_entry where
  flags : Nat
  draw_type : Nat
  tool_id : Nat
  price : Int
  scenery_tab_id : Nat
deriving DecidableEq, Repr

/-- The error codes of `ObjectError` that occur here. -/
inductive ObjectError where
  | InvalidProperty
  | BadStringTable
  | BadImageTable
deriving DecidableEq, Repr

/-- The source games of `ObjectSourceGame`. -/
inductive ObjectSourceGame where
  | Custom
  | WackyWorlds
  | TimeTwister
  | OpenRCT2Official
  | RCT1
  | AddedAttractions
  | LoopyLandscape
  | RCT2
deriving DecidableEq, Repr

/-- What `ReadLegacy` takes from outside the excerpt: the sentinel
`OBJECT_ENTRY_INDEX_NULL`; what a read of the union member `large_scenery.price` yields
while `path_bit` is the member that was written, which depends on the layout of
`rct_scenery_entry` in `Scenery.h`; the string table and image table readers, which consume
bytes of the stream and may log errors or throw; the source game of the catalogue item that
`FindObject` finds for the object's own identifier; and the `SCGPATHX` header. -/
structure LegacyReadEnv where
  OBJECT_ENTRY_INDEX_NULL : Nat
  large_scenery_price : rct_path_bit_scenery_entry → Int
  StringTableRead : IStream → Option (IStream × List ObjectError)
  ImageTableRead : IStream → Option (IStream × List ObjectError)
  foundSourceGame : Option ObjectSourceGame
  scgPathX : rct_object_entry

/-- The footpath item after `ReadLegacy`: the `path_bit` fields of `_legacyType`, the
primary scenery group, the stream, and the errors logged through the context. -/
structure FootpathItemObject where
  path_bit : rct_path_bit_scenery_entry
  primarySceneryGroup : rct_object_entry
  stream : IStream
  errors : List ObjectError
deriving DecidableEq, Repr

/-- The part of `FootpathItemObject::ReadLegacy` from the read of the name string table on;
`path_bit` holds the header that was read and `stream` stands behind it. -/
def FootpathItemObject.ReadLegacy.tables (E : LegacyReadEnv)
    (path_bit : rct_path_bit_scenery_entry) (stream : IStream) : Option FootpathItemObject :=
  match E.StringTableRead stream with
  | none => none
  | some (stream1, errors1) =>
    match stream1.ReadValue_rct_object_entry with
    | none => none
    | some (sgEntry, stream2) =>
      match E.ImageTableRead stream2 with
      | none => none
      | some (stream3, errors2) =>
        -- Validate properties
        let errors3 :=
          if E.large_scenery_price path_bit ≤ 0 then [ObjectError.InvalidProperty] else []
        let group :=
          match E.foundSourceGame with
          | none => sgEntry
          | some sourceGame =>
            if sourceGame = ObjectSourceGame.WackyWorlds
                ∨ sourceGame = ObjectSourceGame.TimeTwister
                ∨ sourceGame = ObjectSourceGame.Custom then E.scgPathX
            else sgEntry
        some { path_bit := path_bit, primarySceneryGroup := group, stream := stream3,
               errors := errors1 ++ errors2 ++ errors3 }

/-- Embeds `FootpathItemObject::ReadLegacy(context, stream)`; no result when a read
throws. -/
def FootpathItemObject.ReadLegacy (E : LegacyReadEnv) (stream : IStream) :
    Option FootpathItemObject :=
  let stream0 := stream.Seek 6
  match stream0.ReadValue_uint16 with
  | none => none
  | some (flags, stream1) =>
    match stream1.ReadValue_uint8 with
    | none => none
    | some (draw_type, stream2) =>
      match stream2.ReadValue_uint8 with
      | none => none
      | some (tool_id, stream3) =>
        match stream3.ReadValue_int16 with
        | none => none
        | some (price, stream4) =>
          let path_bit : rct_path_bit_scenery_entry :=
            ⟨flags, draw_type, tool_id, price, E.OBJECT_ENTRY_INDEX_NULL⟩
          let stream5 := stream4.Seek 2
          FootpathItemObject.ReadLegacy.tables E path_bit stream5

/-- A sample environment: the packed layout of `Scenery.h`, in which `large_scenery.price`
lies on the bytes of `path_bit.draw_type` and `path_bit.tool_id`; table readers that read
nothing and log nothing; an object unknown to the repository. -/
def LegacyReadEnv.sample : LegacyReadEnv :=
  { OBJECT_ENTRY_INDEX_NULL := 65535
    large_scenery_price := fun path_bit => toInt16 (path_bit.draw_type + 256 * path_bit.tool_id)
    StringTableRead := fun stream => some (stream, [])
    ImageTableRead := fun stream => some (stream, [])
    foundSourceGame := none
    scgPathX := ⟨0, [83, 67, 71, 80, 65, 84, 72, 88], 0⟩ }

/-- Sample constants of the ride-type index: rides are object type 0, there are four ride
types, and the legacy data of a ride object is told by its instance id: object 9 has none,
every other object `k` has the ride types `k % 4` and 2. -/
def RideConstants.sample : RideConstants :=
  { OBJECT_TYPE_RIDE := 0
    RIDE_TYPE_COUNT := 4
    ride_type := fun object => if object.id = 9 then none else some [object.id % 4, 2] }

/-- Sample capacities for the ride-type index: three ride slots, then two slots of a second
type. -/
def sampleRideLimits : ObjectLimits :=
  { object_entry_group_counts := [3, 2]
    OBJECT_ENTRY_COUNT := 5
    OBJECT_TYPE_SCENARIO_TEXT := 99 }

/-- A sample slot array: ride slots 0 and 2 hold objects 1 and 7, ride slot 1 is empty, and
the second type holds object 5 in its first slot. -/
def sampleRideManager : ObjectManager :=
  { items := []
    nextObjectId := 0
    _loadedObjects := [some ⟨1, ⟨0, [], 0⟩⟩, none, some ⟨7, ⟨0, [], 0⟩⟩, some ⟨5, ⟨0, [], 0⟩⟩, none]
    events := [] }

/-! ## Theorems: mouse-input queue -/

theorem store_mouse_input_wellFormed (st : Int) (c : ScreenCoordsXY) (q : MouseInputQueue)
    (h : q.WellFormed) : (store_mouse_input st c q).WellFormed := by
  obtain ⟨hl, hr, hw⟩ := h
  unfold store_mouse_input MouseInputQueue.WellFormed
  simp only [mouseInputQueueSize] at *
  split
  · refine ⟨?_, ?_, ?_⟩
    · simpa using hl
    · simpa using hr
    · simp only []
      omega
  · exact ⟨hl, hr, hw⟩

theorem get_mouse_input_wellFormed (q : MouseInputQueue) (h : q.WellFormed) :
    (get_mouse_input q).2.WellFormed := by
  obtain ⟨hl, hr, hw⟩ := h
  unfold get_mouse_input MouseInputQueue.WellFormed
  simp only [mouseInputQueueSize] at *
  split
  · exact ⟨hl, hr, hw⟩
  · refine ⟨?_, ?_, ?_⟩
    · simpa using hl
    · simp only []
      omega
    · simpa using hw

theorem initial_wellFormed : MouseInputQueue.initial.WellFormed := by
  refine ⟨?_, ?_, ?_⟩ <;> simp [MouseInputQueue.initial, mouseInputQueueSize]

theorem store_mouse_input_full (st : Int) (c : ScreenCoordsXY) (q : MouseInputQueue)
    (hfull : (q._mouseInputQueueWriteIndex + 1) % 64 = q._mouseInputQueueReadIndex) :
    store_mouse_input st c q = q := by
  unfold store_mouse_input
  simp [mouseInputQueueSize, hfull]

theorem bufferedCount_store (st : Int) (c : ScreenCoordsXY) (q : MouseInputQueue)
    (h : q.WellFormed)
    (hfree : (q._mouseInputQueueWriteIndex + 1) % 64 ≠ q._mouseInputQueueReadIndex) :
    bufferedCount (store_mouse_input st c q) = bufferedCount q + 1 := by
  obtain ⟨hl, hr, hw⟩ := h
  unfold store_mouse_input bufferedCount
  simp only [mouseInputQueueSize] at *
  rw [if_pos hfree]
  simp only []
  omega

theorem bufferedSamples_store (st : Int) (c : ScreenCoordsXY) (q : MouseInputQueue)
    (h : q.WellFormed)
    (hfree : (q._mouseInputQueueWriteIndex + 1) % 64 ≠ q._mouseInputQueueReadIndex) :
    bufferedSamples (store_mouse_input st c q) = bufferedSamples q ++ [mouseSample st c] := by
  have hcount := bufferedCount_store st c q h hfree
  obtain ⟨hl, hr, hw⟩ := h
  unfold bufferedSamples
  rw [hcount, List.range_succ, List.map_append]
  have hq : (store_mouse_input st c q)._mouseInputQueue
      = q._mouseInputQueue.set q._mouseInputQueueWriteIndex (mouseSample st c) := by
    unfold store_mouse_input
    simp only [mouseInputQueueSize]
    rw [if_pos hfree]
  have hrd : (store_mouse_input st c q)._mouseInputQueueReadIndex
      = q._mouseInputQueueReadIndex := by
    unfold store_mouse_input
    simp only [mouseInputQueueSize]
    rw [if_pos hfree]
  rw [hq, hrd]
  simp only [mouseInputQueueSize, bufferedCount] at *
  congr 1
  · apply List.map_congr_left
    intro k hk
    rw [List.mem_range] at hk
    have hne : q._mouseInputQueueWriteIndex ≠ (q._mouseInputQueueReadIndex + k) % 64 := by
      omega
    simp [List.getD_eq_getElem?_getD, List.getElem?_set_ne hne]
  · have heq : (q._mouseInputQueueReadIndex
        + (q._mouseInputQueueWriteIndex + 64 - q._mouseInputQueueReadIndex) % 64) % 64
        = q._mouseInputQueueWriteIndex := by omega
    simp only [List.map_cons, List.map_nil, heq]
    have hlt : q._mouseInputQueueWriteIndex < q._mouseInputQueue.length := by omega
    simp [List.getD_eq_getElem?_getD, hlt]

theorem bufferedSamples_get (q : MouseInputQueue) (h : q.WellFormed)
    (hne : q._mouseInputQueueReadIndex ≠ q._mouseInputQueueWriteIndex) :
    (get_mouse_input q).1
        = some (q._mouseInputQueue.getD q._mouseInputQueueReadIndex ⟨0, 0, 0⟩) ∧
      bufferedSamples q
        = q._mouseInputQueue.getD q._mouseInputQueueReadIndex ⟨0, 0, 0⟩
            :: bufferedSamples (get_mouse_input q).2 := by
  obtain ⟨hl, hr, hw⟩ := h
  have hg : get_mouse_input q
      = (some (q._mouseInputQueue.getD q._mouseInputQueueReadIndex ⟨0, 0, 0⟩),
         { q with _mouseInputQueueReadIndex :=
             ((q._mouseInputQueueReadIndex + 1) % mouseInputQueueSize) % 256 }) := by
    unfold get_mouse_input
    rw [if_neg hne]
  rw [hg]
  refine ⟨rfl, ?_⟩
  unfold bufferedSamples
  simp only [mouseInputQueueSize, bufferedCount] at *
  have hc : (q._mouseInputQueueWriteIndex + 64 - q._mouseInputQueueReadIndex) % 64
      = (q._mouseInputQueueWriteIndex + 64 - (q._mouseInputQueueReadIndex + 1) % 64 % 256) % 64
          + 1 := by omega
  rw [hc, List.range_succ_eq_map, List.map_cons, List.map_map]
  congr 1
  · simp [Nat.mod_eq_of_lt hr]
  apply List.map_congr_left
  intro k _
  have hi : (q._mouseInputQueueReadIndex + (k + 1)) % 64
      = ((q._mouseInputQueueReadIndex + 1) % 64 % 256 + k) % 64 := by omega
  simp [hi]

theorem bufferedSamples_empty (q : MouseInputQueue)
    (he : q._mouseInputQueueReadIndex = q._mouseInputQueueWriteIndex) :
    bufferedSamples q = [] := by
  unfold bufferedSamples bufferedCount
  simp [mouseInputQueueSize, he]

theorem bufferedSamples_length (q : MouseInputQueue) :
    (bufferedSamples q).length = bufferedCount q := by
  simp [bufferedSamples]

theorem bufferedCount_lt_iff (q : MouseInputQueue) (h : q.WellFormed) :
    bufferedCount q < 63 ↔
      (q._mouseInputQueueWriteIndex + 1) % 64 ≠ q._mouseInputQueueReadIndex := by
  obtain ⟨hl, hr, hw⟩ := h
  simp only [mouseInputQueueSize, bufferedCount] at *
  omega

theorem get_mouse_input_none_iff (q : MouseInputQueue) :
    (get_mouse_input q).1 = none ↔
      q._mouseInputQueueReadIndex = q._mouseInputQueueWriteIndex := by
  unfold get_mouse_input
  split <;> simp_all

theorem get_mouse_input_empty (q : MouseInputQueue)
    (he : q._mouseInputQueueReadIndex = q._mouseInputQueueWriteIndex) :
    get_mouse_input q = (none, q) := by
  unfold get_mouse_input
  rw [if_pos he]

theorem get_mouse_input_refines (q : MouseInputQueue) (h : q.WellFormed) :
    (get_mouse_input q).1 = (fifoGet (bufferedSamples q)).1 ∧
      bufferedSamples (get_mouse_input q).2 = (fifoGet (bufferedSamples q)).2 := by
  by_cases he : q._mouseInputQueueReadIndex = q._mouseInputQueueWriteIndex
  · rw [get_mouse_input_empty q he, bufferedSamples_empty q he]
    exact ⟨rfl, rfl⟩
  · obtain ⟨h1, h2⟩ := bufferedSamples_get q h he
    rw [h2, h1]
    exact ⟨rfl, rfl⟩

theorem store_mouse_input_refines (st : Int) (c : ScreenCoordsXY) (q : MouseInputQueue)
    (h : q.WellFormed) :
    bufferedSamples (store_mouse_input st c q)
      = fifoStore (mouseSample st c) (bufferedSamples q) := by
  unfold fifoStore
  rw [bufferedSamples_length]
  by_cases hfree : (q._mouseInputQueueWriteIndex + 1) % 64 ≠ q._mouseInputQueueReadIndex
  · rw [if_pos ((bufferedCount_lt_iff q h).2 hfree)]
    exact bufferedSamples_store st c q h hfree
  · rw [if_neg (fun hlt => hfree ((bufferedCount_lt_iff q h).1 hlt))]
    rw [store_mouse_input_full st c q (not_not.1 hfree)]

theorem runMouseQueue_refines (ops : List MouseQueueOp) (q : MouseInputQueue)
    (h : q.WellFormed) :
    (runMouseQueue ops q).1 = (runFifo ops (bufferedSamples q)).1 ∧
      bufferedSamples (runMouseQueue ops q).2 = (runFifo ops (bufferedSamples q)).2 ∧
      (runMouseQueue ops q).2.WellFormed := by
  induction ops generalizing q with
  | nil => exact ⟨rfl, rfl, h⟩
  | cons op ops ih =>
    cases op with
    | store st c =>
      have ih1 := ih (store_mouse_input st c q) (store_mouse_input_wellFormed st c q h)
      rw [store_mouse_input_refines st c q h] at ih1
      exact ih1
    | get =>
      have ih1 := ih (get_mouse_input q).2 (get_mouse_input_wellFormed q h)
      obtain ⟨g1, g2⟩ := get_mouse_input_refines q h
      rw [g2] at ih1
      obtain ⟨i1, i2, i3⟩ := ih1
      refine ⟨?_, i2, i3⟩
      show (get_mouse_input q).1 :: (runMouseQueue ops (get_mouse_input q).2).1
        = (fifoGet (bufferedSamples q)).1 :: (runFifo ops (fifoGet (bufferedSamples q)).2).1
      rw [g1, i1]

theorem storeAll_accepts (samples : List (Int × ScreenCoordsXY)) (q : MouseInputQueue)
    (h : q.WellFormed) (hroom : bufferedCount q + samples.length ≤ 63) :
    bufferedSamples (storeAll samples q)
        = bufferedSamples q ++ samples.map (fun s => mouseSample s.1 s.2) ∧
      (storeAll samples q).WellFormed := by
  induction samples generalizing q with
  | nil => exact ⟨by simp [storeAll], h⟩
  | cons s rest ih =>
    have hlt : bufferedCount q < 63 := by
      simp only [List.length_cons] at hroom
      omega
    have hfree := (bufferedCount_lt_iff q h).1 hlt
    have hwf := store_mouse_input_wellFormed s.1 s.2 q h
    have hcnt := bufferedCount_store s.1 s.2 q h hfree
    have hroom1 : bufferedCount (store_mouse_input s.1 s.2 q) + rest.length ≤ 63 := by
      simp only [List.length_cons] at hroom
      omega
    obtain ⟨i1, i2⟩ := ih (store_mouse_input s.1 s.2 q) hwf hroom1
    refine ⟨?_, i2⟩
    show bufferedSamples (storeAll rest (store_mouse_input s.1 s.2 q)) = _
    rw [i1, bufferedSamples_store s.1 s.2 q h hfree]
    simp

theorem drainMouseQueue_terminates (fuel : Nat) (q : MouseInputQueue) (h : q.WellFormed)
    (hfuel : bufferedCount q < fuel) :
    ∃ q1, drainMouseQueue fuel q = some q1 ∧
      q1._mouseInputQueueReadIndex = q1._mouseInputQueueWriteIndex := by
  induction fuel generalizing q with
  | zero => omega
  | succ fuel ih =>
    by_cases he : q._mouseInputQueueReadIndex = q._mouseInputQueueWriteIndex
    · refine ⟨q, ?_, he⟩
      simp [drainMouseQueue, get_mouse_input_empty q he]
    · obtain ⟨h1, h2⟩ := bufferedSamples_get q h he
      have hlen := congrArg List.length h2
      rw [List.length_cons, bufferedSamples_length, bufferedSamples_length] at hlen
      have hwf := get_mouse_input_wellFormed q h
      obtain ⟨q1, d1, d2⟩ := ih (get_mouse_input q).2 hwf (by omega)
      refine ⟨q1, ?_, d2⟩
      rw [← d1]
      rcases hg : get_mouse_input q with ⟨r, q2⟩
      rw [hg] at h1
      simp only at h1
      subst h1
      simp [drainMouseQueue, hg]

theorem storeAll_fills (samples : List (Int × ScreenCoordsXY)) (q : MouseInputQueue)
    (h : q.WellFormed)
    (hempty : q._mouseInputQueueReadIndex = q._mouseInputQueueWriteIndex)
    (hlen : samples.length = 63) (st : Int) (c : ScreenCoordsXY) :
    bufferedSamples (storeAll samples q) = samples.map (fun s => mouseSample s.1 s.2) ∧
    bufferedCount (storeAll samples q) = 63 ∧
    (storeAll samples q).WellFormed ∧
    store_mouse_input st c (storeAll samples q) = storeAll samples q := by
  have h0 : bufferedCount q = 0 := by
    simp [bufferedCount, mouseInputQueueSize, hempty]
  obtain ⟨a1, a2⟩ := storeAll_accepts samples q h (by omega)
  rw [bufferedSamples_empty q hempty, List.nil_append] at a1
  have hcnt : bufferedCount (storeAll samples q) = 63 := by
    rw [← bufferedSamples_length, a1, List.length_map, hlen]
  refine ⟨a1, hcnt, a2, ?_⟩
  apply store_mouse_input_full
  by_contra hfree
  have := (bufferedCount_lt_iff _ a2).2 hfree
  omega

/-- C8: the ring buffer simulates a FIFO list bounded at 63 elements with drop-newest.
For every interleaving of `store_mouse_input` and `get_mouse_input` calls from the
initial statics, the answers of the `get` calls are those of the bounded FIFO list and
the buffered cells are its content; in the state reached, a store appends its sample
when `(write + 1) mod 64` differs from `read` and otherwise changes nothing, a get
returns the oldest buffered sample and removes it, and a get reports no sample exactly
when `read = write`. -/
theorem mouse_queue_refines_bounded_fifo (ops : List MouseQueueOp) :
    (runMouseQueue ops MouseInputQueue.initial).1 = (runFifo ops []).1 ∧
    bufferedSamples (runMouseQueue ops MouseInputQueue.initial).2 = (runFifo ops []).2 ∧
    (bufferedSamples (runMouseQueue ops MouseInputQueue.initial).2).length ≤ 63 ∧
    (∀ (st : Int) (c : ScreenCoordsXY),
      ((((runMouseQueue ops MouseInputQueue.initial).2._mouseInputQueueWriteIndex + 1) % 64
          ≠ (runMouseQueue ops MouseInputQueue.initial).2._mouseInputQueueReadIndex →
        bufferedSamples (store_mouse_input st c (runMouseQueue ops MouseInputQueue.initial).2)
          = bufferedSamples (runMouseQueue ops MouseInputQueue.initial).2
              ++ [mouseSample st c]) ∧
       (((runMouseQueue ops MouseInputQueue.initial).2._mouseInputQueueWriteIndex + 1) % 64
          = (runMouseQueue ops MouseInputQueue.initial).2._mouseInputQueueReadIndex →
        store_mouse_input st c (runMouseQueue ops MouseInputQueue.initial).2
          = (runMouseQueue ops MouseInputQueue.initial).2))) ∧
    ((get_mouse_input (runMouseQueue ops MouseInputQueue.initial).2).1 = none ↔
      (runMouseQueue ops MouseInputQueue.initial).2._mouseInputQueueReadIndex
        = (runMouseQueue ops MouseInputQueue.initial).2._mouseInputQueueWriteIndex) ∧
    (get_mouse_input (runMouseQueue ops MouseInputQueue.initial).2).1
      = (bufferedSamples (runMouseQueue ops MouseInputQueue.initial).2).head? ∧
    bufferedSamples (get_mouse_input (runMouseQueue ops MouseInputQueue.initial).2).2
      = (bufferedSamples (runMouseQueue ops MouseInputQueue.initial).2).tail := by
  obtain ⟨r1, r2, r3⟩ := runMouseQueue_refines ops MouseInputQueue.initial initial_wellFormed
  rw [bufferedSamples_empty MouseInputQueue.initial rfl] at r1 r2
  have hcount : bufferedCount (runMouseQueue ops MouseInputQueue.initial).2 ≤ 63 := by
    have hw := r3
    obtain ⟨_, hr, hw⟩ := hw
    simp only [mouseInputQueueSize, bufferedCount] at *
    omega
  obtain ⟨g1, g2⟩ := get_mouse_input_refines _ r3
  refine ⟨r1, r2, ?_, ?_, get_mouse_input_none_iff _, ?_, ?_⟩
  · rw [bufferedSamples_length]
    exact hcount
  · intro st c
    exact ⟨fun hfree => bufferedSamples_store st c _ r3 hfree,
      fun hfull => store_mouse_input_full st c _ hfull⟩
  · rw [g1]
    cases bufferedSamples (runMouseQueue ops MouseInputQueue.initial).2 <;> rfl
  · rw [g2]
    cases bufferedSamples (runMouseQueue ops MouseInputQueue.initial).2 <;> rfl

/-- C7 (as stated, refuted): from the empty initial queue, 64 consecutive stores do not
buffer 64 samples. Only 63 are buffered, and the 64th call already leaves the queue as
the 63rd left it. -/
theorem mouse_queue_sixty_fourth_store_dropped :
    bufferedCount (storeAll (List.replicate 64 (1, ⟨5, 7⟩)) MouseInputQueue.initial) = 63 ∧
    storeAll (List.replicate 64 (1, ⟨5, 7⟩)) MouseInputQueue.initial
      = storeAll (List.replicate 63 (1, ⟨5, 7⟩)) MouseInputQueue.initial := by
  have hsplit : storeAll (List.replicate 64 (1, ⟨5, 7⟩)) MouseInputQueue.initial
      = store_mouse_input 1 ⟨5, 7⟩
          (storeAll (List.replicate 63 (1, ⟨5, 7⟩)) MouseInputQueue.initial) := by
    rw [show (64 : Nat) = 63 + 1 from rfl, List.replicate_succ']
    simp [storeAll, List.foldl_append]
  obtain ⟨_, f2, _, f4⟩ := storeAll_fills (List.replicate 63 (1, ⟨5, 7⟩))
    MouseInputQueue.initial initial_wellFormed rfl (by simp) 1 ⟨5, 7⟩
  rw [hsplit, f4]
  exact ⟨f2, rfl⟩

/-- C7 (amended): from any empty queue (`read = write`), 63 consecutive
`store_mouse_input` calls with no dequeue in between are all accepted, so that exactly
those 63 samples are buffered in order; the next call is dropped and leaves the queue
state unchanged; and calling `get_mouse_input` until it reports no sample ends, within
64 calls, in a state whose read index equals the write index. -/
theorem mouse_queue_backpressure (q : MouseInputQueue) (h : q.WellFormed)
    (hempty : q._mouseInputQueueReadIndex = q._mouseInputQueueWriteIndex)
    (samples : List (Int × ScreenCoordsXY)) (hlen : samples.length = 63)
    (st : Int) (c : ScreenCoordsXY) :
    bufferedSamples (storeAll samples q) = samples.map (fun s => mouseSample s.1 s.2) ∧
    store_mouse_input st c (storeAll samples q) = storeAll samples q ∧
    ∃ q1, drainMouseQueue 64 (storeAll samples q) = some q1 ∧
      q1._mouseInputQueueReadIndex = q1._mouseInputQueueWriteIndex := by
  obtain ⟨f1, f2, f3, f4⟩ := storeAll_fills samples q h hempty hlen st c
  exact ⟨f1, f4, drainMouseQueue_terminates 64 _ f3 (by omega)⟩

/-- Witness for `mouse_queue_backpressure`: the initial statics and 63 identical samples. -/
theorem mouse_queue_backpressure_witness :
    bufferedSamples (storeAll (List.replicate 63 (1, ⟨5, 7⟩)) MouseInputQueue.initial)
      = (List.replicate 63 ((1 : Int), (⟨5, 7⟩ : ScreenCoordsXY))).map
          (fun s => mouseSample s.1 s.2) ∧
    store_mouse_input 2 ⟨9, 9⟩ (storeAll (List.replicate 63 (1, ⟨5, 7⟩)) MouseInputQueue.initial)
      = storeAll (List.replicate 63 (1, ⟨5, 7⟩)) MouseInputQueue.initial ∧
    ∃ q1, drainMouseQueue 64 (storeAll (List.replicate 63 (1, ⟨5, 7⟩)) MouseInputQueue.initial)
        = some q1 ∧
      q1._mouseInputQueueReadIndex = q1._mouseInputQueueWriteIndex :=
  mouse_queue_backpressure MouseInputQueue.initial initial_wellFormed rfl
    (List.replicate 63 (1, ⟨5, 7⟩)) (by simp) 2 ⟨9, 9⟩

/-! ## Theorems: widgets -/

theorem pressed_mask_ne_zero_iff (p i : Nat) (hi : i < 64) :
    (p &&& ((1 <<< i) % 18446744073709551616) ≠ 0) ↔ p.testBit i = true := by
  have hpow : (1 <<< i) % 18446744073709551616 = 2 ^ i := by
    rw [Nat.shiftLeft_eq, Nat.one_mul]
    apply Nat.mod_eq_of_lt
    calc 2 ^ i < 2 ^ 64 := Nat.pow_lt_pow_right (by decide) hi
      _ = 18446744073709551616 := by norm_num
  rw [hpow, Nat.and_two_pow]
  cases h : p.testBit i
  · simp
  · simp

theorem widget_is_pressed_eq (K : UiConstants) (g : InputGlobals) (w : rct_window)
    (i : Nat) (hi : i < 64) :
    widget_is_pressed K g w i = true ↔
      (w.pressed_widgets.testBit i = true ∨
        ((g._inputState = InputState.WidgetPressed ∨ g._inputState = InputState.DropdownActive) ∧
          input_test_flag g K.INPUT_FLAG_WIDGET_PRESSED = true ∧
          g.gPressedWidget = ⟨w.classification, w.number, (i : Int)⟩)) := by
  have hbit := pressed_mask_ne_zero_iff w.pressed_widgets i hi
  have href : g.gPressedWidget = ⟨w.classification, w.number, (i : Int)⟩ ↔
      (g.gPressedWidget.window_classification = w.classification ∧
        g.gPressedWidget.window_number = w.number ∧
        g.gPressedWidget.widget_index = (i : Int)) := by
    cases g.gPressedWidget
    simp
  rw [href]
  unfold widget_is_pressed input_get_state
  by_cases hb : w.pressed_widgets.testBit i = true
  · rw [if_pos (hbit.2 hb)]
    simp [hb]
  · rw [if_neg (fun h => hb (hbit.1 h))]
    by_cases hs : g._inputState = InputState.WidgetPressed
        ∨ g._inputState = InputState.DropdownActive
    · rw [if_pos hs]
      by_cases hf : input_test_flag g K.INPUT_FLAG_WIDGET_PRESSED = true
      · by_cases h1 : g.gPressedWidget.window_classification = w.classification <;>
        by_cases h2 : g.gPressedWidget.window_number = w.number <;>
        by_cases h3 : g.gPressedWidget.widget_index = (i : Int) <;>
        simp [hb, hs, hf, h1, h2, h3]
      · simp [hb, hf]
    · rw [if_neg hs]
      simp [hb, hs]

/-- C9 (as stated, refuted): with the reference set to widget 0 of the window and the
state `WidgetPressed`, `widget_is_pressed` still answers false for that widget when the
`INPUT_FLAG_WIDGET_PRESSED` flag is clear; and it answers true for widget 1 of the same
window, which is not the referenced widget, when bit 1 of `pressed_widgets` is set. -/
theorem widget_is_pressed_differs_from_reference :
    (widget_is_pressed UiConstants.sample
        { _inputState := InputState.WidgetPressed, _inputFlags := 0, gPressedWidget := ⟨1, 2, 0⟩ }
        { classification := 1, number := 2, windowPos := ⟨0, 0⟩, widgets := [],
          enabled_widgets := 0, disabled_widgets := 0, pressed_widgets := 0,
          hold_down_widgets := 0, scrolls := [] } 0 = false) ∧
    (widget_is_pressed UiConstants.sample
        { _inputState := InputState.WidgetPressed, _inputFlags := 1, gPressedWidget := ⟨1, 2, 0⟩ }
        { classification := 1, number := 2, windowPos := ⟨0, 0⟩, widgets := [],
          enabled_widgets := 0, disabled_widgets := 0, pressed_widgets := 2,
          hold_down_widgets := 0, scrolls := [] } 1 = true) := by
  decide

/-- C9 (amended): for every window `w`, widget index `i < 64` and input state,
`widget_is_pressed(w, i)` is true if and only if bit `i` of `w.pressed_widgets` is set,
or the input state is `WidgetPressed` or `DropdownActive`, the `INPUT_FLAG_WIDGET_PRESSED`
input flag is set and the pressed-widget reference equals
`(w.classification, w.number, i)`. Consequently, when the reference is set to widget `W`
of window `X`, a widget whose own `pressed_widgets` bit is clear is reported pressed only
if it is `(X, W)`. -/
theorem widget_is_pressed_iff (K : UiConstants) (g : InputGlobals) (w : rct_window)
    (i : Nat) (hi : i < 64) :
    (widget_is_pressed K g w i = true ↔
      (w.pressed_widgets.testBit i = true ∨
        ((g._inputState = InputState.WidgetPressed ∨ g._inputState = InputState.DropdownActive) ∧
          input_test_flag g K.INPUT_FLAG_WIDGET_PRESSED = true ∧
          g.gPressedWidget = ⟨w.classification, w.number, (i : Int)⟩))) ∧
    (∀ (X : rct_window) (W : Nat),
      g.gPressedWidget = ⟨X.classification, X.number, (W : Int)⟩ →
      w.pressed_widgets.testBit i = false →
      widget_is_pressed K g w i = true →
      w.classification = X.classification ∧ w.number = X.number ∧ i = W) := by
  have hmain := widget_is_pressed_eq K g w i hi
  refine ⟨hmain, ?_⟩
  intro X W hX hbit hp
  rcases hmain.1 hp with hb | ⟨_, _, href⟩
  · rw [hbit] at hb
    exact absurd hb (by simp)
  · rw [hX] at href
    injection href with h1 h2 h3
    exact ⟨h1.symm, h2.symm, by exact_mod_cast h3.symm⟩

/-- Witness for `widget_is_pressed_iff`: widget 3 of a window, captured and flagged. -/
theorem widget_is_pressed_iff_witness :
    (3 < 64) ∧
    (widget_is_pressed UiConstants.sample
        { _inputState := InputState.WidgetPressed, _inputFlags := 1, gPressedWidget := ⟨1, 2, 3⟩ }
        { classification := 1, number := 2, windowPos := ⟨0, 0⟩, widgets := [],
          enabled_widgets := 0, disabled_widgets := 0, pressed_widgets := 0,
          hold_down_widgets := 0, scrolls := [] } 3 = true) :=
  ⟨by decide,
   ((widget_is_pressed_iff UiConstants.sample
      { _inputState := InputState.WidgetPressed, _inputFlags := 1, gPressedWidget := ⟨1, 2, 3⟩ }
      { classification := 1, number := 2, windowPos := ⟨0, 0⟩, widgets := [],
        enabled_widgets := 0, disabled_widgets := 0, pressed_widgets := 0,
        hold_down_widgets := 0, scrolls := [] } 3 (by decide)).1).2
    (Or.inr ⟨Or.inl rfl, by decide, rfl⟩)⟩

/-- C10 (as stated, refuted): only the vertical scrollbar is visible and `x` lies in its
band. At `y = 5`, above the cached thumb (which starts at 20), the part is the top button,
not the top track; at `y = 92`, inside the cached thumb span `[20, 95]`, the part is the
bottom button, not the thumb. -/
theorem widget_scroll_get_part_buttons_take_precedence :
    (widget_scroll_get_part UiConstants.sample
        { classification := 1, number := 2, windowPos := ⟨0, 0⟩,
          widgets := [⟨WidgetType.WWT_SCROLL, 0, 100, 0, 100⟩],
          enabled_widgets := 0, disabled_widgets := 0, pressed_widgets := 0,
          hold_down_widgets := 0, scrolls := [⟨16, 0, 0, 0, 0, 0, 300, 20, 95⟩] }
        0 ⟨95, 5⟩ ⟨0, 0⟩).output_scroll_area = ScrollPart.SCROLL_PART_VSCROLLBAR_TOP ∧
    (widget_scroll_get_part UiConstants.sample
        { classification := 1, number := 2, windowPos := ⟨0, 0⟩,
          widgets := [⟨WidgetType.WWT_SCROLL, 0, 100, 0, 100⟩],
          enabled_widgets := 0, disabled_widgets := 0, pressed_widgets := 0,
          hold_down_widgets := 0, scrolls := [⟨16, 0, 0, 0, 0, 0, 300, 20, 95⟩] }
        0 ⟨95, 92⟩ ⟨0, 0⟩).output_scroll_area = ScrollPart.SCROLL_PART_VSCROLLBAR_BOTTOM := by
  decide

/-- C10 (amended): for every window and scroll widget whose scroll region has only the
vertical scrollbar visible, and every screen coordinate whose `x` lies in the vertical
scrollbar band and whose `y` lies strictly below the top button
(`y > windowPos.y + widget.top + SCROLLBAR_WIDTH`) and strictly above the bottom button
(`y < windowPos.y + widget.bottom - SCROLLBAR_WIDTH`): if `y` is above the cached thumb
the part is `SCROLL_PART_VSCROLLBAR_TOP_TROUGH`, and if `y` lies inside the cached thumb
span the part is `SCROLL_PART_VSCROLLBAR_THUMB`. -/
theorem widget_scroll_get_part_vertical_track_and_thumb (K : UiConstants) (w : rct_window)
    (widgetIndex : Nat) (screenCoords retScreenCoords : ScreenCoordsXY)
    (hsw : 0 ≤ K.SCROLLBAR_WIDTH)
    (hv : (w.scrollAt (widgetScrollId w widgetIndex)).flags &&& K.VSCROLLBAR_VISIBLE ≠ 0)
    (hh : (w.scrollAt (widgetScrollId w widgetIndex)).flags &&& K.HSCROLLBAR_VISIBLE = 0)
    (hx : screenCoords.x
      ≥ w.windowPos.x + (w.widgetAt widgetIndex).right - (K.SCROLLBAR_WIDTH + 1))
    (htop : w.windowPos.y + (w.widgetAt widgetIndex).top + K.SCROLLBAR_WIDTH < screenCoords.y)
    (hbottom : screenCoords.y
      < w.windowPos.y + (w.widgetAt widgetIndex).bottom - K.SCROLLBAR_WIDTH) :
    (screenCoords.y < w.windowPos.y + (w.widgetAt widgetIndex).top
          + (w.scrollAt (widgetScrollId w widgetIndex)).v_thumb_top →
      (widget_scroll_get_part K w widgetIndex screenCoords retScreenCoords).output_scroll_area
        = ScrollPart.SCROLL_PART_VSCROLLBAR_TOP_TROUGH) ∧
    (w.windowPos.y + (w.widgetAt widgetIndex).top
          + (w.scrollAt (widgetScrollId w widgetIndex)).v_thumb_top ≤ screenCoords.y ∧
        screenCoords.y ≤ w.windowPos.y + (w.widgetAt widgetIndex).top
          + (w.scrollAt (widgetScrollId w widgetIndex)).v_thumb_bottom →
      (widget_scroll_get_part K w widgetIndex screenCoords retScreenCoords).output_scroll_area
        = ScrollPart.SCROLL_PART_VSCROLLBAR_THUMB) := by
  have hbranch : ¬ ((w.scrollAt (widgetScrollId w widgetIndex)).flags &&& K.HSCROLLBAR_VISIBLE ≠ 0
      ∧ screenCoords.y
        ≥ w.windowPos.y + (w.widgetAt widgetIndex).bottom - (K.SCROLLBAR_WIDTH + 1)) :=
    fun h => h.1 hh
  have hnh : ¬ ((w.scrollAt (widgetScrollId w widgetIndex)).flags &&& K.HSCROLLBAR_VISIBLE ≠ 0) :=
    fun h => h hh
  unfold widget_scroll_get_part
  simp only [if_neg hbranch, if_pos (And.intro hv hx), if_neg hnh]
  constructor
  · intro hy
    rw [if_neg (by omega), if_neg (by omega), if_neg (by omega), if_pos (by omega)]
  · intro hy
    rw [if_neg (by omega), if_neg (by omega), if_neg (by omega), if_neg (by omega),
      if_neg (by omega)]

/-- Witness for `widget_scroll_get_part_vertical_track_and_thumb`: a 100 by 100 scroll
widget with the thumb cached at `[20, 60]` and the coordinate `(95, 15)`. -/
theorem widget_scroll_get_part_vertical_track_and_thumb_witness :
    (widget_scroll_get_part UiConstants.sample
        { classification := 1, number := 2, windowPos := ⟨0, 0⟩,
          widgets := [⟨WidgetType.WWT_SCROLL, 0, 100, 0, 100⟩],
          enabled_widgets := 0, disabled_widgets := 0, pressed_widgets := 0,
          hold_down_widgets := 0, scrolls := [⟨16, 0, 0, 0, 0, 0, 300, 20, 60⟩] }
        0 ⟨95, 15⟩ ⟨0, 0⟩).output_scroll_area = ScrollPart.SCROLL_PART_VSCROLLBAR_TOP_TROUGH :=
  (widget_scroll_get_part_vertical_track_and_thumb UiConstants.sample
      { classification := 1, number := 2, windowPos := ⟨0, 0⟩,
        widgets := [⟨WidgetType.WWT_SCROLL, 0, 100, 0, 100⟩],
        enabled_widgets := 0, disabled_widgets := 0, pressed_widgets := 0,
        hold_down_widgets := 0, scrolls := [⟨16, 0, 0, 0, 0, 0, 300, 20, 60⟩] }
      0 ⟨95, 15⟩ ⟨0, 0⟩ (by decide) (by decide) (by decide) (by decide) (by decide)
      (by decide)).1 (by decide)

/-! ## Theorems: object manager -/

theorem toInt32_of_range (v : Int) (hlo : -2147483648 ≤ v) (hhi : v < 2147483648) :
    toInt32 v = v := by
  unfold toInt32
  omega

theorem toSizeT_of_range (v : Int) (hlo : 0 ≤ v) (hhi : v < 18446744073709551616) :
    ((toSizeT v : Nat) : Int) = v := by
  unfold toSizeT
  omega

theorem sum_take_nonneg (counts : List Int) (hnonneg : ∀ c ∈ counts, 0 ≤ c) (n : Nat) :
    0 ≤ (counts.take n).sum :=
  List.sum_nonneg (fun c hc => hnonneg c (List.mem_of_mem_take hc))

theorem sum_take_succ_getD (counts : List Int) (n : Nat) (hn : n < counts.length) :
    (counts.take (n + 1)).sum = (counts.take n).sum + counts.getD n 0 := by
  rw [List.sum_take_succ counts n hn, List.getD_eq_getElem counts 0 hn]

theorem getD_nonneg (counts : List Int) (hnonneg : ∀ c ∈ counts, 0 ≤ c) (n : Nat) :
    0 ≤ counts.getD n 0 := by
  by_cases hn : n < counts.length
  · rw [List.getD_eq_getElem counts 0 hn]
    exact hnonneg _ (List.getElem_mem hn)
  · rw [List.getD_eq_default counts 0 (by omega)]

theorem capacity_loop_eq_sum (counts : List Int) (hnonneg : ∀ c ∈ counts, 0 ≤ c) (n : Nat)
    (hn : n ≤ counts.length) (hfit : (counts.take n).sum < 2147483648) :
    (List.range n).foldl (fun result i => toInt32 (result + counts.getD i 0)) 0
      = (counts.take n).sum := by
  induction n with
  | zero => simp
  | succ n ih =>
    have hstep := sum_take_succ_getD counts n (by omega)
    have h0 := sum_take_nonneg counts hnonneg n
    have hc := getD_nonneg counts hnonneg n
    rw [List.range_succ, List.foldl_append, ih (by omega) (by omega)]
    simp only [List.foldl_cons, List.foldl_nil]
    rw [hstep]
    exact toInt32_of_range _ (by omega) (by omega)

/-- C4: for every object type `T` within the capacity table and per-type index `i`,
`GetIndexFromTypeEntry(T, i)` equals the sum of `object_entry_group_counts[t]` over all
types `t < T`, plus `i` (capacities not negative, the result within `int32_t`); in
particular, with a capacity table whose first type has capacity 128, index 0 of the
second type maps to flat slot 128. -/
theorem GetIndexFromTypeEntry_eq_sum (L : ObjectLimits) (objectType : Int) (entryIndex : Nat)
    (rest : List Int)
    (hnonneg : ∀ c ∈ L.object_entry_group_counts, 0 ≤ c)
    (htype : objectType.toNat ≤ L.object_entry_group_counts.length)
    (hfit : (L.object_entry_group_counts.take objectType.toNat).sum + entryIndex < 2147483648) :
    GetIndexFromTypeEntry L objectType entryIndex
        = (L.object_entry_group_counts.take objectType.toNat).sum + entryIndex ∧
    GetIndexFromTypeEntry { L with object_entry_group_counts := 128 :: rest } 1 0 = 128 := by
  constructor
  · have h0 := sum_take_nonneg L.object_entry_group_counts hnonneg objectType.toNat
    unfold GetIndexFromTypeEntry
    simp only []
    rw [capacity_loop_eq_sum L.object_entry_group_counts hnonneg _ htype (by omega)]
    rw [toInt32_of_range (entryIndex : Int) (by omega) (by omega)]
    exact toInt32_of_range _ (by omega) (by omega)
  · simp [GetIndexFromTypeEntry, toInt32, List.range_succ]

/-- Witness for `GetIndexFromTypeEntry_eq_sum`: a three-type table, type 2, index 5. -/
theorem GetIndexFromTypeEntry_eq_sum_witness :
    GetIndexFromTypeEntry ⟨[128, 252, 19], 399, 10⟩ 2 5 = 385 ∧
    GetIndexFromTypeEntry ⟨128 :: [7, 7], 399, 10⟩ 1 0 = 128 :=
  GetIndexFromTypeEntry_eq_sum ⟨[128, 252, 19], 399, 10⟩ 2 5 [7, 7] (by decide) (by decide)
    (by decide)

theorem collect_missing_eq_filter (L : ObjectLimits) (m : ObjectManager)
    (entries : List rct_object_entry) :
    (GetRequiredObjects.collect L m entries).2
      = entries.filter (fun e => !object_entry_is_empty e && (FindObject m e).isNone
          && e.GetType != L.OBJECT_TYPE_SCENARIO_TEXT) := by
  induction entries with
  | nil => rfl
  | cons e rest ih =>
    simp only [GetRequiredObjects.collect, List.filter_cons, ih]
    cases he : object_entry_is_empty e <;> simp

/-- C2: for every descriptor array passed to `LoadObjects`, if at least one non-empty
descriptor whose type is not scenario-text is unknown to the repository, the call raises
an `ObjectLoadException` carrying exactly those unknown descriptors (all of them, in input
order), and the whole state is the one before the call: no object is materialized, loaded
or unloaded (no object event is added) and the slot store is identical. -/
theorem LoadObjects_missing_objects (L : ObjectLimits) (entries : List rct_object_entry)
    (m : ObjectManager)
    (hmissing : ∃ e ∈ entries, object_entry_is_empty e = false ∧
      e.GetType ≠ L.OBJECT_TYPE_SCENARIO_TEXT ∧ FindObject m e = none) :
    LoadObjects L entries m
      = some (Except.error (entries.filter (fun e => !object_entry_is_empty e
            && (FindObject m e).isNone && e.GetType != L.OBJECT_TYPE_SCENARIO_TEXT)), m) := by
  obtain ⟨e, hmem, hne, htype, hfind⟩ := hmissing
  have hfilter : entries.filter (fun e => !object_entry_is_empty e && (FindObject m e).isNone
      && e.GetType != L.OBJECT_TYPE_SCENARIO_TEXT) ≠ [] := by
    intro hnil
    have hin : e ∈ entries.filter (fun e => !object_entry_is_empty e && (FindObject m e).isNone
        && e.GetType != L.OBJECT_TYPE_SCENARIO_TEXT) := by
      rw [List.mem_filter]
      refine ⟨hmem, ?_⟩
      simp [hne, hfind, htype]
    rw [hnil] at hin
    exact absurd hin (List.not_mem_nil e)
  unfold LoadObjects GetRequiredObjects
  simp only [collect_missing_eq_filter]
  rw [if_pos hfilter]

/-- Witness for `LoadObjects_missing_objects`: a catalogue that knows `A` only, and the
descriptor array `[A, B, empty, C]`: the exception carries `B` and `C`. -/
theorem LoadObjects_missing_objects_witness :
    LoadObjects ⟨[2, 2], 4, 10⟩ [⟨0, [65], 1⟩, ⟨1, [66], 2⟩, ⟨0, [0], 0⟩, ⟨1, [67], 3⟩]
        { items := [⟨⟨0, [65], 1⟩, none, true⟩], nextObjectId := 0,
          _loadedObjects := [none, none, none, none], events := [] }
      = some (Except.error [⟨1, [66], 2⟩, ⟨1, [67], 3⟩],
         { items := [⟨⟨0, [65], 1⟩, none, true⟩], nextObjectId := 0,
           _loadedObjects := [none, none, none, none], events := [] }) :=
  LoadObjects_missing_objects ⟨[2, 2], 4, 10⟩
    [⟨0, [65], 1⟩, ⟨1, [66], 2⟩, ⟨0, [0], 0⟩, ⟨1, [67], 3⟩]
    { items := [⟨⟨0, [65], 1⟩, none, true⟩], nextObjectId := 0,
      _loadedObjects := [none, none, none, none], events := [] }
    ⟨⟨1, [66], 2⟩, by decide, by decide, by decide, by decide⟩

/-- C1 (the code at a failing input): object `A` is loaded in slot 0; the bulk load of
`[A, B]`, where `B` is known to the repository but does not materialize, raises the
exception carrying `B` and leaves slot 0 empty: `A` was moved out of the store and is
released during unwinding, without its `Unload` hook and while the repository still points
at it. -/
theorem LoadObjects_failure_drops_reused_object :
    LoadObjects ⟨[2, 2], 4, 10⟩ [⟨0, [65], 1⟩, ⟨0, [66], 2⟩]
        { items := [⟨⟨0, [65], 1⟩, some ⟨0, ⟨0, [65], 1⟩⟩, true⟩, ⟨⟨0, [66], 2⟩, none, false⟩],
          nextObjectId := 1,
          _loadedObjects := [some ⟨0, ⟨0, [65], 1⟩⟩, none, none, none],
          events := [] }
      = some (Except.error [⟨0, [66], 2⟩],
         { items := [⟨⟨0, [65], 1⟩, some ⟨0, ⟨0, [65], 1⟩⟩, true⟩, ⟨⟨0, [66], 2⟩, none, false⟩],
           nextObjectId := 1,
           _loadedObjects := [none, none, none, none],
           events := [ObjectEvent.release ⟨0, ⟨0, [65], 1⟩⟩] }) := by
  rfl

theorem getD_vectorResize (v : List (Option Object)) (n k : Nat) :
    (vectorResize v n).getD k none = if k < n then v.getD k none else none := by
  unfold vectorResize
  simp only [List.getD_eq_getElem?_getD, List.getElem?_append, List.length_take,
    List.getElem?_take, List.getElem?_replicate]
  by_cases hk : k < n
  · by_cases hl : k < v.length
    · simp [hk, hl]
    · have : v[k]? = none := List.getElem?_eq_none (by omega)
      simp [hk, hl, this]
      split <;> simp
  · simp [hk]
    split <;> simp

theorem getD_vectorResize_grow (v : List (Option Object)) (n k : Nat) (hn : v.length ≤ n) :
    (vectorResize v n).getD k none = v.getD k none := by
  rw [getD_vectorResize]
  split
  · rfl
  · rw [List.getD_eq_default]
    omega

theorem length_vectorResize (v : List (Option Object)) (n : Nat) :
    (vectorResize v n).length = n := by
  unfold vectorResize
  simp
  omega

theorem getD_set_self (v : List (Option Object)) (k : Nat) (x : Option Object)
    (hk : k < v.length) : (v.set k x).getD k none = x := by
  simp [List.getD_eq_getElem?_getD, hk]

theorem getD_set_other (v : List (Option Object)) (k j : Nat) (x : Option Object)
    (hne : k ≠ j) : (v.set k x).getD j none = v.getD j none := by
  simp [List.getD_eq_getElem?_getD, List.getElem?_set_ne hne]

theorem sum_take_succ_getD_total (counts : List Int) (n : Nat) :
    (counts.take (n + 1)).sum = (counts.take n).sum + counts.getD n 0 := by
  by_cases hn : n < counts.length
  · rw [List.sum_take_succ counts n hn, List.getD_eq_getElem counts 0 hn]
  · rw [List.take_of_length_le (by omega), List.take_of_length_le (by omega),
      List.getD_eq_default counts 0 (by omega)]
    simp

theorem sum_take_le_sum (counts : List Int) (hnonneg : ∀ c ∈ counts, 0 ≤ c) (n : Nat) :
    (counts.take n).sum ≤ counts.sum := by
  have h := List.sum_take_add_sum_drop counts n
  have hd : 0 ≤ (counts.drop n).sum :=
    List.sum_nonneg (fun c hc => hnonneg c (List.mem_of_mem_drop hc))
  omega

theorem scan_found (endIndex : Nat) (m : ObjectManager) (fuel i slot : Nat)
    (hfuel : endIndex ≤ i + fuel) (hlo : i ≤ slot) (hhi : slot < endIndex)
    (hempty : m._loadedObjects.getD slot none = none)
    (hmin : ∀ s, i ≤ s → s < slot → m._loadedObjects.getD s none ≠ none) :
    ∃ slots, FindSpareSlot.scan endIndex m fuel i
        = (toInt32 slot, { m with _loadedObjects := slots }) ∧
      (∀ k, slots.getD k none = m._loadedObjects.getD k none) ∧
      (slots = m._loadedObjects ∨ slots = vectorResize m._loadedObjects (slot + 1)) := by
  induction fuel generalizing i with
  | zero => omega
  | succ fuel ih =>
    have hi : i < endIndex := by omega
    unfold FindSpareSlot.scan
    rw [if_pos hi]
    by_cases heq : i = slot
    · subst heq
      by_cases hlen : m._loadedObjects.length ≤ i
      · rw [if_pos hlen]
        exact ⟨_, rfl, fun k => getD_vectorResize_grow _ _ _ (by omega), Or.inr rfl⟩
      · rw [if_neg hlen, if_pos hempty]
        exact ⟨m._loadedObjects, rfl, fun _ => rfl, Or.inl rfl⟩
    · have hocc := hmin i (Nat.le_refl i) (by omega)
      have hlen : ¬ m._loadedObjects.length ≤ i := by
        intro hle
        exact hocc (List.getD_eq_default _ _ hle)
      rw [if_neg hlen, if_neg hocc]
      exact ih (i + 1) (by omega) (by omega) (fun s h1 h2 => hmin s (by omega) h2)

theorem scan_cases (endIndex : Nat) (m : ObjectManager) (fuel i : Nat) :
    FindSpareSlot.scan endIndex m fuel i = (-1, m) ∨
    ∃ slot slots, i ≤ slot ∧ slot < endIndex ∧ m._loadedObjects.getD slot none = none ∧
      FindSpareSlot.scan endIndex m fuel i = (toInt32 slot, { m with _loadedObjects := slots }) ∧
      (∀ k, slots.getD k none = m._loadedObjects.getD k none) ∧
      (slots = m._loadedObjects ∨ slots = vectorResize m._loadedObjects (slot + 1)) := by
  induction fuel generalizing i with
  | zero => exact Or.inl rfl
  | succ fuel ih =>
    unfold FindSpareSlot.scan
    by_cases hi : i < endIndex
    · rw [if_pos hi]
      by_cases hlen : m._loadedObjects.length ≤ i
      · rw [if_pos hlen]
        exact Or.inr ⟨i, _, Nat.le_refl i, hi, List.getD_eq_default _ _ hlen, rfl,
          fun k => getD_vectorResize_grow _ _ _ (by omega), Or.inr rfl⟩
      · rw [if_neg hlen]
        by_cases hempty : m._loadedObjects.getD i none = none
        · rw [if_pos hempty]
          exact Or.inr ⟨i, m._loadedObjects, Nat.le_refl i, hi, hempty, rfl, fun _ => rfl,
            Or.inl rfl⟩
        · rw [if_neg hempty]
          rcases ih (i + 1) with h | ⟨slot, slots, h1, h2, h3, h4, h5, h6⟩
          · exact Or.inl h
          · exact Or.inr ⟨slot, slots, by omega, h2, h3, h4, h5, h6⟩
    · rw [if_neg hi]
      exact Or.inl rfl

theorem capacity_loop_eq_sum_total (counts : List Int) (hnonneg : ∀ c ∈ counts, 0 ≤ c) (n : Nat)
    (hfit : counts.sum < 2147483648) :
    (List.range n).foldl (fun result i => toInt32 (result + counts.getD i 0)) 0
      = (counts.take n).sum := by
  induction n with
  | zero => simp
  | succ n ih =>
    have hstep := sum_take_succ_getD_total counts n
    have h0 := sum_take_nonneg counts hnonneg n
    have h1 := sum_take_le_sum counts hnonneg (n + 1)
    have hc := getD_nonneg counts hnonneg n
    rw [List.range_succ, List.foldl_append, ih]
    simp only [List.foldl_cons, List.foldl_nil]
    rw [← hstep]
    exact toInt32_of_range _ (by omega) (by omega)

theorem GetIndexFromTypeEntry_base (L : ObjectLimits) (hwf : L.WellFormed) (objectType : Nat) :
    GetIndexFromTypeEntry L objectType 0
      = (L.object_entry_group_counts.take objectType).sum := by
  obtain ⟨hnonneg, hfit⟩ := hwf
  have h0 := sum_take_nonneg L.object_entry_group_counts hnonneg objectType
  have h1 := sum_take_le_sum L.object_entry_group_counts hnonneg objectType
  unfold GetIndexFromTypeEntry
  simp only [Int.toNat_ofNat]
  rw [capacity_loop_eq_sum_total L.object_entry_group_counts hnonneg _ hfit]
  have hz : toInt32 ((0 : Nat) : Int) = 0 := by decide
  rw [hz, Int.add_zero]
  exact toInt32_of_range _ (by omega) (by omega)

theorem range_fits (L : ObjectLimits) (hwf : L.WellFormed) (objectType : Nat) :
    0 ≤ (L.object_entry_group_counts.take objectType).sum ∧
    0 ≤ L.object_entry_group_counts.getD objectType 0 ∧
    (L.object_entry_group_counts.take objectType).sum
      + L.object_entry_group_counts.getD objectType 0 < 2147483648 := by
  obtain ⟨hnonneg, hfit⟩ := hwf
  have h0 := sum_take_nonneg L.object_entry_group_counts hnonneg objectType
  have h1 := sum_take_le_sum L.object_entry_group_counts hnonneg (objectType + 1)
  have h2 := sum_take_succ_getD_total L.object_entry_group_counts objectType
  have hc := getD_nonneg L.object_entry_group_counts hnonneg objectType
  refine ⟨h0, hc, by omega⟩

theorem FindSpareSlot_eq_scan (L : ObjectLimits) (hwf : L.WellFormed) (objectType : Nat)
    (m : ObjectManager) :
    FindSpareSlot L objectType m
      = FindSpareSlot.scan
          ((L.object_entry_group_counts.take objectType).sum.toNat
            + (L.object_entry_group_counts.getD objectType 0).toNat) m
          (L.object_entry_group_counts.getD objectType 0).toNat
          (L.object_entry_group_counts.take objectType).sum.toNat := by
  obtain ⟨h0, hc, hfit⟩ := range_fits L hwf objectType
  unfold FindSpareSlot
  simp only []
  rw [GetIndexFromTypeEntry_base L hwf objectType]
  have e1 : toSizeT (L.object_entry_group_counts.take objectType).sum
      = (L.object_entry_group_counts.take objectType).sum.toNat := by
    unfold toSizeT
    omega
  have e2 : toSizeT (L.object_entry_group_counts.getD objectType 0)
      = (L.object_entry_group_counts.getD objectType 0).toNat := by
    unfold toSizeT
    omega
  rw [e1, e2]
  have e3 : ((L.object_entry_group_counts.take objectType).sum.toNat
      + (L.object_entry_group_counts.getD objectType 0).toNat) % 18446744073709551616
      = (L.object_entry_group_counts.take objectType).sum.toNat
      + (L.object_entry_group_counts.getD objectType 0).toNat := by omega
  rw [e3, Nat.add_sub_cancel_left]

theorem inSlotRange_iff (L : ObjectLimits) (hwf : L.WellFormed) (objectType s : Nat) :
    inSlotRange L objectType s ↔
      (L.object_entry_group_counts.take objectType).sum.toNat ≤ s ∧
      s < (L.object_entry_group_counts.take objectType).sum.toNat
          + (L.object_entry_group_counts.getD objectType 0).toNat := by
  obtain ⟨h0, hc, hfit⟩ := range_fits L hwf objectType
  unfold inSlotRange
  rw [GetIndexFromTypeEntry_base L hwf objectType]
  omega

theorem GetType_mod (e : rct_object_entry) : e.GetType % 256 = e.GetType := by
  unfold rct_object_entry.GetType
  omega

theorem LoadObject_install (L : ObjectLimits) (entry : rct_object_entry) (m : ObjectManager)
    (ori slot : Nat) (slots : List (Option Object))
    (hfind : FindObject m entry = some ori)
    (hnone : (m.ori ori).LoadedObject = none)
    (hscan : FindSpareSlot L ((m.ori ori).ObjectEntry.GetType % 256) m
      = (toInt32 slot, { m with _loadedObjects := slots }))
    (hslot : slot < 2147483647)
    (hmat : (m.ori ori).materializes = true)
    (heq : ∀ k, slots.getD k none = m._loadedObjects.getD k none) :
    (LoadObject L entry m).1 = some ⟨m.nextObjectId, (m.ori ori).ObjectEntry⟩ ∧
    (LoadObject L entry m).2.items
      = m.items.set ori { m.ori ori with
          LoadedObject := some ⟨m.nextObjectId, (m.ori ori).ObjectEntry⟩ } ∧
    (LoadObject L entry m).2._loadedObjects.getD slot none
      = some ⟨m.nextObjectId, (m.ori ori).ObjectEntry⟩ ∧
    (∀ s, s ≠ slot →
      (LoadObject L entry m).2._loadedObjects.getD s none = m._loadedObjects.getD s none) := by
  have hs1 : toInt32 (slot : Int) = slot := toInt32_of_range _ (by omega) (by omega)
  have hs2 : toSizeT (slot : Int) = slot := by
    unfold toSizeT
    omega
  have hs3 : toSizeT ((slot : Int) + 1) = slot + 1 := by
    unfold toSizeT
    omega
  have hne : ((slot : Int) ≠ -1) := by omega
  have hori : ({ m with _loadedObjects := slots } : ObjectManager).ori ori = m.ori ori := rfl
  have hload : GetOrLoadObject ori { m with _loadedObjects := slots }
      = (some ⟨m.nextObjectId, (m.ori ori).ObjectEntry⟩,
         RegisterLoadedObject ori ⟨m.nextObjectId, (m.ori ori).ObjectEntry⟩
           (({ m with _loadedObjects := slots
                      nextObjectId := m.nextObjectId + 1
                      events := m.events
                        ++ [ObjectEvent.materialize ⟨m.nextObjectId, (m.ori ori).ObjectEntry⟩] }
              : ObjectManager).record
             (ObjectEvent.load ⟨m.nextObjectId, (m.ori ori).ObjectEntry⟩))) := by
    unfold GetOrLoadObject RepositoryLoadObject
    simp only [hori, hnone, hmat, if_true]
  have hres : LoadObject L entry m
      = (some ⟨m.nextObjectId, (m.ori ori).ObjectEntry⟩,
         { (RegisterLoadedObject ori ⟨m.nextObjectId, (m.ori ori).ObjectEntry⟩
           (({ m with _loadedObjects := slots
                      nextObjectId := m.nextObjectId + 1
                      events := m.events
                        ++ [ObjectEvent.materialize ⟨m.nextObjectId, (m.ori ori).ObjectEntry⟩] }
              : ObjectManager).record
             (ObjectEvent.load ⟨m.nextObjectId, (m.ori ori).ObjectEntry⟩))) with
           _loadedObjects :=
             (if slots.length ≤ slot then vectorResize slots (slot + 1) else slots).set slot
               (some ⟨m.nextObjectId, (m.ori ori).ObjectEntry⟩) }) := by
    unfold LoadObject
    simp only [hfind, hnone, hscan, hs1, hne, ne_eq, not_false_eq_true, if_true, hload, hs2, hs3]
    rfl
  rw [hres]
  refine ⟨rfl, rfl, ?_, ?_⟩
  · simp only []
    by_cases hlen : slots.length ≤ slot
    · rw [if_pos hlen]
      exact getD_set_self _ _ _ (by rw [length_vectorResize]; omega)
    · rw [if_neg hlen]
      exact getD_set_self _ _ _ (by omega)
  · intro s hs
    simp only []
    rw [getD_set_other _ _ _ _ (Ne.symm hs)]
    by_cases hlen : slots.length ≤ slot
    · rw [if_pos hlen, getD_vectorResize_grow _ _ _ (by omega)]
      exact heq s
    · rw [if_neg hlen]
      exact heq s

theorem LoadObject_unknown (L : ObjectLimits) (entry : rct_object_entry) (m : ObjectManager)
    (hfind : FindObject m entry = none) : LoadObject L entry m = (none, m) := by
  unfold LoadObject
  simp only [hfind]

/-- C3: `LoadObject(entry)` on a descriptor unknown to the repository returns no object and
leaves the state, hence every slot of the store, unchanged; on a known, not-yet-loaded
descriptor of type `T` that materializes while `T`'s slot range
`[base(T), base(T) + capacity(T))` contains an empty slot, the returned object is the newly
materialized instance, it is installed in the lowest-indexed empty slot of that range, and
every other slot keeps its previous content. -/
theorem LoadObject_installs_in_lowest_empty_slot (L : ObjectLimits) (entry : rct_object_entry)
    (m : ObjectManager) :
    (FindObject m entry = none → LoadObject L entry m = (none, m)) ∧
    (∀ ori : Nat, L.WellFormed → FindObject m entry = some ori →
      (m.ori ori).LoadedObject = none → (m.ori ori).materializes = true →
      (∃ s : Nat, inSlotRange L (m.ori ori).ObjectEntry.GetType s ∧
        m._loadedObjects.getD s none = none) →
      ∃ slot : Nat, inSlotRange L (m.ori ori).ObjectEntry.GetType slot ∧
        m._loadedObjects.getD slot none = none ∧
        (∀ s : Nat, inSlotRange L (m.ori ori).ObjectEntry.GetType s → s < slot →
          m._loadedObjects.getD s none ≠ none) ∧
        (LoadObject L entry m).1 = some ⟨m.nextObjectId, (m.ori ori).ObjectEntry⟩ ∧
        (LoadObject L entry m).2._loadedObjects.getD slot none
          = some ⟨m.nextObjectId, (m.ori ori).ObjectEntry⟩ ∧
        (∀ s : Nat, s ≠ slot →
          (LoadObject L entry m).2._loadedObjects.getD s none
            = m._loadedObjects.getD s none)) := by
  refine ⟨LoadObject_unknown L entry m, ?_⟩
  intro ori hwf hfind hnone hmat hex
  classical
  have hexn : ∃ s : Nat,
      ((L.object_entry_group_counts.take (m.ori ori).ObjectEntry.GetType).sum.toNat ≤ s ∧
        s < (L.object_entry_group_counts.take (m.ori ori).ObjectEntry.GetType).sum.toNat
          + (L.object_entry_group_counts.getD (m.ori ori).ObjectEntry.GetType 0).toNat) ∧
      m._loadedObjects.getD s none = none := by
    obtain ⟨s, hs, he⟩ := hex
    exact ⟨s, (inSlotRange_iff L hwf _ s).1 hs, he⟩
  obtain ⟨⟨hlo, hhi⟩, hempty⟩ := Nat.find_spec hexn
  have hmin : ∀ s,
      (L.object_entry_group_counts.take (m.ori ori).ObjectEntry.GetType).sum.toNat ≤ s →
      s < Nat.find hexn → m._loadedObjects.getD s none ≠ none := by
    intro s h1 h2 he
    exact Nat.find_min hexn h2 ⟨⟨h1, by omega⟩, he⟩
  obtain ⟨slots, hscan, heq, _⟩ := scan_found _ m
    (L.object_entry_group_counts.getD (m.ori ori).ObjectEntry.GetType 0).toNat _ _
    (Nat.le_refl _) hlo hhi hempty hmin
  rw [← FindSpareSlot_eq_scan L hwf] at hscan
  have hscan1 : FindSpareSlot L ((m.ori ori).ObjectEntry.GetType % 256) m
      = (toInt32 (Nat.find hexn), { m with _loadedObjects := slots }) := by
    rw [GetType_mod]
    exact hscan
  obtain ⟨_, _, hfit⟩ := range_fits L hwf (m.ori ori).ObjectEntry.GetType
  obtain ⟨r1, _, r3, r4⟩ := LoadObject_install L entry m ori (Nat.find hexn) slots hfind hnone
    hscan1 (by omega) hmat heq
  refine ⟨Nat.find hexn, (inSlotRange_iff L hwf _ _).2 ⟨hlo, hhi⟩, hempty, ?_, r1, r3, r4⟩
  intro s hs hlt
  exact hmin s ((inSlotRange_iff L hwf _ s).1 hs).1 hlt

/-- Witness for `LoadObject_installs_in_lowest_empty_slot`: type 1 has the range `[2, 4)`,
slot 2 is taken, and the object is installed in slot 3. -/
theorem LoadObject_installs_in_lowest_empty_slot_witness :
    ∃ slot : Nat, inSlotRange ⟨[2, 2], 4, 10⟩ 1 slot ∧
      (LoadObject ⟨[2, 2], 4, 10⟩ ⟨1, [66], 2⟩
        { items := [⟨⟨0, [65], 1⟩, none, true⟩, ⟨⟨1, [66], 2⟩, none, true⟩], nextObjectId := 7,
          _loadedObjects := [none, none, some ⟨3, ⟨1, [67], 3⟩⟩], events := [] }).1
        = some ⟨7, ⟨1, [66], 2⟩⟩ ∧
      (LoadObject ⟨[2, 2], 4, 10⟩ ⟨1, [66], 2⟩
        { items := [⟨⟨0, [65], 1⟩, none, true⟩, ⟨⟨1, [66], 2⟩, none, true⟩], nextObjectId := 7,
          _loadedObjects := [none, none, some ⟨3, ⟨1, [67], 3⟩⟩], events := [] }
        ).2._loadedObjects.getD slot none = some ⟨7, ⟨1, [66], 2⟩⟩ := by
  obtain ⟨slot, h1, _, _, h4, h5, _⟩ :=
    (LoadObject_installs_in_lowest_empty_slot ⟨[2, 2], 4, 10⟩ ⟨1, [66], 2⟩
      { items := [⟨⟨0, [65], 1⟩, none, true⟩, ⟨⟨1, [66], 2⟩, none, true⟩], nextObjectId := 7,
        _loadedObjects := [none, none, some ⟨3, ⟨1, [67], 3⟩⟩], events := [] }).2
      1 (by simp [ObjectLimits.WellFormed]) (by decide) (by decide) (by decide)
      ⟨3, by decide, by decide⟩
  exact ⟨slot, h1, h4, h5⟩

theorem SlotTypeInvariant_mono (L : ObjectLimits) (s t : List (Option Object))
    (hsub : ∀ k o, t.getD k none = some o → s.getD k none = some o)
    (h : SlotTypeInvariant L s) : SlotTypeInvariant L t :=
  fun i o hi => h i o (hsub i o hi)

theorem getD_set_cases (v : List (Option Object)) (k j : Nat) (x : Option Object) :
    (v.set k x).getD j none = v.getD j none ∨ (j = k ∧ (v.set k x).getD j none = x) := by
  by_cases hjk : k = j
  · subst hjk
    by_cases hk : k < v.length
    · exact Or.inr ⟨rfl, getD_set_self v k x hk⟩
    · left
      rw [List.getD_eq_default _ _ (by simpa using hk), List.getD_eq_default _ _ (by omega)]
  · exact Or.inl (getD_set_other v k j x hjk)

theorem SlotTypeInvariant_set (L : ObjectLimits) (s : List (Option Object)) (i : Nat)
    (x : Option Object)
    (hx : ∀ o, x = some o → (get_type_entry_index L i).map Prod.fst = some o.GetObjectType)
    (h : SlotTypeInvariant L s) : SlotTypeInvariant L (s.set i x) := by
  intro j o hj
  rcases getD_set_cases s i j x with heq | ⟨hji, heq⟩
  · rw [heq] at hj
    exact h j o hj
  · rw [heq] at hj
    subst hji
    exact hx o hj

theorem scan_type_entry (counts : List Int) (hnonneg : ∀ c ∈ counts, 0 ≤ c)
    (hfit : counts.sum < 2147483648) (objectType index start : Nat)
    (hlo : (counts.take objectType).sum.toNat ≤ index)
    (hhi : index < (counts.take objectType).sum.toNat + (counts.getD objectType 0).toNat) :
    get_type_entry_index.scan counts index start
      = some (start + objectType, index - (counts.take objectType).sum.toNat) := by
  induction counts generalizing objectType index start with
  | nil => simp at hhi
  | cons c cs ih =>
    have hc : 0 ≤ c := hnonneg c (List.mem_cons_self c cs)
    have hcs : ∀ x ∈ cs, 0 ≤ x := fun x hx => hnonneg x (List.mem_cons_of_mem c hx)
    have hsum : 0 ≤ cs.sum := List.sum_nonneg hcs
    rw [List.sum_cons] at hfit
    have hsz : toSizeT c = c.toNat := by
      unfold toSizeT
      omega
    unfold get_type_entry_index.scan
    rw [hsz]
    cases objectType with
    | zero =>
      simp only [List.take_zero, List.sum_nil, Int.toNat_zero, Nat.zero_add,
        List.getD_cons_zero] at hlo hhi
      rw [if_neg (by omega)]
      simp
    | succ T =>
      have h0 := sum_take_nonneg cs hcs T
      simp only [List.take_succ_cons, List.sum_cons, List.getD_cons_succ] at hlo hhi ⊢
      have hg := getD_nonneg cs hcs T
      rw [if_pos (by omega)]
      rw [ih hcs (by omega) T (index - c.toNat) (start + 1) (by omega) (by omega)]
      congr 1
      congr 1 <;> omega

theorem type_entry_of_inSlotRange (L : ObjectLimits) (hwf : L.WellFormed)
    (objectType slot : Nat) (h : inSlotRange L objectType slot) :
    (get_type_entry_index L slot).map Prod.fst = some objectType := by
  obtain ⟨hlo, hhi⟩ := (inSlotRange_iff L hwf objectType slot).1 h
  unfold get_type_entry_index
  rw [scan_type_entry L.object_entry_group_counts hwf.1 hwf.2 objectType slot 0 hlo hhi]
  simp

theorem SameCatalogue_refl (m : ObjectManager) : SameCatalogue m m := fun _ => rfl

theorem SameCatalogue_trans (a b c : ObjectManager) (h1 : SameCatalogue a b)
    (h2 : SameCatalogue b c) : SameCatalogue a c := fun k => (h2 k).trans (h1 k)

theorem SameCatalogue_of_items (m n : ObjectManager) (h : n.items = m.items) :
    SameCatalogue m n := by
  intro k
  unfold ObjectManager.ori
  rw [h]

theorem RepositoryConsistent_of_items (m n : ObjectManager) (h : n.items = m.items)
    (hm : RepositoryConsistent m) : RepositoryConsistent n := by
  intro k o hk
  unfold ObjectManager.ori at hk ⊢
  rw [h] at hk ⊢
  exact hm k o hk

theorem ori_set (m n : ObjectManager) (k j : Nat) (x : Option Object)
    (h : n.items = m.items.set k { m.ori k with LoadedObject := x }) :
    n.ori j = m.ori j ∨ (j = k ∧ n.ori j = { m.ori k with LoadedObject := x }) := by
  unfold ObjectManager.ori at *
  rw [h]
  by_cases hjk : k = j
  · subst hjk
    by_cases hk : k < m.items.length
    · right
      refine ⟨rfl, ?_⟩
      simp [List.getD_eq_getElem?_getD, hk]
    · left
      rw [List.getD_eq_default _ _ (by simpa using hk), List.getD_eq_default _ _ (by omega)]
  · left
    simp [List.getD_eq_getElem?_getD, List.getElem?_set_ne hjk]

theorem SameCatalogue_set (m n : ObjectManager) (k : Nat) (x : Option Object)
    (h : n.items = m.items.set k { m.ori k with LoadedObject := x }) : SameCatalogue m n := by
  intro j
  rcases ori_set m n k j x h with heq | ⟨hjk, heq⟩
  · rw [heq]
  · rw [heq, hjk]

theorem RepositoryConsistent_set (m n : ObjectManager) (k : Nat) (x : Option Object)
    (h : n.items = m.items.set k { m.ori k with LoadedObject := x })
    (hx : ∀ o, x = some o → o.entry = (m.ori k).ObjectEntry)
    (hm : RepositoryConsistent m) : RepositoryConsistent n := by
  intro j o hj
  rcases ori_set m n k j x h with heq | ⟨hjk, heq⟩
  · rw [heq] at hj ⊢
    exact hm j o hj
  · rw [heq] at hj ⊢
    exact hx o hj

theorem getD_clear (v : List (Option Object)) (o : Object) (k : Nat) (p : Object)
    (h : (v.map (fun obj => if obj = some o then none else obj)).getD k none = some p) :
    v.getD k none = some p := by
  rw [List.getD_eq_getElem?_getD, List.getElem?_map] at h
  rw [List.getD_eq_getElem?_getD]
  cases hv : v[k]? with
  | none => rw [hv] at h; simp at h
  | some x =>
    rw [hv] at h
    simp only [Option.map_some', Option.getD_some] at h ⊢
    by_cases hx : x = some o
    · rw [if_pos hx] at h
      exact absurd h (by simp)
    · rw [if_neg hx] at h
      exact h

theorem UnloadObject_invariant (L : ObjectLimits) (object : Option Object) (m : ObjectManager)
    (h : ObjectManagerInvariant L m) :
    ObjectManagerInvariant L (UnloadObject object m) ∧ SameCatalogue m (UnloadObject object m) := by
  obtain ⟨hs, hr⟩ := h
  cases object with
  | none => exact ⟨⟨hs, hr⟩, SameCatalogue_refl m⟩
  | some o =>
    unfold UnloadObject
    simp only []
    cases hf : FindObject (m.record (ObjectEvent.unload o)) o.entry with
    | none =>
      simp only []
      refine ⟨⟨?_, ?_⟩, ?_⟩
      · exact SlotTypeInvariant_mono L _ _ (fun k p hk => getD_clear _ o k p hk) hs
      · exact RepositoryConsistent_of_items m _ rfl hr
      · exact SameCatalogue_of_items m _ rfl
    | some ori =>
      simp only []
      refine ⟨⟨?_, ?_⟩, ?_⟩
      · exact SlotTypeInvariant_mono L _ _ (fun k p hk => getD_clear _ o k p hk) hs
      · exact RepositoryConsistent_set m _ ori none rfl (fun _ hx => absurd hx (by simp)) hr
      · exact SameCatalogue_set m _ ori none rfl

theorem foldl_invariant {α β : Type} (P : β → Prop) (f : β → α → β)
    (hstep : ∀ b a, P b → P (f b a)) (l : List α) (b : β) (hb : P b) : P (l.foldl f b) := by
  induction l generalizing b with
  | nil => exact hb
  | cons a rest ih => exact ih (f b a) (hstep b a hb)

theorem UnloadAll_invariant (L : ObjectLimits) (m : ObjectManager)
    (h : ObjectManagerInvariant L m) : ObjectManagerInvariant L (UnloadAll m) := by
  unfold UnloadAll
  exact foldl_invariant (ObjectManagerInvariant L) _
    (fun b _ hb => (UnloadObject_invariant L _ b hb).1) _ m h

theorem UnloadObjects_invariant (L : ObjectLimits) (entries : List rct_object_entry)
    (m : ObjectManager) (h : ObjectManagerInvariant L m) :
    ObjectManagerInvariant L (UnloadObjects entries m) := by
  unfold UnloadObjects
  refine foldl_invariant (ObjectManagerInvariant L) _ ?_ _ m h
  intro b entry hb
  cases FindObject b entry with
  | none => exact hb
  | some ori =>
    simp only []
    cases (b.ori ori).LoadedObject with
    | none => exact hb
    | some o => exact (UnloadObject_invariant L _ b hb).1

theorem record_invariant (L : ObjectLimits) (m : ObjectManager) (e : ObjectEvent)
    (h : ObjectManagerInvariant L m) : ObjectManagerInvariant L (m.record e) :=
  ⟨h.1, RepositoryConsistent_of_items m _ rfl h.2⟩

theorem ResetObjects_invariant (L : ObjectLimits) (m : ObjectManager)
    (h : ObjectManagerInvariant L m) : ObjectManagerInvariant L (ResetObjects m) := by
  unfold ResetObjects
  refine foldl_invariant (ObjectManagerInvariant L) _ ?_ _ m h
  intro b x hb
  cases x with
  | none => exact hb
  | some o => exact record_invariant L _ _ (record_invariant L _ _ hb)

theorem LoadObject_no_slot (L : ObjectLimits) (entry : rct_object_entry) (m : ObjectManager)
    (ori : Nat) (hfind : FindObject m entry = some ori)
    (hnone : (m.ori ori).LoadedObject = none)
    (hscan : FindSpareSlot L ((m.ori ori).ObjectEntry.GetType % 256) m = (-1, m)) :
    LoadObject L entry m = (none, m) := by
  unfold LoadObject
  simp only [hfind, hnone, hscan]
  simp

theorem LoadObject_not_materialized (L : ObjectLimits) (entry : rct_object_entry)
    (m : ObjectManager) (ori slot : Nat) (slots : List (Option Object))
    (hfind : FindObject m entry = some ori)
    (hnone : (m.ori ori).LoadedObject = none)
    (hscan : FindSpareSlot L ((m.ori ori).ObjectEntry.GetType % 256) m
      = (toInt32 slot, { m with _loadedObjects := slots }))
    (hmat : (m.ori ori).materializes = false) :
    LoadObject L entry m = (none, { m with _loadedObjects := slots }) := by
  have hori : ({ m with _loadedObjects := slots } : ObjectManager).ori ori = m.ori ori := rfl
  have hload : GetOrLoadObject ori { m with _loadedObjects := slots }
      = (none, { m with _loadedObjects := slots }) := by
    unfold GetOrLoadObject RepositoryLoadObject
    simp [hori, hnone, hmat]
  unfold LoadObject
  simp only [hfind, hnone, hscan, hload]
  split <;> rfl

theorem LoadObject_invariant (L : ObjectLimits) (hwf : L.WellFormed) (entry : rct_object_entry)
    (m : ObjectManager) (h : ObjectManagerInvariant L m) :
    ObjectManagerInvariant L (LoadObject L entry m).2 := by
  obtain ⟨hs, hr⟩ := h
  cases hfind : FindObject m entry with
  | none =>
    rw [LoadObject_unknown L entry m hfind]
    exact ⟨hs, hr⟩
  | some ori =>
    cases hnone : (m.ori ori).LoadedObject with
    | some o =>
      have : LoadObject L entry m = (some o, m) := by
        unfold LoadObject
        simp only [hfind, hnone]
      rw [this]
      exact ⟨hs, hr⟩
    | none =>
      have hscan_eq := FindSpareSlot_eq_scan L hwf (m.ori ori).ObjectEntry.GetType m
      rcases scan_cases
          ((L.object_entry_group_counts.take (m.ori ori).ObjectEntry.GetType).sum.toNat
            + (L.object_entry_group_counts.getD (m.ori ori).ObjectEntry.GetType 0).toNat) m
          (L.object_entry_group_counts.getD (m.ori ori).ObjectEntry.GetType 0).toNat
          (L.object_entry_group_counts.take (m.ori ori).ObjectEntry.GetType).sum.toNat
        with hnoslot | ⟨slot, slots, hlo, hhi, hempty, hscan, heq, _⟩
      · rw [← hscan_eq] at hnoslot
        have hns : FindSpareSlot L ((m.ori ori).ObjectEntry.GetType % 256) m = (-1, m) := by
          rw [GetType_mod]
          exact hnoslot
        rw [LoadObject_no_slot L entry m ori hfind hnone hns]
        exact ⟨hs, hr⟩
      · rw [← hscan_eq] at hscan
        have hsc : FindSpareSlot L ((m.ori ori).ObjectEntry.GetType % 256) m
            = (toInt32 slot, { m with _loadedObjects := slots }) := by
          rw [GetType_mod]
          exact hscan
        cases hmat : (m.ori ori).materializes with
        | false =>
          rw [LoadObject_not_materialized L entry m ori slot slots hfind hnone hsc hmat]
          refine ⟨?_, RepositoryConsistent_of_items m _ rfl hr⟩
          exact SlotTypeInvariant_mono L _ _ (fun k o hk => by rw [← heq k]; exact hk) hs
        | true =>
          obtain ⟨_, _, hfit⟩ := range_fits L hwf (m.ori ori).ObjectEntry.GetType
          obtain ⟨_, r2, r3, r4⟩ := LoadObject_install L entry m ori slot slots hfind hnone
            hsc (by omega) hmat heq
          refine ⟨?_, ?_⟩
          · intro j o hj
            by_cases hjs : j = slot
            · subst hjs
              rw [r3] at hj
              injection hj with hj
              subst hj
              exact type_entry_of_inSlotRange L hwf _ j
                ((inSlotRange_iff L hwf _ j).2 ⟨hlo, hhi⟩)
            · rw [r4 j hjs] at hj
              exact hs j o hj
          · exact RepositoryConsistent_set m _ ori _ r2
              (fun o ho => by injection ho with ho; subst ho; rfl) hr

theorem LoadDefaultObjects_invariant (L : ObjectLimits) (hwf : L.WellFormed)
    (m : ObjectManager) (h : ObjectManagerInvariant L m) :
    ObjectManagerInvariant L (LoadDefaultObjects L m) := by
  unfold LoadDefaultObjects
  exact foldl_invariant (ObjectManagerInvariant L) _
    (fun b name hb => LoadObject_invariant L hwf (namedEntry name) b hb) _ m h

theorem RepositoryLoadObject_cases (ori : Nat) (m : ObjectManager) :
    ((m.ori ori).materializes = false ∧ RepositoryLoadObject ori m = (none, m)) ∨
    ((m.ori ori).materializes = true ∧
      RepositoryLoadObject ori m
        = (some ⟨m.nextObjectId, (m.ori ori).ObjectEntry⟩,
           { m with nextObjectId := m.nextObjectId + 1
                    events := m.events
                      ++ [ObjectEvent.materialize ⟨m.nextObjectId, (m.ori ori).ObjectEntry⟩] })) := by
  unfold RepositoryLoadObject
  cases h : (m.ori ori).materializes
  · left
    simp
  · right
    simp

theorem readObject_invariant (L : ObjectLimits) (m0 : ObjectManager) (i : Nat)
    (requiredObject : Option Nat) (st : BulkLoad × ObjectManager)
    (hi : i < st.1.objects.length)
    (htype : ∀ k, requiredObject = some k →
      (get_type_entry_index L i).map Prod.fst = some (m0.ori k).ObjectEntry.GetType)
    (h : ReadPhaseInvariant L m0 st) :
    ∃ st1, LoadObjects.readObject i requiredObject st = some st1
      ∧ st1.1.objects.length = st.1.objects.length
      ∧ ReadPhaseInvariant L m0 st1 := by
  obtain ⟨⟨hs, hr⟩, hc, ho⟩ := h
  cases requiredObject with
  | none =>
    unfold LoadObjects.readObject
    simp only [if_pos hi]
    exact ⟨_, rfl, by simp,
      ⟨hs, hr⟩, hc, SlotTypeInvariant_set L _ i none (fun _ hx => absurd hx (by simp)) ho⟩
  | some ori =>
    have ht := htype ori rfl
    cases hlo : (st.2.ori ori).LoadedObject with
    | none =>
      rcases RepositoryLoadObject_cases ori st.2 with ⟨_, hload⟩ | ⟨_, hload⟩
      · unfold LoadObjects.readObject
        simp only [hlo, hload, if_pos hi]
        exact ⟨_, rfl, by simp, ⟨hs, hr⟩, hc,
          SlotTypeInvariant_set L _ i none (fun _ hx => absurd hx (by simp)) ho⟩
      · unfold LoadObjects.readObject
        simp only [hlo, hload, if_pos hi]
        refine ⟨_, rfl, by simp, ⟨hs, ?_⟩, ?_, ?_⟩
        · exact RepositoryConsistent_set st.2 _ ori _ rfl
            (fun o hx => by injection hx with hx; subst hx; rfl) hr
        · exact SameCatalogue_trans _ _ _ hc (SameCatalogue_set st.2 _ ori _ rfl)
        · refine SlotTypeInvariant_set L _ i _ ?_ ho
          intro o hx
          injection hx with hx
          subst hx
          rw [ht]
          show some (m0.ori ori).ObjectEntry.GetType = some (st.2.ori ori).ObjectEntry.GetType
          rw [hc ori]
    | some loadedObject =>
      have hentry := hr ori loadedObject hlo
      cases hfind : findLoadedObject loadedObject st.2._loadedObjects with
      | none =>
        unfold LoadObjects.readObject
        simp only [hlo, hfind, if_pos hi]
        exact ⟨_, rfl, by simp, ⟨hs, hr⟩, hc,
          SlotTypeInvariant_set L _ i none (fun _ hx => absurd hx (by simp)) ho⟩
      | some it =>
        unfold LoadObjects.readObject
        simp only [hlo, hfind, if_pos hi]
        refine ⟨_, rfl, by simp, ⟨?_, RepositoryConsistent_of_items st.2 _ rfl hr⟩,
          SameCatalogue_trans _ _ _ hc (SameCatalogue_of_items st.2 _ rfl), ?_⟩
        · exact SlotTypeInvariant_set L _ it none (fun _ hx => absurd hx (by simp)) hs
        · refine SlotTypeInvariant_set L _ i _ ?_ ho
          intro o hx
          injection hx with hx
          subst hx
          rw [ht]
          show some (m0.ori ori).ObjectEntry.GetType = some loadedObject.entry.GetType
          rw [hentry, hc ori]

theorem readObjects_invariant (L : ObjectLimits) (m0 : ObjectManager)
    (requiredObjects : List (Option Nat)) (i : Nat) (st : BulkLoad × ObjectManager)
    (hlen : i + requiredObjects.length ≤ st.1.objects.length)
    (htype : ∀ j k, requiredObjects[j]? = some (some k) →
      (get_type_entry_index L (i + j)).map Prod.fst = some (m0.ori k).ObjectEntry.GetType)
    (h : ReadPhaseInvariant L m0 st) :
    ∃ st1, LoadObjects.readObjects i requiredObjects st = some st1
      ∧ ReadPhaseInvariant L m0 st1 := by
  induction requiredObjects generalizing i st with
  | nil => exact ⟨st, rfl, h⟩
  | cons r rest ih =>
    simp only [List.length_cons] at hlen
    obtain ⟨st1, hst1, hlen1, hinv1⟩ := readObject_invariant L m0 i r st (by omega)
      (fun k hk => by
        have := htype 0 k (by simp [hk])
        simpa using this) h
    unfold LoadObjects.readObjects
    rw [hst1]
    apply ih
    · rw [hlen1]
      omega
    · intro j k hj
      have := htype (j + 1) k (by simpa using hj)
      rw [show i + 1 + j = i + (j + 1) by omega]
      exact this
    · exact hinv1

theorem collect_length (L : ObjectLimits) (m : ObjectManager)
    (entries : List rct_object_entry) :
    (GetRequiredObjects.collect L m entries).1.length = entries.length := by
  induction entries with
  | nil => rfl
  | cons e rest ih => simp [GetRequiredObjects.collect, ih]

theorem collect_required (L : ObjectLimits) (m : ObjectManager)
    (entries : List rct_object_entry) (j k : Nat)
    (h : (GetRequiredObjects.collect L m entries).1[j]? = some (some k)) :
    ∃ e, entries[j]? = some e ∧ object_entry_is_empty e = false ∧ FindObject m e = some k := by
  induction entries generalizing j with
  | nil => simp [GetRequiredObjects.collect] at h
  | cons e rest ih =>
    cases j with
    | zero =>
      simp only [GetRequiredObjects.collect, List.getElem?_cons_zero, Option.some.injEq] at h
      refine ⟨e, by simp, ?_⟩
      cases he : object_entry_is_empty e
      · simp [he] at h
        exact ⟨rfl, h⟩
      · simp [he] at h
    | succ j =>
      simp only [GetRequiredObjects.collect, List.getElem?_cons_succ] at h
      obtain ⟨e1, h1, h2, h3⟩ := ih j h
      exact ⟨e1, by simpa using h1, h2, h3⟩

theorem SlotTypeInvariant_replicate (L : ObjectLimits) (n : Nat) :
    SlotTypeInvariant L (List.replicate n none) := by
  intro i o hi
  rw [List.getD_eq_getElem?_getD, List.getElem?_replicate] at hi
  split at hi <;> simp at hi

theorem releaseOwned_invariant (L : ObjectLimits) (v : List (Option Object))
    (m : ObjectManager) (h : ObjectManagerInvariant L m) :
    ObjectManagerInvariant L (releaseOwned v m) :=
  ⟨h.1, RepositoryConsistent_of_items m _ rfl h.2⟩

theorem UnloadObjectsExcept_invariant (L : ObjectLimits) (newLoadedObjects : List (Option Object))
    (m : ObjectManager) (h : ObjectManagerInvariant L m) :
    ObjectManagerInvariant L (UnloadObjectsExcept newLoadedObjects m) := by
  unfold UnloadObjectsExcept
  refine foldl_invariant (ObjectManagerInvariant L) _ ?_ _ m h
  intro b i hb
  cases b._loadedObjects.getD i none with
  | none => exact hb
  | some o =>
    show ObjectManagerInvariant L
      (if o ∈ newLoadedObjects.filterMap id then b else UnloadObject (some o) b)
    split
    · exact hb
    · exact (UnloadObject_invariant L _ b hb).1

theorem SetNewLoadedObjectList_invariant (L : ObjectLimits)
    (newLoadedObjects : List (Option Object)) (m : ObjectManager)
    (hnew : SlotTypeInvariant L newLoadedObjects) (h : ObjectManagerInvariant L m) :
    ObjectManagerInvariant L (SetNewLoadedObjectList newLoadedObjects m) := by
  unfold SetNewLoadedObjectList
  simp only []
  refine ⟨hnew, ?_⟩
  split
  · exact RepositoryConsistent_of_items (UnloadAll m) _ rfl (UnloadAll_invariant L m h).2
  · exact RepositoryConsistent_of_items (UnloadObjectsExcept newLoadedObjects m) _ rfl
      (UnloadObjectsExcept_invariant L newLoadedObjects m h).2

theorem required_invariant (L : ObjectLimits) (m : ObjectManager)
    (requiredObjects : List (Option Nat))
    (hlen : requiredObjects.length ≤ L.OBJECT_ENTRY_COUNT)
    (htype : ∀ j k, requiredObjects[j]? = some (some k) →
      (get_type_entry_index L j).map Prod.fst = some (m.ori k).ObjectEntry.GetType)
    (h : ObjectManagerInvariant L m) :
    ∃ r, LoadObjects.required L requiredObjects m = some r
      ∧ ObjectManagerInvariant L r.2
      ∧ (∀ objects n, r.1 = Except.ok (objects, n) → SlotTypeInvariant L objects) := by
  have hstart : ReadPhaseInvariant L m
      (({ objects := List.replicate L.OBJECT_ENTRY_COUNT none, loadedObjects := [],
          badObjects := [] } : BulkLoad), m) :=
    ⟨h, SameCatalogue_refl m, SlotTypeInvariant_replicate L _⟩
  obtain ⟨⟨b, m1⟩, hr, hread⟩ := readObjects_invariant L m requiredObjects 0 _
    (by simp only [List.length_replicate]; omega)
    (fun j k hj => by rw [Nat.zero_add]; exact htype j k hj) hstart
  unfold LoadObjects.required
  simp only [hr]
  obtain ⟨hinv, _, hobj⟩ := hread
  have hloaded : ObjectManagerInvariant L
      (b.loadedObjects.foldl (fun acc obj => acc.record (ObjectEvent.load obj)) m1) :=
    foldl_invariant (ObjectManagerInvariant L) _ (fun acc obj ha => record_invariant L acc _ ha)
      _ m1 hinv
  split
  · refine ⟨_, rfl, ?_, ?_⟩
    · apply releaseOwned_invariant
      exact foldl_invariant (ObjectManagerInvariant L) _
        (fun acc obj ha => (UnloadObject_invariant L _ acc ha).1) _ _ hloaded
    · intro objects n hk
      simp at hk
  · refine ⟨_, rfl, hloaded, ?_⟩
    intro objects n hk
    simp only [Except.ok.injEq, Prod.mk.injEq] at hk
    rw [← hk.1]
    exact hobj

theorem LoadObjects_invariant (L : ObjectLimits) (hwf : L.WellFormed)
    (entries : List rct_object_entry) (m : ObjectManager)
    (hlen : entries.length ≤ L.OBJECT_ENTRY_COUNT)
    (htype : ∀ (i : Nat) (e : rct_object_entry) (k : Nat), entries[i]? = some e →
      object_entry_is_empty e = false → FindObject m e = some k →
      (get_type_entry_index L i).map Prod.fst = some (m.ori k).ObjectEntry.GetType)
    (h : ObjectManagerInvariant L m) :
    ∃ r m1, LoadObjects L entries m = some (r, m1) ∧ ObjectManagerInvariant L m1 := by
  unfold LoadObjects
  cases hreq : GetRequiredObjects L entries m with
  | error missing => exact ⟨Except.error missing, m, rfl, h⟩
  | ok requiredObjects =>
    simp only []
    have hcol : requiredObjects = (GetRequiredObjects.collect L m entries).1 := by
      unfold GetRequiredObjects at hreq
      simp only [] at hreq
      split at hreq
      · exact absurd hreq (by simp)
      · injection hreq with hreq
        exact hreq.symm
    have ht : ∀ j k, requiredObjects[j]? = some (some k) →
        (get_type_entry_index L j).map Prod.fst = some (m.ori k).ObjectEntry.GetType := by
      intro j k hj
      rw [hcol] at hj
      obtain ⟨e, h1, h2, h3⟩ := collect_required L m entries j k hj
      exact htype j e k h1 h2 h3
    have hl : requiredObjects.length ≤ L.OBJECT_ENTRY_COUNT := by
      rw [hcol, collect_length]
      exact hlen
    obtain ⟨⟨r, m1⟩, hres, hinv, hobj⟩ := required_invariant L m requiredObjects hl ht h
    rw [hres]
    cases r with
    | error bad => exact ⟨Except.error bad, m1, rfl, hinv⟩
    | ok val =>
      obtain ⟨objects, n⟩ := val
      have hfin : ObjectManagerInvariant L
          (LoadDefaultObjects L (SetNewLoadedObjectList objects m1)) :=
        LoadDefaultObjects_invariant L hwf (SetNewLoadedObjectList objects m1)
          (SetNewLoadedObjectList_invariant L objects m1 (hobj objects n rfl) hinv)
      exact ⟨Except.ok (), LoadDefaultObjects L (SetNewLoadedObjectList objects m1), rfl,
        hfin⟩

theorem empty_store_invariant (L : ObjectLimits) (items : List ObjectRepositoryItem)
    (n : Nat) (events : List ObjectEvent)
    (hitems : ∀ it ∈ items, it.LoadedObject = none) :
    ObjectManagerInvariant L
      { items := items, nextObjectId := n, _loadedObjects := List.replicate L.OBJECT_ENTRY_COUNT none,
        events := events } := by
  refine ⟨SlotTypeInvariant_replicate L _, ?_⟩
  intro k o hk
  unfold ObjectManager.ori at hk
  simp only [] at hk
  by_cases hlt : k < items.length
  · rw [List.getD_eq_getElem items _ hlt] at hk
    rw [hitems _ (List.getElem_mem hlt)] at hk
    exact absurd hk (by simp)
  · rw [List.getD_eq_default items _ (by omega)] at hk
    exact absurd hk (by simp)

set_option maxRecDepth 100000 in
/-- C6 (as stated, refuted): the store is empty, so the invariant holds; the catalogue
knows one descriptor of type 1, and the descriptor array has it at index 0, which lies in
the partition of type 0. `LoadObjects` returns, and slot 0 then holds the object of
type 1. -/
theorem LoadObjects_breaks_slot_type_invariant :
    ObjectManagerInvariant ⟨[1, 1], 2, 10⟩
      { items := [⟨⟨1, [66], 2⟩, none, true⟩], nextObjectId := 0,
        _loadedObjects := [none, none], events := [] } ∧
    ∃ m1, LoadObjects ⟨[1, 1], 2, 10⟩ [⟨1, [66], 2⟩]
        { items := [⟨⟨1, [66], 2⟩, none, true⟩], nextObjectId := 0,
          _loadedObjects := [none, none], events := [] } = some (Except.ok (), m1)
      ∧ m1._loadedObjects.getD 0 none = some ⟨0, ⟨1, [66], 2⟩⟩
      ∧ ¬ SlotTypeInvariant ⟨[1, 1], 2, 10⟩ m1._loadedObjects := by
  refine ⟨empty_store_invariant ⟨[1, 1], 2, 10⟩ [⟨⟨1, [66], 2⟩, none, true⟩] 0 []
    (by simp), _, rfl, rfl, ?_⟩
  intro hinv
  have h0 := hinv 0 ⟨0, ⟨1, [66], 2⟩⟩ rfl
  exact absurd h0 (by decide)

/-- C6 (amended): let the capacity table be usable in `int32_t` arithmetic and let every
back-pointer of the repository refer to an instance of its own catalogue entry. If every
occupied slot holds an object whose type equals the type of the capacity partition
containing that slot index, then the same holds, together with the consistency of the
back-pointers, after `LoadObject`, `UnloadObjects`, `UnloadAll` and `ResetObjects`, for
every input; and `LoadObjects` returns with the same for every descriptor array of at most
`OBJECT_ENTRY_COUNT` descriptors in which each non-empty descriptor known to the repository
stands at an index whose capacity partition has the type of the catalogue entry the
descriptor resolves to. -/
theorem slot_type_invariant_preserved (L : ObjectLimits) (m : ObjectManager)
    (hwf : L.WellFormed) (hinv : ObjectManagerInvariant L m) :
    (∀ entry, ObjectManagerInvariant L (LoadObject L entry m).2) ∧
    (∀ entries, ObjectManagerInvariant L (UnloadObjects entries m)) ∧
    ObjectManagerInvariant L (UnloadAll m) ∧
    ObjectManagerInvariant L (ResetObjects m) ∧
    (∀ entries : List rct_object_entry,
      entries.length ≤ L.OBJECT_ENTRY_COUNT →
      (∀ (i : Nat) (e : rct_object_entry) (k : Nat), entries[i]? = some e →
        object_entry_is_empty e = false → FindObject m e = some k →
        (get_type_entry_index L i).map Prod.fst = some (m.ori k).ObjectEntry.GetType) →
      ∃ r m1, LoadObjects L entries m = some (r, m1) ∧ ObjectManagerInvariant L m1) :=
  ⟨fun entry => LoadObject_invariant L hwf entry m hinv,
   fun entries => UnloadObjects_invariant L entries m hinv,
   UnloadAll_invariant L m hinv,
   ResetObjects_invariant L m hinv,
   fun entries hlen htype => LoadObjects_invariant L hwf entries m hlen htype hinv⟩

/-- The bulk load is undefined for a descriptor array longer than `OBJECT_ENTRY_COUNT`
whose descriptors are empty or known to the repository: the write to `objects[i]` at the
first index past the vector has no result. -/
theorem LoadObjects_too_many_descriptors :
    LoadObjects ⟨[1, 1], 2, 10⟩ [⟨0, [0], 0⟩, ⟨0, [0], 0⟩, ⟨0, [0], 0⟩]
        { items := [⟨⟨1, [66], 2⟩, none, true⟩], nextObjectId := 0,
          _loadedObjects := [none, none], events := [] } = none := by
  rfl

/-- Witness for `slot_type_invariant_preserved`: the empty store over a two-type table and
the descriptor array that has the type-1 descriptor at index 1, in the partition of
type 1. -/
theorem slot_type_invariant_preserved_witness :
    ∃ r m1, LoadObjects ⟨[1, 1], 2, 10⟩ [⟨0, [0], 0⟩, ⟨1, [66], 2⟩]
        { items := [⟨⟨1, [66], 2⟩, none, true⟩], nextObjectId := 0,
          _loadedObjects := [none, none], events := [] } = some (r, m1)
      ∧ ObjectManagerInvariant ⟨[1, 1], 2, 10⟩ m1 :=
  (slot_type_invariant_preserved ⟨[1, 1], 2, 10⟩
      { items := [⟨⟨1, [66], 2⟩, none, true⟩], nextObjectId := 0,
        _loadedObjects := [none, none], events := [] }
      (by simp [ObjectLimits.WellFormed])
      (empty_store_invariant ⟨[1, 1], 2, 10⟩ [⟨⟨1, [66], 2⟩, none, true⟩] 0 [] (by simp))
    ).2.2.2.2 [⟨0, [0], 0⟩, ⟨1, [66], 2⟩] (by decide)
    (by
      intro i e k hi he hk
      match i, hi with
      | 0, hi =>
        simp only [List.getElem?_cons_zero, Option.some.injEq] at hi
        subst hi
        exact absurd he (by decide)
      | 1, hi =>
        simp only [List.getElem?_cons_succ, List.getElem?_cons_zero, Option.some.injEq] at hi
        subst hi
        have hk1 : k = 0 := by
          have : FindObject
              { items := [⟨⟨1, [66], 2⟩, none, true⟩], nextObjectId := 0,
                _loadedObjects := [none, none], events := [] } ⟨1, [66], 2⟩ = some 0 := by decide
          rw [this] at hk
          injection hk with hk
          exact hk.symm
        subst hk1
        decide
      | n + 2, hi => simp at hi)

/-! ## Theorems: cheats window -/

theorem clamp_bounds (v lo hi : Int) (h : lo ≤ hi) : lo ≤ clamp v lo hi ∧ clamp v lo hi ≤ hi := by
  unfold clamp
  split
  · omega
  · split <;> omega

theorem clamp_of_mem (v lo hi : Int) (h1 : lo ≤ v) (h2 : v ≤ hi) : clamp v lo hi = v := by
  unfold clamp
  split
  · omega
  · split
    · omega
    · rfl

theorem CHEATS_MONEY_INCREMENT_DIV_eq : CHEATS_MONEY_INCREMENT_DIV = 50000 := by decide

theorem tdiv_of_nonneg (v : Int) (h : 0 ≤ v) : Int.tdiv v 50000 = v / 50000 := by
  rw [Int.tdiv_eq_ediv h (by decide)]

theorem tdiv_of_neg (v : Int) (h : v < 0) : Int.tdiv v 50000 = -((-v) / 50000) := by
  have h1 : v = -(-v) := by omega
  rw [h1, Int.neg_tdiv, Int.tdiv_eq_ediv (by omega) (by decide)]
  simp

/-- C15 (refuted as stated): the increment does not round a negative value down. From
-12000.00 the code goes to -5000.00, where `step * floor(v / step) + step` is -10000.00;
from the lower money32 limit, which repeated decrements reach, it goes to -214740000.0
and not to -214745000.0. -/
theorem money_spinner_increment_not_floor :
    (window_cheats_money_mousedown ⟨8000, 12, []⟩ WIDX_MONEY_SPINNER_INCREMENT
        ⟨-120000, 999, 1, 1, 1, -1, []⟩)._moneySpinnerValue = -50000
    ∧ add_clamp_money32 (50000 * ((-120000 : Int) / 50000)) 50000 = -100000
    ∧ (window_cheats_money_mousedown ⟨8000, 12, []⟩ WIDX_MONEY_SPINNER_INCREMENT
        ⟨-2147483648, 999, 1, 1, 1, -1, []⟩)._moneySpinnerValue = -2147400000
    ∧ add_clamp_money32 (50000 * ((-2147483648 : Int) / 50000)) 50000 = -2147450000 := by
  refine ⟨by rfl, by decide, by rfl, by decide⟩

/-- C15 (amended): the increment sets the money spinner to the value rounded toward zero
to a multiple of the step 5000.00, plus one step, saturating at the upper money32 limit;
for a value that is not negative this is `step * floor(v / step) + step`. The decrement
subtracts one step from the same rounded value, saturating at the lower limit. So 10000.00
and 12000.00 both give 15000.00, and one decrement from 15000.00 gives 10000.00. -/
theorem money_spinner_rounds_toward_zero (D : DateConstants) (c : CheatsState) :
    (0 ≤ c._moneySpinnerValue →
      (window_cheats_money_mousedown D WIDX_MONEY_SPINNER_INCREMENT c)._moneySpinnerValue
          = min 2147483647 (50000 * (c._moneySpinnerValue / 50000) + 50000)
      ∧ (c._moneySpinnerValue ≤ 2147483647 →
        (window_cheats_money_mousedown D WIDX_MONEY_SPINNER_DECREMENT c)._moneySpinnerValue
          = 50000 * (c._moneySpinnerValue / 50000) - 50000))
    ∧ (c._moneySpinnerValue < 0 →
      (-2147483648 ≤ c._moneySpinnerValue →
        (window_cheats_money_mousedown D WIDX_MONEY_SPINNER_INCREMENT c)._moneySpinnerValue
          = -(50000 * ((-c._moneySpinnerValue) / 50000)) + 50000)
      ∧ (window_cheats_money_mousedown D WIDX_MONEY_SPINNER_DECREMENT c)._moneySpinnerValue
          = max (-2147483648) (-(50000 * ((-c._moneySpinnerValue) / 50000)) - 50000))
    ∧ (c._moneySpinnerValue = MONEY 10000 0 →
      (window_cheats_money_mousedown D WIDX_MONEY_SPINNER_INCREMENT c)._moneySpinnerValue
          = MONEY 15000 0)
    ∧ (c._moneySpinnerValue = MONEY 12000 0 →
      (window_cheats_money_mousedown D WIDX_MONEY_SPINNER_INCREMENT c)._moneySpinnerValue
          = MONEY 15000 0)
    ∧ (c._moneySpinnerValue = MONEY 15000 0 →
      (window_cheats_money_mousedown D WIDX_MONEY_SPINNER_DECREMENT c)._moneySpinnerValue
          = MONEY 10000 0) := by
  have hinc : (window_cheats_money_mousedown D WIDX_MONEY_SPINNER_INCREMENT c)._moneySpinnerValue
      = add_clamp_money32 (50000 * Int.tdiv c._moneySpinnerValue 50000) 50000 := by
    simp [window_cheats_money_mousedown, CHEATS_MONEY_INCREMENT_DIV_eq]
  have hdec : (window_cheats_money_mousedown D WIDX_MONEY_SPINNER_DECREMENT c)._moneySpinnerValue
      = add_clamp_money32 (50000 * Int.tdiv c._moneySpinnerValue 50000) (-50000) := by
    simp [window_cheats_money_mousedown, CHEATS_MONEY_INCREMENT_DIV_eq,
      WIDX_MONEY_SPINNER_DECREMENT, WIDX_MONEY_SPINNER_INCREMENT]
  rw [hinc, hdec]
  refine ⟨?_, ?_, ?_, ?_, ?_⟩
  · intro h
    rw [tdiv_of_nonneg _ h]
    unfold add_clamp_money32
    refine ⟨?_, ?_⟩
    · simp only [show ((50000 : Int) > 0) from by decide, if_true]
      split <;> omega
    · intro h2
      simp only [show ¬ ((-50000 : Int) > 0) from by decide, if_false]
      split <;> omega
  · intro h
    rw [tdiv_of_neg _ h]
    unfold add_clamp_money32
    refine ⟨?_, ?_⟩
    · intro h2
      simp only [show ((50000 : Int) > 0) from by decide, if_true]
      split <;> omega
    · simp only [show ¬ ((-50000 : Int) > 0) from by decide, if_false]
      split <;> omega
  · intro h
    rw [h]; decide
  · intro h
    rw [h]; decide
  · intro h
    rw [h]; decide

/-- Witness for C15: the increment from 12000.00. -/
theorem money_spinner_rounds_toward_zero_witness :
    (window_cheats_money_mousedown ⟨8000, 12, []⟩ WIDX_MONEY_SPINNER_INCREMENT
        ⟨120000, 999, 1, 1, 1, -1, []⟩)._moneySpinnerValue = 150000 :=
  (money_spinner_rounds_toward_zero ⟨8000, 12, []⟩ ⟨120000, 999, 1, 1, 1, -1, []⟩).2.2.2.1
    (by decide)

theorem month_up_eq (D : DateConstants) (c : CheatsState) :
    window_cheats_money_mousedown D WIDX_MONTH_UP c =
      { c with _monthSpinnerValue := clamp (c._monthSpinnerValue + 1) 1 D.MONTH_COUNT,
               _daySpinnerValue := clamp c._daySpinnerValue 1
                 (D.daysInMonth (clamp (c._monthSpinnerValue + 1) 1 D.MONTH_COUNT)) } := by
  simp [window_cheats_money_mousedown, WIDX_MONTH_UP, WIDX_MONEY_SPINNER_INCREMENT,
    WIDX_MONEY_SPINNER_DECREMENT, WIDX_ADD_MONEY, WIDX_YEAR_UP, WIDX_YEAR_DOWN]

theorem month_down_eq (D : DateConstants) (c : CheatsState) :
    window_cheats_money_mousedown D WIDX_MONTH_DOWN c =
      { c with _monthSpinnerValue := clamp (c._monthSpinnerValue - 1) 1 D.MONTH_COUNT,
               _daySpinnerValue := clamp c._daySpinnerValue 1
                 (D.daysInMonth (clamp (c._monthSpinnerValue - 1) 1 D.MONTH_COUNT)) } := by
  simp [window_cheats_money_mousedown, WIDX_MONTH_UP, WIDX_MONTH_DOWN,
    WIDX_MONEY_SPINNER_INCREMENT,
    WIDX_MONEY_SPINNER_DECREMENT, WIDX_ADD_MONEY, WIDX_YEAR_UP, WIDX_YEAR_DOWN]

/-- C16: with at least one month and a table giving every month at least one day, "month
down" from Month = 1 leaves Month = 1, "month up" from the last month `MONTH_COUNT` leaves
it there (Month = 12 when `MONTH_COUNT` is 12), and after either press the Day is the
previous Day clamped into `[1, daysInMonth(new Month)]` and lies in that range. -/
theorem date_spinner_month_clamping (D : DateConstants) (c : CheatsState)
    (hM : 1 ≤ D.MONTH_COUNT)
    (hdays : ∀ m : Int, 1 ≤ m → m ≤ D.MONTH_COUNT → 1 ≤ D.daysInMonth m) :
    (c._monthSpinnerValue = 1 →
      (window_cheats_money_mousedown D WIDX_MONTH_DOWN c)._monthSpinnerValue = 1)
    ∧ (c._monthSpinnerValue = D.MONTH_COUNT →
      (window_cheats_money_mousedown D WIDX_MONTH_UP c)._monthSpinnerValue = D.MONTH_COUNT)
    ∧ (D.MONTH_COUNT = 12 → c._monthSpinnerValue = 12 →
      (window_cheats_money_mousedown D WIDX_MONTH_UP c)._monthSpinnerValue = 12)
    ∧ (∀ widgetIndex, widgetIndex = WIDX_MONTH_UP ∨ widgetIndex = WIDX_MONTH_DOWN →
      let c' := window_cheats_money_mousedown D widgetIndex c
      c'._daySpinnerValue = clamp c._daySpinnerValue 1 (D.daysInMonth c'._monthSpinnerValue)
      ∧ 1 ≤ c'._monthSpinnerValue ∧ c'._monthSpinnerValue ≤ D.MONTH_COUNT
      ∧ 1 ≤ c'._daySpinnerValue
      ∧ c'._daySpinnerValue ≤ D.daysInMonth c'._monthSpinnerValue) := by
  refine ⟨?_, ?_, ?_, ?_⟩
  · intro h
    rw [month_down_eq]
    simp only [h]
    unfold clamp
    simp
  · intro h
    rw [month_up_eq]
    simp only [h]
    unfold clamp
    split
    · omega
    · split
      · rfl
      · omega
  · intro h12 h
    rw [month_up_eq]
    simp only [h, h12]
    decide
  · intro widgetIndex hw
    have key : ∀ m : Int, 1 ≤ clamp m 1 D.MONTH_COUNT ∧ clamp m 1 D.MONTH_COUNT ≤ D.MONTH_COUNT
        ∧ 1 ≤ clamp c._daySpinnerValue 1 (D.daysInMonth (clamp m 1 D.MONTH_COUNT))
        ∧ clamp c._daySpinnerValue 1 (D.daysInMonth (clamp m 1 D.MONTH_COUNT))
            ≤ D.daysInMonth (clamp m 1 D.MONTH_COUNT) := by
      intro m
      have h1 := clamp_bounds m 1 D.MONTH_COUNT hM
      have h2 := clamp_bounds c._daySpinnerValue 1 _ (hdays _ h1.1 h1.2)
      exact ⟨h1.1, h1.2, h2.1, h2.2⟩
    rcases hw with hw | hw
    · subst hw
      rw [month_up_eq]
      exact ⟨rfl, key _⟩
    · subst hw
      rw [month_down_eq]
      exact ⟨rfl, key _⟩

/-- Witness for C16: a twelve-month calendar, "month down" from Month 3 with Day 31. -/
theorem date_spinner_month_clamping_witness :
    (window_cheats_money_mousedown
        ⟨8000, 12, [31, 28, 31, 30, 31, 30, 31, 31, 30, 31, 30, 31]⟩ WIDX_MONTH_DOWN
        ⟨100000, 999, 1, 3, 31, -1, []⟩)._daySpinnerValue = 28 := by
  have h := (date_spinner_month_clamping
      ⟨8000, 12, [31, 28, 31, 30, 31, 30, 31, 31, 30, 31, 30, 31]⟩
      ⟨100000, 999, 1, 3, 31, -1, []⟩ (by decide)
      (by
        intro m h1 h2
        have : m = 1 ∨ m = 2 ∨ m = 3 ∨ m = 4 ∨ m = 5 ∨ m = 6 ∨ m = 7 ∨ m = 8 ∨ m = 9
            ∨ m = 10 ∨ m = 11 ∨ m = 12 := by
          have h3 : m ≤ 12 := h2
          omega
        rcases this with h | h | h | h | h | h | h | h | h | h | h | h <;> subst h <;> decide)).2.2.2
    WIDX_MONTH_DOWN (Or.inr rfl)
  rw [h.1]
  decide

/-- C17 (refuted as stated): the spinner shows 750 and the cheat is off. The checkbox is
pressed (enable, dispatching 750) and pressed again (disable); the cheats window is then
opened anew, which sets the spinner to the default 999 because no rating is forced; the
third press (enable) dispatches 999, not 750. No spinner button was pressed. -/
theorem force_park_rating_reopen_resets_spinner :
    (window_cheats_open false
      (window_cheats_misc_mouseup_force_park_rating
        (window_cheats_misc_mouseup_force_park_rating
          ⟨100000, 750, 1, 1, 1, -1, []⟩)))._parkRatingSpinnerValue = 999
    ∧ (window_cheats_misc_mouseup_force_park_rating
        (window_cheats_open false
          (window_cheats_misc_mouseup_force_park_rating
            (window_cheats_misc_mouseup_force_park_rating
              ⟨100000, 750, 1, 1, 1, -1, []⟩)))).dispatched
      = [CheatDispatch.CheatsSet CheatType.SetForcedParkRating 750,
         CheatDispatch.CheatsSet CheatType.SetForcedParkRating (-1),
         CheatDispatch.CheatsSet CheatType.SetForcedParkRating 999] := by
  decide

/-- C17 (amended): with the cheat off and the spinner at `r ≥ 0`, three presses of the
force-park-rating checkbox (enable, disable, enable) dispatch `SetForcedParkRating` with
`r`, `-1` and `r` again, and the spinner value is `r` after every press. A call of
`window_cheats_open` in between keeps the spinner at `r` while the cheat is on, and also
while it is off when the window is already open; opening the window anew while the cheat is
off sets the spinner to 999, and the next enable then dispatches 999. -/
theorem force_park_rating_reenable_keeps_spinner (c : CheatsState) (r : Int)
    (hr : 0 ≤ r) (hspin : c._parkRatingSpinnerValue = r) (hoff : get_forced_park_rating c < 0) :
    let c1 := window_cheats_misc_mouseup_force_park_rating c
    let c2 := window_cheats_misc_mouseup_force_park_rating c1
    let c3 := window_cheats_misc_mouseup_force_park_rating c2
    c3.dispatched = c.dispatched ++
        [CheatDispatch.CheatsSet CheatType.SetForcedParkRating r,
         CheatDispatch.CheatsSet CheatType.SetForcedParkRating (-1),
         CheatDispatch.CheatsSet CheatType.SetForcedParkRating r]
    ∧ c1._parkRatingSpinnerValue = r ∧ c2._parkRatingSpinnerValue = r
    ∧ c3._parkRatingSpinnerValue = r
    ∧ get_forced_park_rating c1 = r ∧ get_forced_park_rating c2 = -1
    ∧ get_forced_park_rating c3 = r
    ∧ (∀ alreadyOpen, (window_cheats_open alreadyOpen c1)._parkRatingSpinnerValue = r)
    ∧ (∀ alreadyOpen, (window_cheats_open alreadyOpen c3)._parkRatingSpinnerValue = r)
    ∧ (∀ alreadyOpen,
        (window_cheats_misc_mouseup_force_park_rating
          (window_cheats_misc_mouseup_force_park_rating
            (window_cheats_open alreadyOpen c1))).dispatched = c.dispatched ++
          [CheatDispatch.CheatsSet CheatType.SetForcedParkRating r,
           CheatDispatch.CheatsSet CheatType.SetForcedParkRating (-1),
           CheatDispatch.CheatsSet CheatType.SetForcedParkRating r])
    ∧ window_cheats_open true c2 = c2
    ∧ (window_cheats_open false c2)._parkRatingSpinnerValue = 999
    ∧ (window_cheats_misc_mouseup_force_park_rating (window_cheats_open false c2)).dispatched
        = c.dispatched ++
          [CheatDispatch.CheatsSet CheatType.SetForcedParkRating r,
           CheatDispatch.CheatsSet CheatType.SetForcedParkRating (-1),
           CheatDispatch.CheatsSet CheatType.SetForcedParkRating 999] := by
  rcases c with ⟨m, p, y, mo, d, f, l⟩
  simp only [get_forced_park_rating] at hoff
  simp only at hspin
  subst hspin
  have hf : ¬ (f ≥ 0) := by omega
  have h1 : ¬ ((-1 : Int) ≥ 0) := by decide
  intro c1 c2 c3
  have e1 : c1 = ⟨m, p, y, mo, d, p,
      l ++ [CheatDispatch.CheatsSet CheatType.SetForcedParkRating p]⟩ := by
    simp [c1, window_cheats_misc_mouseup_force_park_rating, get_forced_park_rating, CheatsSet, hf]
  have e2 : c2 = ⟨m, p, y, mo, d, -1,
      l ++ [CheatDispatch.CheatsSet CheatType.SetForcedParkRating p]
        ++ [CheatDispatch.CheatsSet CheatType.SetForcedParkRating (-1)]⟩ := by
    simp [c2, e1, window_cheats_misc_mouseup_force_park_rating, get_forced_park_rating,
      CheatsSet, hr]
  have e3 : c3 = ⟨m, p, y, mo, d, p,
      l ++ [CheatDispatch.CheatsSet CheatType.SetForcedParkRating p]
        ++ [CheatDispatch.CheatsSet CheatType.SetForcedParkRating (-1)]
        ++ [CheatDispatch.CheatsSet CheatType.SetForcedParkRating p]⟩ := by
    simp [c3, e2, window_cheats_misc_mouseup_force_park_rating, get_forced_park_rating,
      CheatsSet]
  rw [e1, e2, e3]
  refine ⟨by simp, rfl, rfl, rfl, rfl, rfl, rfl, ?_, ?_, ?_, rfl, ?_, ?_⟩
  · intro b
    cases b <;> simp [window_cheats_open, get_forced_park_rating, hr]
  · intro b
    cases b <;> simp [window_cheats_open, get_forced_park_rating, hr]
  · intro b
    cases b <;>
      simp [window_cheats_open, window_cheats_misc_mouseup_force_park_rating,
        get_forced_park_rating, CheatsSet, hr]
  · simp [window_cheats_open, get_forced_park_rating]
  · simp [window_cheats_open, window_cheats_misc_mouseup_force_park_rating,
      get_forced_park_rating, CheatsSet]

/-- Witness for C17: the spinner at 750. -/
theorem force_park_rating_reenable_keeps_spinner_witness :
    (window_cheats_misc_mouseup_force_park_rating
      (window_cheats_misc_mouseup_force_park_rating
        (window_cheats_misc_mouseup_force_park_rating
          ⟨100000, 750, 1, 1, 1, -1, []⟩))).dispatched =
      [CheatDispatch.CheatsSet CheatType.SetForcedParkRating 750,
       CheatDispatch.CheatsSet CheatType.SetForcedParkRating (-1),
       CheatDispatch.CheatsSet CheatType.SetForcedParkRating 750] :=
  (force_park_rating_reenable_keeps_spinner ⟨100000, 750, 1, 1, 1, -1, []⟩ 750
    (by decide) rfl (by decide)).1

/-- C20: when no error window is open and the tooltip fits (`width ≤ W`,
`height + 22 ≤ H`), `window_tooltip_show` creates the tooltip window at
`x = clamp(tx - width/2, 0, W - width)` and `y = clamp(y', 22, H - height)`, where `y'` is
`ty + 26` if that is at most `H - height` and `ty + 26 - (height + 40)` otherwise; the
rectangle then lies on the screen, with `22 ≤ y ≤ H - height`. -/
theorem window_tooltip_show_placement (E : TooltipEnv) (g : TooltipGlobals) (tx ty : Int)
    (herr : E.errorWindowOpen = false)
    (hw : E.width ≤ E.screenWidth) (hh : E.height + 22 ≤ E.screenHeight) :
    let x := clamp (tx - Int.tdiv E.width 2) 0 (E.screenWidth - E.width)
    let y' := if ty + 26 ≤ E.screenHeight - E.height then ty + 26
              else ty + 26 - (E.height + 40)
    let y := clamp y' 22 (E.screenHeight - E.height)
    (window_tooltip_show E ⟨tx, ty⟩ g).tooltipWindow = some ⟨x, y, E.width, E.height⟩
    ∧ 0 ≤ x ∧ x + E.width ≤ E.screenWidth
    ∧ 22 ≤ y ∧ y ≤ E.screenHeight - E.height ∧ y + E.height ≤ E.screenHeight := by
  intro x y' y
  have hx := clamp_bounds (tx - Int.tdiv E.width 2) 0 (E.screenWidth - E.width) (by omega)
  have hy := clamp_bounds y' 22 (E.screenHeight - E.height) (by omega)
  refine ⟨?_, hx.1, by have := hx.2; show x + E.width ≤ E.screenWidth; omega, hy.1, hy.2,
    by have := hy.2; show y + E.height ≤ E.screenHeight; omega⟩
  unfold window_tooltip_show reset_tooltip_not_shown
  simp only [herr, Bool.false_eq_true, if_false]
  have hy' : (if ty + 26 > E.screenHeight - E.height then ty + 26 - (E.height + 40) else ty + 26)
      = y' := by
    show _ = (if ty + 26 ≤ E.screenHeight - E.height then ty + 26 else ty + 26 - (E.height + 40))
    split <;> split <;> omega
  rw [hy']

/-- Witness for C20: a trigger point near the bottom of a 640 by 480 screen; the tooltip
flips above the point. -/
theorem window_tooltip_show_placement_witness :
    (window_tooltip_show ⟨false, 97, 1, 10, 640, 480, 65535, 1, 1⟩ ⟨630, 470⟩
        ⟨⟨255, 0, 0⟩, ⟨630, 470⟩, 0, 51, none, []⟩).tooltipWindow
      = some ⟨540, 432, 100, 24⟩ :=
  (window_tooltip_show_placement ⟨false, 97, 1, 10, 640, 480, 65535, 1, 1⟩
    ⟨⟨255, 0, 0⟩, ⟨630, 470⟩, 0, 51, none, []⟩ 630 470 rfl (by decide) (by decide)).1

/-! ## Theorems: tooltips -/

theorem input_update_tooltip_hover (E : TooltipEnv) (delta : Nat) (win : rct_window)
    (widgetIndex : Int) (screenCoords : ScreenCoordsXY) (g : TooltipGlobals)
    (htarget : g.gTooltipWidget.window_classification ≠ 255)
    (hsame : g.gTooltipWidget = ⟨win.classification, win.number, widgetIndex⟩) :
    input_update_tooltip E delta (some win) widgetIndex screenCoords g =
      if (g.gTooltipTimeout + delta) % 65536 ≥ 8000 then
        { g with _tooltipNotShownTicks := 0,
                 gTooltipTimeout := (g.gTooltipTimeout + delta) % 65536,
                 tooltipWindow := none,
                 calls := g.calls ++ [TooltipCall.window_close_by_class_WC_TOOLTIP] }
      else
        { g with _tooltipNotShownTicks := 0,
                 gTooltipTimeout := (g.gTooltipTimeout + delta) % 65536 } := by
  unfold input_update_tooltip
  rw [if_neg htarget]
  simp [reset_tooltip_not_shown, hsame, window_close_by_class_WC_TOOLTIP]

/-- C18: while a tooltip is targeted and every update hovers the tooltip's own widget, a
run of `input_update_tooltip` calls adds the ticks of each frame to `gTooltipTimeout` (no
16-bit wrap while the total stays below 65536); as long as the accumulated time is below
8000 the tooltip window is untouched and nothing is closed, and once it has reached 8000
the tooltip window is closed. -/
theorem tooltip_closes_at_8000 (E : TooltipEnv) (win : rct_window) (widgetIndex : Int)
    (updates : List (Nat × ScreenCoordsXY)) (g : TooltipGlobals)
    (htarget : g.gTooltipWidget.window_classification ≠ 255)
    (hsame : g.gTooltipWidget = ⟨win.classification, win.number, widgetIndex⟩)
    (hfit : g.gTooltipTimeout + (updates.map Prod.fst).sum < 65536) :
    (runTooltipUpdates E (some win) widgetIndex updates g).gTooltipTimeout
        = g.gTooltipTimeout + (updates.map Prod.fst).sum
    ∧ (runTooltipUpdates E (some win) widgetIndex updates g).gTooltipWidget = g.gTooltipWidget
    ∧ ((runTooltipUpdates E (some win) widgetIndex updates g).gTooltipTimeout < 8000 →
        (runTooltipUpdates E (some win) widgetIndex updates g).tooltipWindow = g.tooltipWindow
        ∧ (runTooltipUpdates E (some win) widgetIndex updates g).calls = g.calls)
    ∧ (updates ≠ [] →
        8000 ≤ (runTooltipUpdates E (some win) widgetIndex updates g).gTooltipTimeout →
        (runTooltipUpdates E (some win) widgetIndex updates g).tooltipWindow = none
        ∧ TooltipCall.window_close_by_class_WC_TOOLTIP
            ∈ (runTooltipUpdates E (some win) widgetIndex updates g).calls) := by
  induction updates generalizing g with
  | nil =>
    simp [runTooltipUpdates]
  | cons u rest ih =>
    rcases u with ⟨delta, screenCoords⟩
    simp only [List.map_cons, List.sum_cons] at hfit
    have hstep := input_update_tooltip_hover E delta win widgetIndex screenCoords g htarget hsame
    have hmod : (g.gTooltipTimeout + delta) % 65536 = g.gTooltipTimeout + delta :=
      Nat.mod_eq_of_lt (by omega)
    rw [hmod] at hstep
    have hw1 : (input_update_tooltip E delta (some win) widgetIndex screenCoords g).gTooltipWidget
        = g.gTooltipWidget := by
      rw [hstep]; split <;> rfl
    have ht1 : (input_update_tooltip E delta (some win) widgetIndex screenCoords g).gTooltipTimeout
        = g.gTooltipTimeout + delta := by
      rw [hstep]; split <;> rfl
    have ih1 := ih (input_update_tooltip E delta (some win) widgetIndex screenCoords g)
      (by rw [hw1]; exact htarget) (by rw [hw1]; exact hsame) (by rw [ht1]; omega)
    simp only [runTooltipUpdates, List.map_cons, List.sum_cons]
    rcases ih1 with ⟨i1, i2, i3, i4⟩
    refine ⟨by rw [i1, ht1]; omega, by rw [i2, hw1], ?_, ?_⟩
    · intro hlt
      have hlt1 : g.gTooltipTimeout + delta < 8000 := by
        rw [i1, ht1] at hlt; omega
      have h3 := i3 hlt
      have hs2 := hstep
      rw [if_neg (by omega)] at hs2
      rw [hs2] at h3 ⊢
      exact h3
    · intro _ hge
      by_cases hrest : rest = []
      · subst hrest
        simp only [runTooltipUpdates] at hge ⊢
        rw [ht1] at hge
        rw [hstep, if_pos hge]
        simp
      · exact i4 hrest hge

/-- Witness for C18: a targeted tooltip at 7990 ticks; one frame of 16 ticks closes it. -/
theorem tooltip_closes_at_8000_witness :
    (runTooltipUpdates ⟨false, 97, 1, 10, 640, 480, 65535, 1, 1⟩
        (some { classification := 1, number := 2, windowPos := ⟨0, 0⟩,
                widgets := [], enabled_widgets := 0, disabled_widgets := 0,
                pressed_widgets := 0, hold_down_widgets := 0, scrolls := [] })
        3 [(16, ⟨5, 5⟩)]
        ⟨⟨1, 2, 3⟩, ⟨5, 5⟩, 7990, 0, some ⟨0, 31, 100, 24⟩, []⟩).gTooltipTimeout = 7990 + 16 :=
  (tooltip_closes_at_8000 ⟨false, 97, 1, 10, 640, 480, 65535, 1, 1⟩
    { classification := 1, number := 2, windowPos := ⟨0, 0⟩,
      widgets := [], enabled_widgets := 0, disabled_widgets := 0,
      pressed_widgets := 0, hold_down_widgets := 0, scrolls := [] }
    3 [(16, ⟨5, 5⟩)]
    ⟨⟨1, 2, 3⟩, ⟨5, 5⟩, 7990, 0, some ⟨0, 31, 100, 24⟩, []⟩
    (by decide) rfl (by decide)).1

theorem runTooltipUpdates_append (E : TooltipEnv) (w : Option rct_window) (widgetIndex : Int)
    (a b : List (Nat × ScreenCoordsXY)) (g : TooltipGlobals) :
    runTooltipUpdates E w widgetIndex (a ++ b) g
      = runTooltipUpdates E w widgetIndex b (runTooltipUpdates E w widgetIndex a g) := by
  induction a generalizing g with
  | nil => rfl
  | cons u rest ih =>
    rcases u with ⟨delta, screenCoords⟩
    simp only [List.cons_append, runTooltipUpdates]
    exact ih _

theorem input_update_tooltip_still (E : TooltipEnv) (delta : Nat) (w : Option rct_window)
    (widgetIndex : Int) (g : TooltipGlobals)
    (hun : g.gTooltipWidget.window_classification = 255)
    (hticks : g._tooltipNotShownTicks + 1 ≤ 50) :
    input_update_tooltip E delta w widgetIndex g.gTooltipCursor g =
      { g with _tooltipNotShownTicks := g._tooltipNotShownTicks + 1, gTooltipTimeout := 0 } := by
  unfold input_update_tooltip
  rw [if_pos hun, if_pos rfl]
  have hmod : (g._tooltipNotShownTicks + 1) % 65536 = g._tooltipNotShownTicks + 1 :=
    Nat.mod_eq_of_lt (by omega)
  simp only [hmod]
  rw [if_neg (by omega)]

theorem runTooltipUpdates_still (E : TooltipEnv) (w : Option rct_window)
    (widgetIndex : Int) (delta : Nat) (n : Nat) (g : TooltipGlobals)
    (hun : g.gTooltipWidget.window_classification = 255)
    (hticks : g._tooltipNotShownTicks + n ≤ 50) :
    runTooltipUpdates E w widgetIndex (List.replicate n (delta, g.gTooltipCursor)) g =
      { g with _tooltipNotShownTicks := g._tooltipNotShownTicks + n,
               gTooltipTimeout := if n = 0 then g.gTooltipTimeout else 0 } := by
  induction n generalizing g with
  | zero => simp [runTooltipUpdates]
  | succ n ih =>
    simp only [List.replicate_succ, runTooltipUpdates]
    rw [input_update_tooltip_still E delta w widgetIndex g hun (by omega)]
    have h := ih { g with _tooltipNotShownTicks := g._tooltipNotShownTicks + 1,
                          gTooltipTimeout := 0 } hun (by simp only; omega)
    simp only at h
    rw [h]
    simp only [Nat.add_assoc, Nat.add_comm 1 n]
    split <;> simp

/-- C19 (refuted as stated): no tooltip is targeted and the counter starts at 0. The
cursor rests at (10, 10) for 45 updates, moves to (11, 10), and rests there for 6 more
updates. The last update calls `window_tooltip_open`, although the cursor has been at its
pixel for only 7 updates: the move did not reset the counter. -/
theorem tooltip_opens_after_cursor_moved :
    (runTooltipUpdates ⟨false, 97, 1, 10, 640, 480, 65535, 1, 1⟩
        (some { classification := 1, number := 2, windowPos := ⟨0, 0⟩,
                widgets := [], enabled_widgets := 0, disabled_widgets := 0,
                pressed_widgets := 0, hold_down_widgets := 0, scrolls := [] })
        3 (List.replicate 45 (16, ⟨10, 10⟩) ++ List.replicate 6 (16, ⟨11, 10⟩))
        ⟨⟨255, 0, 0⟩, ⟨10, 10⟩, 0, 0, none, []⟩).calls = []
    ∧ (runTooltipUpdates ⟨false, 97, 1, 10, 640, 480, 65535, 1, 1⟩
        (some { classification := 1, number := 2, windowPos := ⟨0, 0⟩,
                widgets := [], enabled_widgets := 0, disabled_widgets := 0,
                pressed_widgets := 0, hold_down_widgets := 0, scrolls := [] })
        3 (List.replicate 45 (16, ⟨10, 10⟩) ++ List.replicate 7 (16, ⟨11, 10⟩))
        ⟨⟨255, 0, 0⟩, ⟨10, 10⟩, 0, 0, none, []⟩).calls
      = [TooltipCall.window_tooltip_open 3 ⟨11, 10⟩, TooltipCall.window_create 0 36 100 24] := by
  constructor
  · rw [runTooltipUpdates_append]
    rw [runTooltipUpdates_still _ _ _ 16 45 ⟨⟨255, 0, 0⟩, ⟨10, 10⟩, 0, 0, none, []⟩ rfl
      (by decide)]
    rfl
  · rw [runTooltipUpdates_append]
    rw [runTooltipUpdates_still _ _ _ 16 45 ⟨⟨255, 0, 0⟩, ⟨10, 10⟩, 0, 0, none, []⟩ rfl
      (by decide)]
    rfl

/-- C19 (amended): while no tooltip is targeted, an `input_update_tooltip` call calls
`window_tooltip_open` exactly when the cursor is at the position stored by the previous
update and the not-shown counter, incremented by this update, exceeds 50. An update at
which the cursor has moved leaves the counter as it is (it is not reset) and only stores
the new position; an update that does not open leaves the tooltip window and the target
untouched. -/
theorem tooltip_opens_on_not_shown_ticks (E : TooltipEnv) (delta : Nat)
    (w : Option rct_window) (widgetIndex : Int) (screenCoords : ScreenCoordsXY)
    (g : TooltipGlobals) (hun : g.gTooltipWidget.window_classification = 255) :
    ((g.gTooltipCursor = screenCoords ∧ (g._tooltipNotShownTicks + 1) % 65536 > 50) →
      ∃ rest, (input_update_tooltip E delta w widgetIndex screenCoords g).calls
        = g.calls ++ TooltipCall.window_tooltip_open widgetIndex screenCoords :: rest)
    ∧ (g.gTooltipCursor = screenCoords → (g._tooltipNotShownTicks + 1) % 65536 ≤ 50 →
      input_update_tooltip E delta w widgetIndex screenCoords g
        = { g with _tooltipNotShownTicks := (g._tooltipNotShownTicks + 1) % 65536,
                   gTooltipTimeout := 0 })
    ∧ (g.gTooltipCursor ≠ screenCoords →
      input_update_tooltip E delta w widgetIndex screenCoords g
        = { g with gTooltipTimeout := 0, gTooltipCursor := screenCoords }) := by
  refine ⟨?_, ?_, ?_⟩
  · rintro ⟨hc, ht⟩
    unfold input_update_tooltip
    rw [if_pos hun, if_pos hc]
    simp only [if_pos ht]
    unfold window_tooltip_open
    cases w with
    | none => exact ⟨[], by simp⟩
    | some win =>
      simp only
      split
      · exact ⟨[], by simp⟩
      · split
        · exact ⟨[], by simp⟩
        · split
          · exact ⟨[], by simp⟩
          · unfold window_tooltip_show reset_tooltip_not_shown
            split
            · exact ⟨[], by simp⟩
            · simp
  · intro hc ht
    unfold input_update_tooltip
    rw [if_pos hun, if_pos hc]
    simp only [if_neg (show ¬ ((g._tooltipNotShownTicks + 1) % 65536 > 50) from by omega)]
    rw [hc]
  · intro hc
    unfold input_update_tooltip
    rw [if_pos hun, if_neg hc]

/-- Witness for C19: the counter at 50 and the cursor still; the update opens a tooltip. -/
theorem tooltip_opens_on_not_shown_ticks_witness :
    ∃ rest, (input_update_tooltip ⟨false, 97, 1, 10, 640, 480, 65535, 1, 1⟩ 16
        (some { classification := 1, number := 2, windowPos := ⟨0, 0⟩,
                widgets := [], enabled_widgets := 0, disabled_widgets := 0,
                pressed_widgets := 0, hold_down_widgets := 0, scrolls := [] })
        3 ⟨10, 10⟩ ⟨⟨255, 0, 0⟩, ⟨10, 10⟩, 0, 50, none, []⟩).calls
      = [] ++ TooltipCall.window_tooltip_open 3 ⟨10, 10⟩ :: rest :=
  (tooltip_opens_on_not_shown_ticks ⟨false, 97, 1, 10, 640, 480, 65535, 1, 1⟩ 16
    (some { classification := 1, number := 2, windowPos := ⟨0, 0⟩,
            widgets := [], enabled_widgets := 0, disabled_widgets := 0,
            pressed_widgets := 0, hold_down_widgets := 0, scrolls := [] })
    3 ⟨10, 10⟩ ⟨⟨255, 0, 0⟩, ⟨10, 10⟩, 0, 50, none, []⟩ rfl).1 ⟨rfl, by decide⟩

/-! ## Theorems: content-view coordinates -/

/-- C11 (refuted as stated): a scroll widget at (10, 20) in a window at (100, 50), no
scrollbar visible, offsets `h_left = 5`, `v_top = 7`. The screen point (150, 100) is in
the content view; subtracting origin and window position and adding the offsets gives
(45, 37), the code returns (44, 36). With the horizontal scrollbar visible, the point
(105, 165), left of the widget's left edge and inside the scrollbar band, is classified as
the left button, not as `SCROLL_PART_NONE`. -/
theorem widget_scroll_get_part_view_offset_minus_one :
    widget_scroll_get_part UiConstants.sample
        { classification := 1, number := 2, windowPos := ⟨100, 50⟩,
          widgets := [⟨WidgetType.WWT_SCROLL, 10, 110, 20, 120⟩],
          enabled_widgets := 0, disabled_widgets := 0, pressed_widgets := 0,
          hold_down_widgets := 0, scrolls := [⟨0, 5, 300, 0, 0, 7, 300, 0, 0⟩] }
        0 ⟨150, 100⟩ ⟨0, 0⟩ = ⟨⟨44, 36⟩, ScrollPart.SCROLL_PART_VIEW, 0⟩
    ∧ (150 - 10 - 100 + 5 : Int) = 45 ∧ (100 - 20 - 50 + 7 : Int) = 37
    ∧ (widget_scroll_get_part UiConstants.sample
        { classification := 1, number := 2, windowPos := ⟨100, 50⟩,
          widgets := [⟨WidgetType.WWT_SCROLL, 10, 110, 20, 120⟩],
          enabled_widgets := 0, disabled_widgets := 0, pressed_widgets := 0,
          hold_down_widgets := 0, scrolls := [⟨1, 5, 300, 0, 0, 7, 300, 0, 0⟩] }
        0 ⟨105, 165⟩ ⟨0, 0⟩).output_scroll_area = ScrollPart.SCROLL_PART_HSCROLLBAR_LEFT := by
  decide

/-- C11 (amended): whenever `widget_scroll_get_part` classifies a coordinate as content
view, the returned coordinate is `screenCoords` minus the widget's (left, top) minus the
window position plus the scroll offsets (h_left, v_top) minus one, in each component; and a
coordinate outside the bands of the visible scrollbars that is at or before the widget's
top-left corner in either axis is classified as `SCROLL_PART_NONE`, with the returned
coordinate `screenCoords` minus the widget's (left, top) minus the window position. -/
theorem widget_scroll_get_part_view_coordinates (K : UiConstants) (w : rct_window)
    (widgetIndex : Nat) (screenCoords retScreenCoords : ScreenCoordsXY) :
    ((widget_scroll_get_part K w widgetIndex screenCoords retScreenCoords).output_scroll_area
        = ScrollPart.SCROLL_PART_VIEW →
      (widget_scroll_get_part K w widgetIndex screenCoords retScreenCoords).retScreenCoords
        = ⟨screenCoords.x - (w.widgetAt widgetIndex).left - w.windowPos.x
              + (w.scrollAt (widgetScrollId w widgetIndex)).h_left - 1,
            screenCoords.y - (w.widgetAt widgetIndex).top - w.windowPos.y
              + (w.scrollAt (widgetScrollId w widgetIndex)).v_top - 1⟩
      ∧ 0 < screenCoords.x - (w.widgetAt widgetIndex).left - w.windowPos.x
      ∧ 0 < screenCoords.y - (w.widgetAt widgetIndex).top - w.windowPos.y)
    ∧ (¬ ((w.scrollAt (widgetScrollId w widgetIndex)).flags &&& K.HSCROLLBAR_VISIBLE ≠ 0
          ∧ screenCoords.y ≥ w.windowPos.y + (w.widgetAt widgetIndex).bottom
              - (K.SCROLLBAR_WIDTH + 1)) →
      ¬ ((w.scrollAt (widgetScrollId w widgetIndex)).flags &&& K.VSCROLLBAR_VISIBLE ≠ 0
          ∧ screenCoords.x ≥ w.windowPos.x + (w.widgetAt widgetIndex).right
              - (K.SCROLLBAR_WIDTH + 1)) →
      (screenCoords.x ≤ (w.widgetAt widgetIndex).left + w.windowPos.x
        ∨ screenCoords.y ≤ (w.widgetAt widgetIndex).top + w.windowPos.y) →
      widget_scroll_get_part K w widgetIndex screenCoords retScreenCoords
        = ⟨⟨screenCoords.x - (w.widgetAt widgetIndex).left - w.windowPos.x,
            screenCoords.y - (w.widgetAt widgetIndex).top - w.windowPos.y⟩,
           ScrollPart.SCROLL_PART_NONE, widgetScrollId w widgetIndex⟩) := by
  refine ⟨?_, ?_⟩
  · unfold widget_scroll_get_part
    simp only
    split
    · intro h
      exfalso
      revert h
      simp only
      split_ifs <;> simp
    · split
      · intro h
        exfalso
        revert h
        simp only
        split_ifs <;> simp
      · split
        · intro h
          simp at h
        · rename_i hxy
          intro _
          refine ⟨?_, by omega, by omega⟩
          simp only [ScreenCoordsXY.mk.injEq]
          constructor <;> omega
  · intro hh hv hxy
    unfold widget_scroll_get_part
    simp only
    rw [if_neg hh, if_neg hv, if_pos (by omega)]

/-- Witness for C11: the point (150, 100) of the refuting window, in the content view. -/
theorem widget_scroll_get_part_view_coordinates_witness :
    (widget_scroll_get_part UiConstants.sample
        { classification := 1, number := 2, windowPos := ⟨100, 50⟩,
          widgets := [⟨WidgetType.WWT_SCROLL, 10, 110, 20, 120⟩],
          enabled_widgets := 0, disabled_widgets := 0, pressed_widgets := 0,
          hold_down_widgets := 0, scrolls := [⟨0, 5, 300, 0, 0, 7, 300, 0, 0⟩] }
        0 ⟨150, 100⟩ ⟨0, 0⟩).retScreenCoords = ⟨44, 36⟩ :=
  ((widget_scroll_get_part_view_coordinates UiConstants.sample
      { classification := 1, number := 2, windowPos := ⟨100, 50⟩,
        widgets := [⟨WidgetType.WWT_SCROLL, 10, 110, 20, 120⟩],
        enabled_widgets := 0, disabled_widgets := 0, pressed_widgets := 0,
        hold_down_widgets := 0, scrolls := [⟨0, 5, 300, 0, 0, 7, 300, 0, 0⟩] }
      0 ⟨150, 100⟩ ⟨0, 0⟩).1 (by decide)).1

/-! ## Theorems: scroll offsets -/

theorem toUInt16_le (v : Int) (h : 0 ≤ v) : ((toUInt16 v : Nat) : Int) ≤ v := by
  unfold toUInt16
  omega

theorem toUInt16_toInt16 (v : Int) : toUInt16 (toInt16 v) = toUInt16 v := by
  unfold toUInt16 toInt16
  omega

theorem toInt16_of_range (v : Int) (h1 : -32768 ≤ v) (h2 : v ≤ 32767) : toInt16 v = v := by
  unfold toInt16
  omega

theorem scrollAt_setScroll (w : rct_window) (scroll_id : Nat) (scroll : rct_scroll)
    (h : scroll_id < w.scrolls.length) : (w.setScroll scroll_id scroll).scrollAt scroll_id = scroll := by
  simp [rct_window.setScroll, rct_window.scrollAt, List.getD_eq_getElem?_getD, h]

theorem widgetAt_setScroll (w : rct_window) (scroll_id : Nat) (scroll : rct_scroll) (i : Nat) :
    (w.setScroll scroll_id scroll).widgetAt i = w.widgetAt i := rfl

theorem or_pressed_and_visible (f p v : Nat) (h : p &&& v = 0) : (f ||| p) &&& v = f &&& v := by
  apply Nat.eq_of_testBit_eq
  intro i
  have hi : (p &&& v).testBit i = false := by rw [h]; simp
  rw [Nat.testBit_land] at hi
  simp only [Nat.testBit_land, Nat.testBit_lor]
  cases hf : f.testBit i <;> cases hp : p.testBit i <;> cases hv : v.testBit i <;> simp_all

/-- The invariant only depends on the visibility bits, the offsets and the extents. -/
theorem ScrollOffsetsInRange_of_fields (K : UiConstants) (widget : rct_widget)
    (s s' : rct_scroll)
    (hH : s'.flags &&& K.HSCROLLBAR_VISIBLE = s.flags &&& K.HSCROLLBAR_VISIBLE)
    (hV : s'.flags &&& K.VSCROLLBAR_VISIBLE = s.flags &&& K.VSCROLLBAR_VISIBLE)
    (hr : s'.h_right = s.h_right) (hb : s'.v_bottom = s.v_bottom)
    (hl : (s'.h_left : Int) ≤ max 0 (s.h_right - visibleWidth K widget s))
    (ht : (s'.v_top : Int) ≤ max 0 (s.v_bottom - visibleHeight K widget s)) :
    ScrollOffsetsInRange K widget s' := by
  unfold ScrollOffsetsInRange visibleWidth visibleHeight at *
  rw [hH, hV, hr, hb]
  exact ⟨Int.ofNat_nonneg _, hl, Int.ofNat_nonneg _, ht⟩

/-- After the thumb update of a window whose scroll region was replaced, the invariant
holds when it holds for the replacement. -/
theorem ScrollOffsetsInRange_after_update (K : UiConstants) (S : ScrollConstants)
    (hthumbs : S.ThumbUpdateKeepsOffsets) (w : rct_window) (widgetIndex scroll_id : Nat)
    (hid : scroll_id < w.scrolls.length) (s' : rct_scroll)
    (h : ScrollOffsetsInRange K (w.widgetAt widgetIndex) s') (i : Nat) :
    ScrollOffsetsInRange K
      ((S.widget_scroll_update_thumbs (w.setScroll scroll_id s') i).widgetAt widgetIndex)
      ((S.widget_scroll_update_thumbs (w.setScroll scroll_id s') i).scrollAt scroll_id) := by
  have hk := hthumbs (w.setScroll scroll_id s') i
  have hw : (S.widget_scroll_update_thumbs (w.setScroll scroll_id s') i).widgetAt widgetIndex
      = w.widgetAt widgetIndex := by
    unfold rct_window.widgetAt
    rw [hk.1]
    rfl
  rw [hw]
  have hs := hk.2 scroll_id
  rw [scrollAt_setScroll w scroll_id s' hid] at hs
  rcases hs with ⟨h1, h2, h3, h4, h5⟩
  unfold ScrollOffsetsInRange visibleWidth visibleHeight at *
  rw [h1, h2, h3, h4, h5]
  exact h

theorem drag_offset_bound (offset extent : Nat) (d vis : Int) :
    (((min (toUInt16 (max 0 (offset + d))) (toUInt16 (toInt16 (max 0 (extent - vis)))) : Nat))
      : Int) ≤ max 0 (extent - vis) := by
  rw [toUInt16_toInt16]
  have h1 := toUInt16_le (max 0 (extent - vis)) (le_max_left _ _)
  have h2 : min (toUInt16 (max 0 (offset + d))) (toUInt16 (max 0 (extent - vis)))
      ≤ toUInt16 (max 0 (extent - vis)) := Nat.min_le_right _ _
  omega

theorem input_scroll_drag_continue_in_range (K : UiConstants) (S : ScrollConstants)
    (w : rct_window) (widgetIndex scroll_id : Nat)
    (hSW : K.SCROLLBAR_WIDTH + 1 = 11)
    (hthumbs : S.ThumbUpdateKeepsOffsets)
    (hid : scroll_id < w.scrolls.length)
    (hwidth : 0 ≤ (w.widgetAt widgetIndex).width ∧ (w.widgetAt widgetIndex).width ≤ 32767)
    (hheight : 0 ≤ (w.widgetAt widgetIndex).height ∧ (w.widgetAt widgetIndex).height ≤ 32767)
    (hin : ScrollOffsetsInRange K (w.widgetAt widgetIndex) (w.scrollAt scroll_id))
    (dragLast screenCoords : ScreenCoordsXY) :
    ScrollOffsetsInRange K
      ((input_scroll_drag_continue K S widgetIndex scroll_id dragLast screenCoords w).widgetAt
        widgetIndex)
      ((input_scroll_drag_continue K S widgetIndex scroll_id dragLast screenCoords w).scrollAt
        scroll_id) := by
  unfold input_scroll_drag_continue
  apply ScrollOffsetsInRange_after_update K S hthumbs w widgetIndex scroll_id hid
  have hw0 : toInt16 ((w.widgetAt widgetIndex).width - 1) = (w.widgetAt widgetIndex).width - 1 :=
    toInt16_of_range _ (by omega) (by omega)
  have hw1 : toInt16 ((w.widgetAt widgetIndex).width - 1 - 11)
      = (w.widgetAt widgetIndex).width - 1 - 11 :=
    toInt16_of_range _ (by omega) (by omega)
  have hh0 : toInt16 ((w.widgetAt widgetIndex).height - 1) = (w.widgetAt widgetIndex).height - 1 :=
    toInt16_of_range _ (by omega) (by omega)
  have hh1 : toInt16 ((w.widgetAt widgetIndex).height - 1 - 11)
      = (w.widgetAt widgetIndex).height - 1 - 11 :=
    toInt16_of_range _ (by omega) (by omega)
  simp only [hw0, hw1, hh0, hh1]
  apply ScrollOffsetsInRange_of_fields K _ (w.scrollAt scroll_id)
  · split <;> split <;> rfl
  · split <;> split <;> rfl
  · split <;> split <;> rfl
  · split <;> split <;> rfl
  · unfold ScrollOffsetsInRange at hin
    unfold visibleWidth
    have hSW2 : K.SCROLLBAR_WIDTH + 1 = 11 := hSW
    by_cases hH : (w.scrollAt scroll_id).flags &&& K.HSCROLLBAR_VISIBLE ≠ 0
    · by_cases hV : (w.scrollAt scroll_id).flags &&& K.VSCROLLBAR_VISIBLE ≠ 0
      · simp only [hH, hV, if_true, ne_eq, not_false_eq_true]
        rw [hSW2]
        have := drag_offset_bound (w.scrollAt scroll_id).h_left (w.scrollAt scroll_id).h_right
          (screenCoords.x - dragLast.x) ((w.widgetAt widgetIndex).width - 1 - 11)
        simpa using this
      · simp only [hH, hV, if_true, if_false, ne_eq, not_false_eq_true]
        have := drag_offset_bound (w.scrollAt scroll_id).h_left (w.scrollAt scroll_id).h_right
          (screenCoords.x - dragLast.x) ((w.widgetAt widgetIndex).width - 1)
        simpa using this
    · have hkeep := hin.2.1
      unfold visibleWidth at hkeep
      by_cases hV : (w.scrollAt scroll_id).flags &&& K.VSCROLLBAR_VISIBLE ≠ 0
      · simp only [hH, hV, if_true, if_false, ne_eq, not_false_eq_true] at hkeep ⊢
        exact hkeep
      · simp only [hH, hV, if_true, if_false, ne_eq, not_false_eq_true] at hkeep ⊢
        exact hkeep
  · unfold ScrollOffsetsInRange at hin
    unfold visibleHeight
    have hSW2 : K.SCROLLBAR_WIDTH + 1 = 11 := hSW
    have hkeep := hin.2.2.2
    unfold visibleHeight at hkeep
    by_cases hH : (w.scrollAt scroll_id).flags &&& K.HSCROLLBAR_VISIBLE ≠ 0
    · by_cases hV : (w.scrollAt scroll_id).flags &&& K.VSCROLLBAR_VISIBLE ≠ 0
      · simp only [hH, hV, if_true, ne_eq, not_false_eq_true]
        rw [hSW2]
        have := drag_offset_bound (w.scrollAt scroll_id).v_top (w.scrollAt scroll_id).v_bottom
          (screenCoords.y - dragLast.y) ((w.widgetAt widgetIndex).height - 1 - 11)
        simpa using this
      · simp only [hH, hV, if_true, if_false, ne_eq, not_false_eq_true]
        simp only [hH, if_true, ne_eq, not_false_eq_true] at hkeep
        exact hkeep
    · by_cases hV : (w.scrollAt scroll_id).flags &&& K.VSCROLLBAR_VISIBLE ≠ 0
      · simp only [hH, hV, if_true, if_false, ne_eq, not_false_eq_true]
        have := drag_offset_bound (w.scrollAt scroll_id).v_top (w.scrollAt scroll_id).v_bottom
          (screenCoords.y - dragLast.y) ((w.widgetAt widgetIndex).height - 1)
        simpa using this
      · simp only [hH, hV, if_false]
        simp only [hH, if_false] at hkeep
        exact hkeep


theorem input_scroll_part_update_hleft_in_range (K : UiConstants) (S : ScrollConstants)
    (w : rct_window) (widgetIndex scroll_id : Nat)
    (hapart : S.PressedFlagsApart K)
    (hthumbs : S.ThumbUpdateKeepsOffsets)
    (hid : scroll_id < w.scrolls.length)
    (hin : ScrollOffsetsInRange K (w.widgetAt widgetIndex) (w.scrollAt scroll_id))
    (windowFound : Bool) :
    ScrollOffsetsInRange K
      ((input_scroll_part_update_hleft S windowFound w widgetIndex scroll_id).widgetAt widgetIndex)
      ((input_scroll_part_update_hleft S windowFound w widgetIndex scroll_id).scrollAt
        scroll_id) := by
  unfold input_scroll_part_update_hleft
  cases windowFound
  · exact hin
  · simp only [if_true]
    apply ScrollOffsetsInRange_after_update K S hthumbs w widgetIndex scroll_id hid
    have hp := hapart S.HSCROLLBAR_LEFT_PRESSED (by simp)
    apply ScrollOffsetsInRange_of_fields K _ (w.scrollAt scroll_id)
    · split <;> exact or_pressed_and_visible _ _ _ hp.1
    · split <;> exact or_pressed_and_visible _ _ _ hp.2
    · split <;> rfl
    · split <;> rfl
    · have := hin.2.1
      split
      · simp only
        omega
      · exact this
    · have := hin.2.2.2
      split <;> exact this

theorem input_scroll_part_update_vtop_in_range (K : UiConstants) (S : ScrollConstants)
    (w : rct_window) (widgetIndex scroll_id : Nat)
    (hapart : S.PressedFlagsApart K)
    (hthumbs : S.ThumbUpdateKeepsOffsets)
    (hid : scroll_id < w.scrolls.length)
    (hin : ScrollOffsetsInRange K (w.widgetAt widgetIndex) (w.scrollAt scroll_id))
    (windowFound : Bool) :
    ScrollOffsetsInRange K
      ((input_scroll_part_update_vtop S windowFound w widgetIndex scroll_id).widgetAt widgetIndex)
      ((input_scroll_part_update_vtop S windowFound w widgetIndex scroll_id).scrollAt
        scroll_id) := by
  unfold input_scroll_part_update_vtop
  cases windowFound
  · exact hin
  · simp only [if_true]
    apply ScrollOffsetsInRange_after_update K S hthumbs w widgetIndex scroll_id hid
    have hp := hapart S.VSCROLLBAR_UP_PRESSED (by simp)
    apply ScrollOffsetsInRange_of_fields K _ (w.scrollAt scroll_id)
    · split <;> exact or_pressed_and_visible _ _ _ hp.1
    · split <;> exact or_pressed_and_visible _ _ _ hp.2
    · split <;> rfl
    · split <;> rfl
    · have := hin.2.1
      split <;> exact this
    · have := hin.2.2.2
      split
      · simp only
        omega
      · exact this

theorem visibleWidth_or_pressed (K : UiConstants) (widget : rct_widget) (s : rct_scroll)
    (p : Nat) (hp : p &&& K.VSCROLLBAR_VISIBLE = 0) :
    (widget.width - 1 - (if (s.flags ||| p) &&& K.VSCROLLBAR_VISIBLE ≠ 0
        then K.SCROLLBAR_WIDTH + 1 else 0)) = visibleWidth K widget s := by
  unfold visibleWidth
  rw [or_pressed_and_visible _ _ _ hp]

theorem visibleHeight_or_pressed (K : UiConstants) (widget : rct_widget) (s : rct_scroll)
    (p : Nat) (hp : p &&& K.HSCROLLBAR_VISIBLE = 0) :
    (widget.height - 1 - (if (s.flags ||| p) &&& K.HSCROLLBAR_VISIBLE ≠ 0
        then K.SCROLLBAR_WIDTH + 1 else 0)) = visibleHeight K widget s := by
  unfold visibleHeight
  rw [or_pressed_and_visible _ _ _ hp]

theorem sub_if_eq (a b : Int) (c : Prop) [Decidable c] :
    (if c then a - b else a) = a - (if c then b else 0) := by
  split <;> simp

theorem input_scroll_part_update_hright_in_range (K : UiConstants) (S : ScrollConstants)
    (w : rct_window) (widgetIndex scroll_id : Nat)
    (hapart : S.PressedFlagsApart K)
    (hthumbs : S.ThumbUpdateKeepsOffsets)
    (hid : scroll_id < w.scrolls.length)
    (hin : ScrollOffsetsInRange K (w.widgetAt widgetIndex) (w.scrollAt scroll_id))
    (windowFound : Bool) :
    ScrollOffsetsInRange K
      ((input_scroll_part_update_hright K S windowFound w widgetIndex scroll_id).widgetAt
        widgetIndex)
      ((input_scroll_part_update_hright K S windowFound w widgetIndex scroll_id).scrollAt
        scroll_id) := by
  unfold input_scroll_part_update_hright
  cases windowFound
  · exact hin
  · simp only [if_true]
    apply ScrollOffsetsInRange_after_update K S hthumbs w widgetIndex scroll_id hid
    have hp := hapart S.HSCROLLBAR_RIGHT_PRESSED (by simp)
    rw [sub_if_eq, visibleWidth_or_pressed K _ _ _ hp.2]
    apply ScrollOffsetsInRange_of_fields K _ (w.scrollAt scroll_id)
    · simp only [apply_ite rct_scroll.flags, ite_self]
      exact or_pressed_and_visible _ _ _ hp.1
    · simp only [apply_ite rct_scroll.flags, ite_self]
      exact or_pressed_and_visible _ _ _ hp.2
    · simp only [apply_ite rct_scroll.h_right, ite_self]
    · simp only [apply_ite rct_scroll.v_bottom, ite_self]
    · generalize visibleWidth K (w.widgetAt widgetIndex) (w.scrollAt scroll_id) = vis
      have hm : (0 : Int) ≤ (if vis * -1 + ((w.scrollAt scroll_id).h_right : Int) < 0 then 0
            else vis * -1 + ((w.scrollAt scroll_id).h_right : Int))
          ∧ (if vis * -1 + ((w.scrollAt scroll_id).h_right : Int) < 0 then 0
            else vis * -1 + ((w.scrollAt scroll_id).h_right : Int))
            ≤ max 0 ((w.scrollAt scroll_id).h_right - vis) := by
        split <;> omega
      generalize (if vis * -1 + ((w.scrollAt scroll_id).h_right : Int) < 0 then (0 : Int)
            else vis * -1 + ((w.scrollAt scroll_id).h_right : Int)) = m at hm ⊢
      split
      · simp only
        have := toUInt16_le m hm.1
        omega
      · rename_i hle
        simp only at hle ⊢
        omega
    · have := hin.2.2.2
      simp only [apply_ite rct_scroll.v_top, ite_self]
      exact this

theorem input_scroll_part_update_vbottom_in_range (K : UiConstants) (S : ScrollConstants)
    (w : rct_window) (widgetIndex scroll_id : Nat)
    (hapart : S.PressedFlagsApart K)
    (hthumbs : S.ThumbUpdateKeepsOffsets)
    (hid : scroll_id < w.scrolls.length)
    (hin : ScrollOffsetsInRange K (w.widgetAt widgetIndex) (w.scrollAt scroll_id))
    (windowFound : Bool) :
    ScrollOffsetsInRange K
      ((input_scroll_part_update_vbottom K S windowFound w widgetIndex scroll_id).widgetAt
        widgetIndex)
      ((input_scroll_part_update_vbottom K S windowFound w widgetIndex scroll_id).scrollAt
        scroll_id) := by
  unfold input_scroll_part_update_vbottom
  cases windowFound
  · exact hin
  · simp only [if_true]
    apply ScrollOffsetsInRange_after_update K S hthumbs w widgetIndex scroll_id hid
    have hp := hapart S.VSCROLLBAR_DOWN_PRESSED (by simp)
    rw [sub_if_eq, visibleHeight_or_pressed K _ _ _ hp.1]
    apply ScrollOffsetsInRange_of_fields K _ (w.scrollAt scroll_id)
    · simp only [apply_ite rct_scroll.flags, ite_self]
      exact or_pressed_and_visible _ _ _ hp.1
    · simp only [apply_ite rct_scroll.flags, ite_self]
      exact or_pressed_and_visible _ _ _ hp.2
    · simp only [apply_ite rct_scroll.h_right, ite_self]
    · simp only [apply_ite rct_scroll.v_bottom, ite_self]
    · have := hin.2.1
      simp only [apply_ite rct_scroll.h_left, ite_self]
      exact this
    · generalize visibleHeight K (w.widgetAt widgetIndex) (w.scrollAt scroll_id) = vis
      have hm : (0 : Int) ≤ (if vis * -1 + ((w.scrollAt scroll_id).v_bottom : Int) < 0 then 0
            else vis * -1 + ((w.scrollAt scroll_id).v_bottom : Int))
          ∧ (if vis * -1 + ((w.scrollAt scroll_id).v_bottom : Int) < 0 then 0
            else vis * -1 + ((w.scrollAt scroll_id).v_bottom : Int))
            ≤ max 0 ((w.scrollAt scroll_id).v_bottom - vis) := by
        split <;> omega
      generalize (if vis * -1 + ((w.scrollAt scroll_id).v_bottom : Int) < 0 then (0 : Int)
            else vis * -1 + ((w.scrollAt scroll_id).v_bottom : Int)) = m at hm ⊢
      split
      · simp only
        have := toUInt16_le m hm.1
        omega
      · rename_i hle
        simp only at hle ⊢
        omega

theorem thumb_offset_bound (offset extent : Nat) (d vis : Int) :
    ((toUInt16
        (if (if (offset : Int) + d < 0 then 0 else (offset : Int) + d)
              > (if vis * -1 + (extent : Int) < 0 then 0 else vis * -1 + (extent : Int))
          then (if vis * -1 + (extent : Int) < 0 then 0 else vis * -1 + (extent : Int))
          else (if (offset : Int) + d < 0 then 0 else (offset : Int) + d)) : Nat) : Int)
      ≤ max 0 (extent - vis) := by
  have h1 : (0 : Int) ≤ (if (offset : Int) + d < 0 then 0 else (offset : Int) + d) := by
    split <;> omega
  have h2 : (0 : Int) ≤ (if vis * -1 + (extent : Int) < 0 then 0 else vis * -1 + (extent : Int))
      ∧ (if vis * -1 + (extent : Int) < 0 then 0 else vis * -1 + (extent : Int))
        ≤ max 0 (extent - vis) := by
    split <;> omega
  generalize (if (offset : Int) + d < 0 then (0 : Int) else (offset : Int) + d) = a at h1 ⊢
  generalize (if vis * -1 + (extent : Int) < 0 then (0 : Int) else vis * -1 + (extent : Int)) = b
    at h2 ⊢
  split
  · have := toUInt16_le b h2.1
    omega
  · have := toUInt16_le a h1
    omega

theorem input_scroll_part_update_hthumb_in_range (K : UiConstants) (S : ScrollConstants)
    (w : rct_window) (widgetIndex scroll_id : Nat)
    (hapart : S.PressedFlagsApart K)
    (hthumbs : S.ThumbUpdateKeepsOffsets)
    (hid : scroll_id < w.scrolls.length)
    (hin : ScrollOffsetsInRange K (w.widgetAt widgetIndex) (w.scrollAt scroll_id))
    (windowFound : Bool) (x : Int) (w' : rct_window)
    (hres : input_scroll_part_update_hthumb K S windowFound w widgetIndex x scroll_id = some w') :
    ScrollOffsetsInRange K (w'.widgetAt widgetIndex) (w'.scrollAt scroll_id) := by
  unfold input_scroll_part_update_hthumb at hres
  cases windowFound
  · simp only [Bool.false_eq_true, if_false, Option.some.injEq] at hres
    rw [← hres]
    exact hin
  · simp only [if_true] at hres
    by_cases hz : (if (w.scrollAt scroll_id).flags &&& K.VSCROLLBAR_VISIBLE ≠ 0
        then (w.widgetAt widgetIndex).width - 21 - (K.SCROLLBAR_WIDTH + 1)
        else (w.widgetAt widgetIndex).width - 21) = 0
    · rw [if_pos hz] at hres
      exact absurd hres (by simp)
    · rw [if_neg hz] at hres
      simp only [Option.some.injEq] at hres
      rw [← hres]
      apply ScrollOffsetsInRange_after_update K S hthumbs w widgetIndex scroll_id hid
      have hp := hapart S.HSCROLLBAR_THUMB_PRESSED (by simp)
      rw [sub_if_eq ((w.widgetAt widgetIndex).width - 1), visibleWidth_or_pressed K _ _ _ hp.2]
      apply ScrollOffsetsInRange_of_fields K _ (w.scrollAt scroll_id)
      · exact or_pressed_and_visible _ _ _ hp.1
      · exact or_pressed_and_visible _ _ _ hp.2
      · rfl
      · rfl
      · exact thumb_offset_bound _ _ _ _
      · exact hin.2.2.2

theorem input_scroll_part_update_vthumb_in_range (K : UiConstants) (S : ScrollConstants)
    (w : rct_window) (widgetIndex scroll_id : Nat)
    (hapart : S.PressedFlagsApart K)
    (hthumbs : S.ThumbUpdateKeepsOffsets)
    (hid : scroll_id < w.scrolls.length)
    (hin : ScrollOffsetsInRange K (w.widgetAt widgetIndex) (w.scrollAt scroll_id))
    (windowFound : Bool) (y : Int) (w' : rct_window)
    (hres : input_scroll_part_update_vthumb K S windowFound w widgetIndex y scroll_id = some w') :
    ScrollOffsetsInRange K (w'.widgetAt widgetIndex) (w'.scrollAt scroll_id) := by
  unfold input_scroll_part_update_vthumb at hres
  cases windowFound
  · simp only [Bool.false_eq_true, if_false, Option.some.injEq] at hres
    rw [← hres]
    exact hin
  · simp only [if_true] at hres
    by_cases hz : (if (w.scrollAt scroll_id).flags &&& K.HSCROLLBAR_VISIBLE ≠ 0
        then (w.widgetAt widgetIndex).height - 21 - (K.SCROLLBAR_WIDTH + 1)
        else (w.widgetAt widgetIndex).height - 21) = 0
    · rw [if_pos hz] at hres
      exact absurd hres (by simp)
    · rw [if_neg hz] at hres
      simp only [Option.some.injEq] at hres
      rw [← hres]
      apply ScrollOffsetsInRange_after_update K S hthumbs w widgetIndex scroll_id hid
      have hp := hapart S.VSCROLLBAR_THUMB_PRESSED (by simp)
      rw [sub_if_eq ((w.widgetAt widgetIndex).height - 1), visibleHeight_or_pressed K _ _ _ hp.1]
      apply ScrollOffsetsInRange_of_fields K _ (w.scrollAt scroll_id)
      · exact or_pressed_and_visible _ _ _ hp.1
      · exact or_pressed_and_visible _ _ _ hp.2
      · rfl
      · rfl
      · exact hin.2.1
      · exact thumb_offset_bound _ _ _ _

theorem input_scroll_part_update_hthumb_isSome (K : UiConstants) (S : ScrollConstants)
    (w : rct_window) (widgetIndex scroll_id : Nat) (windowFound : Bool) (x : Int)
    (hdiv : (w.widgetAt widgetIndex).width - 21
      - (if (w.scrollAt scroll_id).flags &&& K.VSCROLLBAR_VISIBLE ≠ 0
          then K.SCROLLBAR_WIDTH + 1 else 0) ≠ 0) :
    (input_scroll_part_update_hthumb K S windowFound w widgetIndex x scroll_id).isSome = true := by
  unfold input_scroll_part_update_hthumb
  rw [← sub_if_eq] at hdiv
  cases windowFound
  · rfl
  · simp only [if_true, if_neg hdiv]
    rfl

theorem input_scroll_part_update_vthumb_isSome (K : UiConstants) (S : ScrollConstants)
    (w : rct_window) (widgetIndex scroll_id : Nat) (windowFound : Bool) (y : Int)
    (hdiv : (w.widgetAt widgetIndex).height - 21
      - (if (w.scrollAt scroll_id).flags &&& K.HSCROLLBAR_VISIBLE ≠ 0
          then K.SCROLLBAR_WIDTH + 1 else 0) ≠ 0) :
    (input_scroll_part_update_vthumb K S windowFound w widgetIndex y scroll_id).isSome = true := by
  unfold input_scroll_part_update_vthumb
  rw [← sub_if_eq] at hdiv
  cases windowFound
  · rfl
  · simp only [if_true, if_neg hdiv]
    rfl

theorem widget_scroll_get_part_scroll_id (K : UiConstants) (w : rct_window) (widgetIndex : Nat)
    (screenCoords retScreenCoords : ScreenCoordsXY) :
    (widget_scroll_get_part K w widgetIndex screenCoords retScreenCoords).scroll_id
      = widgetScrollId w widgetIndex := by
  unfold widget_scroll_get_part
  simp only
  split_ifs <;> rfl

theorem trough_visibleWidth_nonneg (K : UiConstants) (w : rct_window) (widgetIndex : Nat)
    (screenCoords retScreenCoords : ScreenCoordsXY) (hSW : 0 ≤ K.SCROLLBAR_WIDTH)
    (h : (widget_scroll_get_part K w widgetIndex screenCoords retScreenCoords).output_scroll_area
          = ScrollPart.SCROLL_PART_HSCROLLBAR_LEFT_TROUGH
        ∨ (widget_scroll_get_part K w widgetIndex screenCoords retScreenCoords).output_scroll_area
          = ScrollPart.SCROLL_PART_HSCROLLBAR_RIGHT_TROUGH) :
    0 ≤ visibleWidth K (w.widgetAt widgetIndex) (w.scrollAt (widgetScrollId w widgetIndex)) := by
  unfold widget_scroll_get_part at h
  simp only at h
  unfold visibleWidth rct_widget.width
  split_ifs at h <;> simp at h <;> split_ifs <;> omega

theorem trough_visibleHeight_nonneg (K : UiConstants) (w : rct_window) (widgetIndex : Nat)
    (screenCoords retScreenCoords : ScreenCoordsXY) (hSW : 0 ≤ K.SCROLLBAR_WIDTH)
    (h : (widget_scroll_get_part K w widgetIndex screenCoords retScreenCoords).output_scroll_area
          = ScrollPart.SCROLL_PART_VSCROLLBAR_TOP_TROUGH
        ∨ (widget_scroll_get_part K w widgetIndex screenCoords retScreenCoords).output_scroll_area
          = ScrollPart.SCROLL_PART_VSCROLLBAR_BOTTOM_TROUGH) :
    0 ≤ visibleHeight K (w.widgetAt widgetIndex) (w.scrollAt (widgetScrollId w widgetIndex)) := by
  unfold widget_scroll_get_part at h
  simp only at h
  unfold visibleHeight rct_widget.height
  split_ifs at h <;> simp at h <;> split_ifs <;> omega

theorem input_scroll_begin_in_range (K : UiConstants) (S : ScrollConstants)
    (w : rct_window) (widgetIndex : Nat)
    (hSW : 0 ≤ K.SCROLLBAR_WIDTH)
    (hthumbs : S.ThumbUpdateKeepsOffsets)
    (hid : widgetScrollId w widgetIndex < w.scrolls.length)
    (hin : ScrollOffsetsInRange K (w.widgetAt widgetIndex)
      (w.scrollAt (widgetScrollId w widgetIndex)))
    (screenCoords : ScreenCoordsXY) :
    ScrollOffsetsInRange K
      ((input_scroll_begin K S w widgetIndex screenCoords).widgetAt widgetIndex)
      ((input_scroll_begin K S w widgetIndex screenCoords).scrollAt
        (widgetScrollId w widgetIndex)) := by
  have hH := trough_visibleWidth_nonneg K w widgetIndex screenCoords ⟨0, 0⟩ hSW
  have hV := trough_visibleHeight_nonneg K w widgetIndex screenCoords ⟨0, 0⟩ hSW
  unfold input_scroll_begin
  simp only [widget_scroll_get_part_scroll_id]
  rw [sub_if_eq ((w.widgetAt widgetIndex).width - 1),
    sub_if_eq ((w.widgetAt widgetIndex).bottom - (w.widgetAt widgetIndex).top - 1)]
  have hvw : (w.widgetAt widgetIndex).width - 1
      - (if (w.scrollAt (widgetScrollId w widgetIndex)).flags &&& K.VSCROLLBAR_VISIBLE ≠ 0
          then K.SCROLLBAR_WIDTH + 1 else 0)
      = visibleWidth K (w.widgetAt widgetIndex) (w.scrollAt (widgetScrollId w widgetIndex)) := rfl
  have hvh : (w.widgetAt widgetIndex).bottom - (w.widgetAt widgetIndex).top - 1
      - (if (w.scrollAt (widgetScrollId w widgetIndex)).flags &&& K.HSCROLLBAR_VISIBLE ≠ 0
          then K.SCROLLBAR_WIDTH + 1 else 0)
      = visibleHeight K (w.widgetAt widgetIndex) (w.scrollAt (widgetScrollId w widgetIndex)) := rfl
  rw [hvw, hvh]
  have h1 := hin.2.1
  have h2 := hin.2.2.2
  generalize (widget_scroll_get_part K w widgetIndex screenCoords ⟨0, 0⟩).output_scroll_area
    = area at hH hV ⊢
  cases area
  case SCROLL_PART_VIEW =>
    simp only [if_true]
    exact hin
  all_goals
    rw [if_neg (by decide)]
    apply ScrollOffsetsInRange_after_update K S hthumbs w widgetIndex _ hid
    refine ScrollOffsetsInRange_of_fields K _ (w.scrollAt (widgetScrollId w widgetIndex)) _
      rfl rfl rfl rfl ?_ ?_
  all_goals
    try simp at hH
    try simp at hV
    simp only
    try unfold toUInt16
    omega

/-- C12: every input operation that changes a scroll region's offsets keeps the
scroll-offset invariant. With `visibleWidth` the widget's `width()` minus 1, less
`SCROLLBAR_WIDTH + 1` when the vertical scrollbar is visible, and `visibleHeight` alike:
if `h_left` is within `[0, max(0, h_right - visibleWidth)]` and `v_top` within
`[0, max(0, v_bottom - visibleHeight)]` before, they are so after the right-button content
drag (`input_scroll_drag_continue`, whose literal 11 is `SCROLLBAR_WIDTH + 1`), after a
button or track click (`input_scroll_begin`), after a held-button repeat (the four
`input_scroll_part_update_h/v` button functions) and after a thumb drag, which returns a
window whenever its divisor is not zero. The pressed flags are taken to be other bits than
the visibility flags, and the thumb-span update to leave offsets, extents and flags alone. -/
theorem scroll_offsets_stay_in_range (K : UiConstants) (S : ScrollConstants)
    (w : rct_window) (widgetIndex : Nat)
    (hSW : 0 ≤ K.SCROLLBAR_WIDTH)
    (hapart : S.PressedFlagsApart K)
    (hthumbs : S.ThumbUpdateKeepsOffsets)
    (hid : widgetScrollId w widgetIndex < w.scrolls.length)
    (hin : ScrollOffsetsInRange K (w.widgetAt widgetIndex)
      (w.scrollAt (widgetScrollId w widgetIndex))) :
    (K.SCROLLBAR_WIDTH + 1 = 11 →
      0 ≤ (w.widgetAt widgetIndex).width ∧ (w.widgetAt widgetIndex).width ≤ 32767 →
      0 ≤ (w.widgetAt widgetIndex).height ∧ (w.widgetAt widgetIndex).height ≤ 32767 →
      ∀ dragLast screenCoords,
        ScrollOffsetsInRange K
          ((input_scroll_drag_continue K S widgetIndex (widgetScrollId w widgetIndex) dragLast
            screenCoords w).widgetAt widgetIndex)
          ((input_scroll_drag_continue K S widgetIndex (widgetScrollId w widgetIndex) dragLast
            screenCoords w).scrollAt (widgetScrollId w widgetIndex)))
    ∧ (∀ screenCoords,
        ScrollOffsetsInRange K
          ((input_scroll_begin K S w widgetIndex screenCoords).widgetAt widgetIndex)
          ((input_scroll_begin K S w widgetIndex screenCoords).scrollAt
            (widgetScrollId w widgetIndex)))
    ∧ (∀ windowFound,
        ScrollOffsetsInRange K
          ((input_scroll_part_update_hleft S windowFound w widgetIndex
            (widgetScrollId w widgetIndex)).widgetAt widgetIndex)
          ((input_scroll_part_update_hleft S windowFound w widgetIndex
            (widgetScrollId w widgetIndex)).scrollAt (widgetScrollId w widgetIndex))
        ∧ ScrollOffsetsInRange K
          ((input_scroll_part_update_hright K S windowFound w widgetIndex
            (widgetScrollId w widgetIndex)).widgetAt widgetIndex)
          ((input_scroll_part_update_hright K S windowFound w widgetIndex
            (widgetScrollId w widgetIndex)).scrollAt (widgetScrollId w widgetIndex))
        ∧ ScrollOffsetsInRange K
          ((input_scroll_part_update_vtop S windowFound w widgetIndex
            (widgetScrollId w widgetIndex)).widgetAt widgetIndex)
          ((input_scroll_part_update_vtop S windowFound w widgetIndex
            (widgetScrollId w widgetIndex)).scrollAt (widgetScrollId w widgetIndex))
        ∧ ScrollOffsetsInRange K
          ((input_scroll_part_update_vbottom K S windowFound w widgetIndex
            (widgetScrollId w widgetIndex)).widgetAt widgetIndex)
          ((input_scroll_part_update_vbottom K S windowFound w widgetIndex
            (widgetScrollId w widgetIndex)).scrollAt (widgetScrollId w widgetIndex)))
    ∧ (∀ windowFound x w',
        input_scroll_part_update_hthumb K S windowFound w widgetIndex x
            (widgetScrollId w widgetIndex) = some w' →
        ScrollOffsetsInRange K (w'.widgetAt widgetIndex)
          (w'.scrollAt (widgetScrollId w widgetIndex)))
    ∧ (∀ windowFound y w',
        input_scroll_part_update_vthumb K S windowFound w widgetIndex y
            (widgetScrollId w widgetIndex) = some w' →
        ScrollOffsetsInRange K (w'.widgetAt widgetIndex)
          (w'.scrollAt (widgetScrollId w widgetIndex)))
    ∧ (∀ windowFound x,
        (w.widgetAt widgetIndex).width - 21
          - (if (w.scrollAt (widgetScrollId w widgetIndex)).flags &&& K.VSCROLLBAR_VISIBLE ≠ 0
              then K.SCROLLBAR_WIDTH + 1 else 0) ≠ 0 →
        (input_scroll_part_update_hthumb K S windowFound w widgetIndex x
          (widgetScrollId w widgetIndex)).isSome = true)
    ∧ (∀ windowFound y,
        (w.widgetAt widgetIndex).height - 21
          - (if (w.scrollAt (widgetScrollId w widgetIndex)).flags &&& K.HSCROLLBAR_VISIBLE ≠ 0
              then K.SCROLLBAR_WIDTH + 1 else 0) ≠ 0 →
        (input_scroll_part_update_vthumb K S windowFound w widgetIndex y
          (widgetScrollId w widgetIndex)).isSome = true) := by
  refine ⟨?_, ?_, ?_, ?_, ?_, ?_, ?_⟩
  · intro h11 hwidth hheight dragLast screenCoords
    exact input_scroll_drag_continue_in_range K S w widgetIndex _ h11 hthumbs hid hwidth hheight
      hin dragLast screenCoords
  · intro screenCoords
    exact input_scroll_begin_in_range K S w widgetIndex hSW hthumbs hid hin screenCoords
  · intro windowFound
    exact ⟨input_scroll_part_update_hleft_in_range K S w widgetIndex _ hapart hthumbs hid hin _,
      input_scroll_part_update_hright_in_range K S w widgetIndex _ hapart hthumbs hid hin _,
      input_scroll_part_update_vtop_in_range K S w widgetIndex _ hapart hthumbs hid hin _,
      input_scroll_part_update_vbottom_in_range K S w widgetIndex _ hapart hthumbs hid hin _⟩
  · intro windowFound x w' hres
    exact input_scroll_part_update_hthumb_in_range K S w widgetIndex _ hapart hthumbs hid hin
      windowFound x w' hres
  · intro windowFound y w' hres
    exact input_scroll_part_update_vthumb_in_range K S w widgetIndex _ hapart hthumbs hid hin
      windowFound y w' hres
  · intro windowFound x hdiv
    exact input_scroll_part_update_hthumb_isSome K S w widgetIndex _ windowFound x hdiv
  · intro windowFound y hdiv
    exact input_scroll_part_update_vthumb_isSome K S w widgetIndex _ windowFound y hdiv

/-- Witness for C12: a 100 by 100 scroll widget with both scrollbars visible and a 300 by
300 content, at offset 210 of at most 212; the held right button stops at 212. -/
theorem scroll_offsets_stay_in_range_witness :
    ((input_scroll_part_update_hright UiConstants.sample ScrollConstants.sample true
        { classification := 1, number := 2, windowPos := ⟨0, 0⟩,
          widgets := [⟨WidgetType.WWT_SCROLL, 0, 100, 0, 100⟩],
          enabled_widgets := 0, disabled_widgets := 0, pressed_widgets := 0,
          hold_down_widgets := 0, scrolls := [⟨17, 210, 300, 0, 0, 0, 300, 0, 0⟩] }
        0 0).scrollAt 0).h_left = 212
    ∧ ScrollOffsetsInRange UiConstants.sample ⟨WidgetType.WWT_SCROLL, 0, 100, 0, 100⟩
      ((input_scroll_part_update_hright UiConstants.sample ScrollConstants.sample true
        { classification := 1, number := 2, windowPos := ⟨0, 0⟩,
          widgets := [⟨WidgetType.WWT_SCROLL, 0, 100, 0, 100⟩],
          enabled_widgets := 0, disabled_widgets := 0, pressed_widgets := 0,
          hold_down_widgets := 0, scrolls := [⟨17, 210, 300, 0, 0, 0, 300, 0, 0⟩] }
        0 0).scrollAt 0) :=
  ⟨by decide,
   ((scroll_offsets_stay_in_range UiConstants.sample ScrollConstants.sample
      { classification := 1, number := 2, windowPos := ⟨0, 0⟩,
        widgets := [⟨WidgetType.WWT_SCROLL, 0, 100, 0, 100⟩],
        enabled_widgets := 0, disabled_widgets := 0, pressed_widgets := 0,
        hold_down_widgets := 0, scrolls := [⟨17, 210, 300, 0, 0, 0, 300, 0, 0⟩] }
      0 (by decide)
      (by
        intro p hp
        simp only [ScrollConstants.sample, List.mem_cons, List.mem_singleton,
          List.mem_nil_iff, or_false] at hp
        rcases hp with h | h | h | h | h | h <;> subst h <;> decide)
      (fun _ _ => ⟨rfl, fun _ => ⟨rfl, rfl, rfl, rfl, rfl⟩⟩)
      (by decide)
      (by
        unfold ScrollOffsetsInRange visibleWidth visibleHeight
        decide)).2.2.1 true).2.1⟩

/-! ## Theorems: inventions list -/

/-- C13 (failing input): the uninvented list is A, B, C, D, the dragged item is A and the
target pointer names the slot of C, in the same list. After `move_research_item` the list
is B, C, A, D: A sits after C and before D, not immediately before C. -/
theorem move_research_item_reads_target_after_removal :
    move_research_item (some ⟨1, 2⟩) 1 ⟨1, 0, 0⟩
        ⟨[], [⟨1, 0, 0⟩, ⟨2, 0, 0⟩, ⟨3, 0, 0⟩, ⟨4, 0, 0⟩]⟩
      = some ⟨[], [⟨2, 0, 0⟩, ⟨3, 0, 0⟩, ⟨1, 0, 0⟩, ⟨4, 0, 0⟩]⟩
    ∧ (ResearchLists.mk [] [⟨1, 0, 0⟩, ⟨2, 0, 0⟩, ⟨3, 0, 0⟩, ⟨4, 0, 0⟩]).deref ⟨1, 2⟩
      = some ⟨3, 0, 0⟩
    ∧ (research_remove ⟨1, 0, 0⟩
        ⟨[], [⟨1, 0, 0⟩, ⟨2, 0, 0⟩, ⟨3, 0, 0⟩, ⟨4, 0, 0⟩]⟩).deref ⟨1, 2⟩
      = some ⟨4, 0, 0⟩ := by
  decide

theorem ResearchItem.Equals_self (item : ResearchItem) : item.Equals item = true := by
  simp [ResearchItem.Equals]

theorem list_setList (L : ResearchLists) (s : Int) (l : List ResearchItem) :
    (L.setList s l).list s = l := by
  unfold ResearchLists.setList ResearchLists.list
  split <;> simp_all

theorem research_remove_list_of_not_mem (d : ResearchItem) (L : ResearchLists) (s : Int)
    (hd : ∀ it ∈ L.list s, it.Equals d = false) :
    (research_remove d L).list s = L.list s := by
  unfold research_remove
  unfold ResearchLists.list at hd ⊢
  by_cases hs : s = 0
  · simp only [hs, if_true] at hd ⊢
    split
    · rfl
    · simp only
      exact List.eraseP_of_forall_not (fun a ha => by simp [hd a ha])
  · simp only [hs, if_false] at hd ⊢
    have hany : L.gResearchItemsUninvented.any (fun it => it.Equals d) = false := by
      rw [List.any_eq_false]
      intro a ha
      simp [hd a ha]
    rw [if_neg (by simp [hany])]

theorem insertBefore_spec (T d : ResearchItem) (a b : List ResearchItem) (T' : ResearchItem)
    (ha : ∀ it ∈ a, it.Equals T = false) (hT : T'.Equals T = true) :
    move_research_item.insertBefore T d (a ++ T' :: b) = some (a ++ d :: T' :: b) := by
  induction a with
  | nil => simp [move_research_item.insertBefore, hT]
  | cons x rest ih =>
    have hx : x.Equals T = false := ha x (List.mem_cons_self _ _)
    have hrest := ih (fun it hit => ha it (List.mem_cons_of_mem _ hit))
    simp [move_research_item.insertBefore, hx, hrest]

theorem drag_moved_walk_skips (E : InventionsConstants) (K : UiConstants)
    (w : Option rct_window) (L : ResearchLists) (s : Int) (x : Int) :
    ∀ (m : Nat) (y : Int) (i : Nat) (fuel : Nat),
      (∀ k, k < m →
        get_research_item_at E K w L ⟨x, y + k * E.LIST_ROW_HEIGHT⟩ = (some ⟨s, i + k⟩, s)) →
      (∀ k, k < m → ∃ it, (L.list s).get? (i + k) = some it ∧ it.IsAlwaysResearched = true) →
      drag_moved.walk E K w L (fuel + m) ⟨x, y⟩
        = drag_moved.walk E K w L fuel ⟨x, y + m * E.LIST_ROW_HEIGHT⟩ := by
  intro m
  induction m with
  | zero =>
    intro y i fuel _ _
    simp
  | succ m ih =>
    intro y i fuel hget hrun
    have h0 := hget 0 (by omega)
    simp only [Nat.cast_zero, zero_mul, add_zero] at h0
    obtain ⟨it, hit, halways⟩ := hrun 0 (by omega)
    simp only [add_zero] at hit
    have hstep : drag_moved.walk E K w L (fuel + m + 1) ⟨x, y⟩
        = drag_moved.walk E K w L (fuel + m) ⟨x, y + E.LIST_ROW_HEIGHT⟩ := by
      rw [drag_moved.walk]
      simp only [h0, ResearchLists.deref, hit, halways, if_true]
    rw [show fuel + (m + 1) = fuel + m + 1 from rfl, hstep]
    rw [ih (y + E.LIST_ROW_HEIGHT) (i + 1) fuel]
    · congr 2
      push_cast
      ring
    · intro k hk
      have := hget (k + 1) (by omega)
      rw [show i + 1 + k = i + (k + 1) from by omega]
      rw [← this]
      congr 2
      push_cast
      ring
    · intro k hk
      rw [show i + 1 + k = i + (k + 1) from by omega]
      exact hrun (k + 1) (by omega)

/-- C14 (the code at a failing input): the inventions window at its opening size; the
invented list holds twelve plain rows, a run of four always-researched rows (rows 12 to 15)
and one more row. The uninvented item 100 is dropped at (100, 209), on row 13 of the upper pane, whose
content view ends at y = 216. The next point of the walk, (100, 221), is outside the pane,
`get_research_item_at` gives scroll id -1, and nothing is moved: the item stays in the
uninvented list and is not placed underneath the always-researched rows, as the comment
in front of the walk says it is. -/
theorem drag_moved_drop_discarded_below_pane :
    window_editor_inventions_list_drag_moved InventionsConstants.sample UiConstants.sample
        (some sampleInventionsWindow) 3 ⟨100, 209⟩ ⟨100, 0, 0⟩
        ⟨(List.range 12).map (fun i => ⟨i + 1, 0, 0⟩)
            ++ (List.range 4).map (fun i => ⟨i + 13, 64, 0⟩) ++ [⟨17, 0, 0⟩],
          [⟨100, 0, 0⟩, ⟨101, 0, 0⟩]⟩
      = some ⟨(List.range 12).map (fun i => ⟨i + 1, 0, 0⟩)
            ++ (List.range 4).map (fun i => ⟨i + 13, 64, 0⟩) ++ [⟨17, 0, 0⟩],
          [⟨100, 0, 0⟩, ⟨101, 0, 0⟩]⟩
    ∧ get_research_item_at InventionsConstants.sample UiConstants.sample
        (some sampleInventionsWindow)
        ⟨(List.range 12).map (fun i => ⟨i + 1, 0, 0⟩)
            ++ (List.range 4).map (fun i => ⟨i + 13, 64, 0⟩) ++ [⟨17, 0, 0⟩],
          [⟨100, 0, 0⟩, ⟨101, 0, 0⟩]⟩ ⟨100, 209⟩ = (some ⟨0, 13⟩, 0)
    ∧ get_research_item_at InventionsConstants.sample UiConstants.sample
        (some sampleInventionsWindow)
        ⟨(List.range 12).map (fun i => ⟨i + 1, 0, 0⟩)
            ++ (List.range 4).map (fun i => ⟨i + 13, 64, 0⟩) ++ [⟨17, 0, 0⟩],
          [⟨100, 0, 0⟩, ⟨101, 0, 0⟩]⟩ ⟨100, 221⟩ = (none, -1) := by
  refine ⟨by rfl, by rfl, by rfl⟩

/-- The walk over a run that is visible to its end: a dragged item `d` that no row of the
destination list equals is dropped on row `j` of a contiguous run of always-researched rows of the list of pane `s` (the list
is `pre ++ run ++ rest`), and the walk down the rows, one `LIST_ROW_HEIGHT` per step, finds
the rows of the run one after the other in the pane's content view. With enough fuel for
the walk, `window_editor_inventions_list_drag_moved` returns, and: if the point below the
run finds the row `T` that follows the run, `T` is not always-researched and no earlier row
equals `T`, then `d` is placed between the last row of the run and `T`; if it finds no row
in the pane, `d` is appended to the list, right after the run when the run ends the list;
if it is outside the content view (scroll id -1), nothing is moved. `d` never lands between
two rows of the run. -/
theorem drag_moved_places_after_run (E : InventionsConstants) (K : UiConstants)
    (w : Option rct_window) (L : ResearchLists) (d : ResearchItem) (s : Int)
    (pre run rest : List ResearchItem) (j : Nat) (x y : Int) (fuel : Nat)
    (hs : s ≠ -1)
    (hlist : L.list s = pre ++ run ++ rest)
    (hrun : ∀ it ∈ run, it.IsAlwaysResearched = true)
    (hj : j < run.length)
    (hwalk : ∀ k, j + k < run.length →
      get_research_item_at E K w L ⟨x, y + k * E.LIST_ROW_HEIGHT⟩
        = (some ⟨s, pre.length + j + k⟩, s))
    (hd : ∀ it ∈ L.list s, it.Equals d = false)
    (hfuel : run.length - j < fuel) :
    (∀ T rest', rest = T :: rest' → T.IsAlwaysResearched = false →
      (∀ it ∈ pre ++ run, it.Equals T = false) →
      get_research_item_at E K w L ⟨x, y + ((run.length - j : Nat) : Int) * E.LIST_ROW_HEIGHT⟩
        = (some ⟨s, pre.length + run.length⟩, s) →
      window_editor_inventions_list_drag_moved E K w fuel ⟨x, y⟩ d L
        = some ((research_remove d L).setList s (pre ++ run ++ d :: T :: rest')))
    ∧ (get_research_item_at E K w L ⟨x, y + ((run.length - j : Nat) : Int) * E.LIST_ROW_HEIGHT⟩
        = (none, s) →
      window_editor_inventions_list_drag_moved E K w fuel ⟨x, y⟩ d L
        = some ((research_remove d L).setList s (pre ++ run ++ rest ++ [d])))
    ∧ (get_research_item_at E K w L ⟨x, y + ((run.length - j : Nat) : Int) * E.LIST_ROW_HEIGHT⟩
        = (none, -1) →
      window_editor_inventions_list_drag_moved E K w fuel ⟨x, y⟩ d L = some L) := by
  obtain ⟨f, hf⟩ : ∃ f, fuel = (f + 1) + (run.length - j) := ⟨fuel - (run.length - j) - 1, by omega⟩
  have hskip := drag_moved_walk_skips E K w L s x (run.length - j) y (pre.length + j) (f + 1)
    (fun k hk => by
      have := hwalk k (by omega)
      exact this)
    (fun k hk => by
      have hk2 : j + k < run.length := by omega
      refine ⟨run.get ⟨j + k, hk2⟩, ?_, hrun _ (List.get_mem _ _ _)⟩
      rw [hlist, List.append_assoc, List.get?_eq_getElem?,
        List.getElem?_append_right (by omega)]
      rw [show pre.length + j + k - pre.length = j + k from by omega]
      rw [List.getElem?_append_left hk2]
      simp)
  have hL1 := research_remove_list_of_not_mem d L s hd
  unfold window_editor_inventions_list_drag_moved
  rw [hf, hskip]
  refine ⟨?_, ?_, ?_⟩
  · intro T rest' hrest hT hnodup hget
    have hderef : L.deref ⟨s, pre.length + run.length⟩ = some T := by
      unfold ResearchLists.deref
      simp only
      rw [hlist, hrest, List.get?_eq_getElem?, ← List.length_append,
        List.getElem?_append_right (by omega)]
      simp
    rw [drag_moved.walk]
    simp only [hget, hderef, hT, Bool.false_eq_true, if_false]
    rw [if_pos hs]
    unfold move_research_item
    simp only [hL1]
    have hne : ¬ (L.list s = []) := by
      rw [hlist, hrest]
      simp
    rw [if_neg hne]
    have hderef1 : (research_remove d L).deref ⟨s, pre.length + run.length⟩ = some T := by
      unfold ResearchLists.deref at hderef ⊢
      simp only at hderef ⊢
      rw [hL1]
      exact hderef
    simp only [hderef1]
    rw [hlist, hrest, insertBefore_spec T d (pre ++ run) rest' T hnodup T.Equals_self]
  · intro hget
    rw [drag_moved.walk]
    simp only [hget]
    rw [if_pos hs]
    unfold move_research_item
    simp only [hL1, hlist]
  · intro hget
    rw [drag_moved.walk]
    simp only [hget]
    simp

/-- An instance of `drag_moved_places_after_run`: the invented list is one plain row, a run
of two always-researched rows and the row 4; the uninvented item 100 is dropped on the first row of the run and lands
between the run and row 4. -/
theorem drag_moved_places_after_run_witness :
    window_editor_inventions_list_drag_moved InventionsConstants.sample UiConstants.sample
        (some sampleInventionsWindow) 3 ⟨100, 72⟩ ⟨100, 0, 0⟩
        ⟨[⟨1, 0, 0⟩, ⟨2, 64, 0⟩, ⟨3, 64, 0⟩, ⟨4, 0, 0⟩], [⟨100, 0, 0⟩, ⟨101, 0, 0⟩]⟩
      = some ⟨[⟨1, 0, 0⟩, ⟨2, 64, 0⟩, ⟨3, 64, 0⟩, ⟨100, 0, 0⟩, ⟨4, 0, 0⟩], [⟨101, 0, 0⟩]⟩ :=
  (drag_moved_places_after_run InventionsConstants.sample UiConstants.sample
    (some sampleInventionsWindow)
    ⟨[⟨1, 0, 0⟩, ⟨2, 64, 0⟩, ⟨3, 64, 0⟩, ⟨4, 0, 0⟩], [⟨100, 0, 0⟩, ⟨101, 0, 0⟩]⟩
    ⟨100, 0, 0⟩ 0 [⟨1, 0, 0⟩] [⟨2, 64, 0⟩, ⟨3, 64, 0⟩] [⟨4, 0, 0⟩] 0 100 72 3
    (by decide) rfl (by decide) (by decide)
    (by
      intro k hk
      have hk2 : k = 0 ∨ k = 1 := by
        simp only [List.length_cons, List.length_nil] at hk
        omega
      rcases hk2 with h | h <;> subst h <;> rfl)
    (by decide) (by decide)).1 ⟨4, 0, 0⟩ [] rfl (by decide) (by decide) (by rfl)

/-! ## Theorems: keyboard input -/

theorem get_next_key_scan_found (keys : List Nat) (i : Nat) (hi : keys.getD i 0 ≠ 0) :
    ∀ (fuel start : Nat), start ≤ i → i < start + fuel →
      (∀ j, start ≤ j → j < i → keys.getD j 0 = 0) →
      get_next_key.scan keys fuel start = ((i : Int), keys.set i 0) := by
  intro fuel
  induction fuel with
  | zero => intro start h1 h2; omega
  | succ fuel ih =>
    intro start h1 h2 hz
    rw [get_next_key.scan]
    by_cases hs : start = i
    · subst hs
      rw [if_pos hi]
    · have h0 : keys.getD start 0 = 0 := hz start (le_refl _) (by omega)
      rw [if_neg (fun h => h h0)]
      exact ih (start + 1) (by omega) (by omega) (fun j hj1 hj2 => hz j (by omega) hj2)

theorem get_next_key_scan_none (keys : List Nat) :
    ∀ (fuel start : Nat), (∀ j, start ≤ j → j < start + fuel → keys.getD j 0 = 0) →
      get_next_key.scan keys fuel start = (0, keys) := by
  intro fuel
  induction fuel with
  | zero => intro start _; rfl
  | succ fuel ih =>
    intro start hz
    rw [get_next_key.scan]
    have h0 : keys.getD start 0 = 0 := hz start (le_refl _) (by omega)
    rw [if_neg (fun h => h h0)]
    exact ih (start + 1) (fun j hj1 hj2 => hz j (by omega) (by omega))

/-- C24: for every 221-entry pressed-key table, `get_next_key` returns the smallest index
below 221 whose entry is not zero together with the table in which exactly that entry is
set to 0 (every other entry keeps its value); when no entry is non-zero it returns 0 and
the table as it was. -/
theorem get_next_key_first_pressed (keysPressed : List Nat) (hlen : keysPressed.length = 221) :
    (∀ i, i < 221 → keysPressed.getD i 0 ≠ 0 → (∀ j, j < i → keysPressed.getD j 0 = 0) →
      get_next_key keysPressed = ((i : Int), keysPressed.set i 0)
      ∧ (keysPressed.set i 0).getD i 0 = 0
      ∧ (∀ j, j ≠ i → (keysPressed.set i 0).getD j 0 = keysPressed.getD j 0)
      ∧ (keysPressed.set i 0).length = 221)
    ∧ ((∀ i, i < 221 → keysPressed.getD i 0 = 0) → get_next_key keysPressed = (0, keysPressed)) := by
  refine ⟨?_, ?_⟩
  · intro i hi hne hz
    refine ⟨?_, ?_, ?_, ?_⟩
    · exact get_next_key_scan_found keysPressed i hne 221 0 (Nat.zero_le _) (by omega)
        (fun j _ hj => hz j hj)
    · have hil : i < keysPressed.length := by rw [hlen]; exact hi
      rw [List.getD_eq_getElem?_getD, List.getElem?_set_self hil]
      rfl
    · intro j hj
      rw [List.getD_eq_getElem?_getD, List.getD_eq_getElem?_getD,
        List.getElem?_set_ne (Ne.symm hj)]
    · rw [List.length_set]
      exact hlen
  · intro hz
    exact get_next_key_scan_none keysPressed 221 0 (fun j _ hj => hz j (by omega))

set_option maxRecDepth 100000 in
/-- Witness for C24: keys 7 and 30 are down; key 7 is returned and cleared. -/
theorem get_next_key_first_pressed_witness :
    get_next_key (((List.replicate 221 0).set 7 1).set 30 1)
      = (7, (((List.replicate 221 0).set 7 1).set 30 1).set 7 0) :=
  ((get_next_key_first_pressed (((List.replicate 221 0).set 7 1).set 30 1)
    (by rw [List.length_set, List.length_set, List.length_replicate])).1 7 (by decide)
    (by decide)
    (by
      intro j hj
      have : j = 0 ∨ j = 1 ∨ j = 2 ∨ j = 3 ∨ j = 4 ∨ j = 5 ∨ j = 6 := by omega
      rcases this with h | h | h | h | h | h | h <;> subst h <;> decide)).1

/-! ## Theorems: parallel loop -/

theorem ParallelFor_join_prefix (n s : Nat) :
    ∀ k, ((List.range k).map fun j =>
        ParallelFor.worker (j * s) (min n (j * s + s))).flatten = List.range (min n (k * s)) := by
  intro k
  induction k with
  | zero => simp
  | succ k ih =>
    rw [List.range_succ, List.map_append, List.flatten_append, ih]
    simp only [List.map_cons, List.map_nil, List.flatten_cons, List.flatten_nil, List.append_nil]
    unfold ParallelFor.worker
    by_cases h : k * s ≤ n
    · rw [Nat.min_eq_right h]
      rw [List.range_eq_range', List.range_eq_range']
      have h2 : min n ((k + 1) * s) = (min n (k * s + s) - k * s) + k * s := by
        rw [Nat.succ_mul]
        omega
      have h3 := List.range'_append_1 0 (k * s) (min n (k * s + s) - k * s)
      rw [Nat.zero_add] at h3
      rw [h3, h2]
    · have h1 : min n (k * s) = n := by omega
      have h2 : min n (k * s + s) - k * s = 0 := by omega
      have h3 : min n ((k + 1) * s) = n := by
        rw [Nat.succ_mul]
        omega
      rw [h1, h2, h3]
      simp

theorem ceil_div_mul_ge (n p : Nat) (hp : 1 ≤ p) : n ≤ p * ((n + (p - 1)) / p) := by
  have h1 := Nat.div_add_mod (n + (p - 1)) p
  have h2 := Nat.mod_lt (n + (p - 1)) (show 0 < p by omega)
  omega

theorem ceil_div_mul_le (n p : Nat) : p * ((n + (p - 1)) / p) ≤ n + (p - 1) :=
  Nat.mul_div_le _ _

/-- C29: for every item count `n` and worker count `p ≥ 1` (with `n + p` within `size_t`),
`ParallelFor` creates `p` workers; worker `k` gets the indices from `k * s` up to, not
including, `min(n, k * s + s)` with `s = (n + p - 1) / p`, and the index lists of the
workers, one after the other, are exactly 0, 1, ..., n - 1: the callback is invoked once
for every index below `n` and for no other index. -/
theorem ParallelFor_covers_once (n p : Nat) (hp : 1 ≤ p)
    (hfit : n + p ≤ 18446744073709551616) :
    ∃ workers, ParallelFor p n = some workers
      ∧ workers.length = p
      ∧ (∀ k, k < p → workers.getD k [] =
          List.range' (k * ((n + (p - 1)) / p))
            (min n (k * ((n + (p - 1)) / p) + (n + (p - 1)) / p) - k * ((n + (p - 1)) / p)))
      ∧ workers.flatten = List.range n
      ∧ (∀ i, workers.flatten.count i = if i < n then 1 else 0) := by
  have hs1 : (n + (p - 1)) % 18446744073709551616 = n + (p - 1) := Nat.mod_eq_of_lt (by omega)
  have hle := ceil_div_mul_le n p
  have hge := ceil_div_mul_ge n p hp
  have hmap : ((List.range p).map fun k =>
        ParallelFor.worker ((k * ((n + (p - 1)) / p)) % 18446744073709551616)
          (min n (((k * ((n + (p - 1)) / p)) % 18446744073709551616 + (n + (p - 1)) / p)
            % 18446744073709551616)))
      = (List.range p).map fun k =>
        ParallelFor.worker (k * ((n + (p - 1)) / p))
          (min n (k * ((n + (p - 1)) / p) + (n + (p - 1)) / p)) := by
    apply List.map_congr_left
    intro k hk
    have hk' : k < p := List.mem_range.mp hk
    have hks : k * ((n + (p - 1)) / p) + (n + (p - 1)) / p ≤ p * ((n + (p - 1)) / p) := by
      have : (k + 1) * ((n + (p - 1)) / p) ≤ p * ((n + (p - 1)) / p) :=
        Nat.mul_le_mul_right _ (by omega)
      rw [Nat.succ_mul] at this
      exact this
    generalize (n + (p - 1)) / p = s at hks hle ⊢
    have e1 : (k * s) % 18446744073709551616 = k * s :=
      Nat.mod_eq_of_lt (by omega)
    have e2 : (k * s + s) % 18446744073709551616 = k * s + s := Nat.mod_eq_of_lt (by omega)
    simp only [e1, e2]
  have hjoin := ParallelFor_join_prefix n ((n + (p - 1)) / p) p
  have hmin : min n (p * ((n + (p - 1)) / p)) = n := by omega
  rw [hmin] at hjoin
  refine ⟨(List.range p).map fun k =>
        ParallelFor.worker (k * ((n + (p - 1)) / p))
          (min n (k * ((n + (p - 1)) / p) + (n + (p - 1)) / p)), ?_, ?_, ?_, ?_, ?_⟩
  · unfold ParallelFor
    rw [if_neg (by omega)]
    simp only [hs1]
    rw [hmap]
  · simp
  · intro k hk
    simp [List.getD_eq_getElem?_getD, hk, ParallelFor.worker]
  · exact hjoin
  · intro i
    rw [hjoin]
    by_cases hi : i < n
    · rw [if_pos hi]
      exact List.count_eq_one_of_mem (List.nodup_range n) (List.mem_range.mpr hi)
    · rw [if_neg hi]
      exact List.count_eq_zero_of_not_mem (by simp [hi])

/-- Witness for C29: five items on four workers. -/
theorem ParallelFor_covers_once_witness :
    ∃ workers, ParallelFor 4 5 = some workers ∧ workers.flatten = List.range 5 := by
  obtain ⟨workers, h1, _, _, h4, _⟩ := ParallelFor_covers_once 5 4 (by decide) (by decide)
  exact ⟨workers, h1, h4⟩

/-! ## Theorems: thumb drag divisor -/

/-- C30 (failing input): a scroll widget 21 pixels wide whose region shows only the
horizontal scrollbar. `input_scroll_part_update_hthumb` divides by `width() - 21 = 0` and
has no result, whatever the drag delta; so does the vertical update for a widget 21 pixels
high, and, with both scrollbars visible and `SCROLLBAR_WIDTH` 10, the horizontal update
for a widget 32 pixels wide. -/
theorem thumb_drag_divides_by_zero :
    (∀ x, input_scroll_part_update_hthumb UiConstants.sample ScrollConstants.sample true
        { classification := 1, number := 2, windowPos := ⟨0, 0⟩,
          widgets := [⟨WidgetType.WWT_SCROLL, 0, 21, 0, 100⟩],
          enabled_widgets := 0, disabled_widgets := 0, pressed_widgets := 0,
          hold_down_widgets := 0, scrolls := [⟨1, 0, 300, 11, 11, 0, 0, 0, 0⟩] }
        0 x 0 = none)
    ∧ (∀ y, input_scroll_part_update_vthumb UiConstants.sample ScrollConstants.sample true
        { classification := 1, number := 2, windowPos := ⟨0, 0⟩,
          widgets := [⟨WidgetType.WWT_SCROLL, 0, 100, 0, 21⟩],
          enabled_widgets := 0, disabled_widgets := 0, pressed_widgets := 0,
          hold_down_widgets := 0, scrolls := [⟨16, 0, 0, 0, 0, 0, 300, 11, 11⟩] }
        0 y 0 = none)
    ∧ (∀ x, input_scroll_part_update_hthumb UiConstants.sample ScrollConstants.sample true
        { classification := 1, number := 2, windowPos := ⟨0, 0⟩,
          widgets := [⟨WidgetType.WWT_SCROLL, 0, 32, 0, 100⟩],
          enabled_widgets := 0, disabled_widgets := 0, pressed_widgets := 0,
          hold_down_widgets := 0, scrolls := [⟨17, 0, 300, 11, 11, 0, 300, 11, 11⟩] }
        0 x 0 = none) := by
  refine ⟨fun x => ?_, fun y => ?_, fun x => ?_⟩ <;> rfl

/-! ## Theorems: click repeat -/

/-- C27 (refuted as stated): the pressed widget 3 has its hold-down bit set and the
click-repeat counter stands at 15. The hover sample raises the counter to 16 and re-fires
the mouse-down callback: the counter is not "past 16". -/
theorem click_repeat_fires_at_sixteen :
    input_state_widget_pressed_released UiConstants.sample DropdownEnv.sample true ⟨10, 10⟩
        (some { classification := 1, number := 2, windowPos := ⟨0, 0⟩,
                widgets := [], enabled_widgets := 8, disabled_widgets := 0,
                pressed_widgets := 0, hold_down_widgets := 8, scrolls := [] })
        3 ⟨⟨InputState.WidgetPressed, 1, ⟨1, 2, 3⟩⟩, 15, []⟩
      = ⟨⟨InputState.WidgetPressed, 1, ⟨1, 2, 3⟩⟩, 16,
          [WidgetCall.window_event_mouse_down_call 3]⟩ := by
  decide

/-- C27 (amended): on a hover sample over the pressed, non-disabled widget (counter within
`int16_t`), `input_state_widget_pressed` re-fires the mouse-down callback if
and only if the click-repeat counter is not zero, the widget's hold-down bit is set, and
the counter after this sample's increment is at least 16 and a multiple of 4; the first
re-fire is at counter 16, and there is none while the incremented counter is 15 or less. A
non-zero counter is incremented by one, a zero counter stays zero; the press of an enabled,
non-disabled widget seeds the counter with 1. -/
theorem click_repeat_fires_from_sixteen (K : UiConstants) (D : DropdownEnv)
    (screenCoords : ScreenCoordsXY) (w : rct_window) (widgetIndex : Nat)
    (g : WidgetPressGlobals)
    (hpressed : g.input.gPressedWidget = ⟨w.classification, w.number, (widgetIndex : Int)⟩)
    (hnd : widget_is_disabled w widgetIndex = false)
    (hticks : -32768 ≤ g._clickRepeatTicks ∧ g._clickRepeatTicks < 32767) :
    (∃ rest, WidgetCall.window_event_mouse_down_call widgetIndex ∉ rest
      ∧ (input_state_widget_pressed_released K D true screenCoords (some w) widgetIndex g).calls
        = g.calls
          ++ (if g._clickRepeatTicks ≠ 0
                ∧ w.hold_down_widgets &&& ((1 <<< widgetIndex) % 18446744073709551616) ≠ 0
                ∧ g._clickRepeatTicks + 1 ≥ 16 ∧ (g._clickRepeatTicks + 1) % 4 = 0
              then [WidgetCall.window_event_mouse_down_call widgetIndex] else [])
          ++ rest)
    ∧ (input_state_widget_pressed_released K D true screenCoords (some w) widgetIndex
          g)._clickRepeatTicks
        = (if g._clickRepeatTicks ≠ 0 then g._clickRepeatTicks + 1 else 0)
    ∧ (widget_is_enabled w widgetIndex = true →
        (input_widget_left_default K w widgetIndex g)._clickRepeatTicks = 1) := by
  have ht16 : toInt16 (g._clickRepeatTicks + 1) = g._clickRepeatTicks + 1 := by
    unfold toInt16
    omega
  have hdis : ¬ (w.disabled_widgets &&& ((1 <<< widgetIndex) % 18446744073709551616) ≠ 0) := by
    intro h
    simp [widget_is_disabled, h] at hnd
  have hmatch : ¬ (g.input.gPressedWidget.window_classification ≠ w.classification
      ∨ g.input.gPressedWidget.window_number ≠ w.number
      ∨ (widgetIndex : Int) ≠ g.input.gPressedWidget.widget_index) := by
    rw [hpressed]
    simp
  refine ⟨?_, ?_, ?_⟩
  · unfold input_state_widget_pressed_released
    simp only [not_true_eq_false, if_false, if_neg hmatch, if_neg hdis, ht16]
    by_cases h0 : g._clickRepeatTicks ≠ 0
    · by_cases hrep : g._clickRepeatTicks + 1 ≥ 16 ∧ (g._clickRepeatTicks + 1) % 4 = 0
      · by_cases hhold : w.hold_down_widgets
            &&& ((1 <<< widgetIndex) % 18446744073709551616) ≠ 0
        · simp only [if_pos h0, if_pos hrep, if_pos hhold,
            if_pos (show g._clickRepeatTicks ≠ 0
              ∧ w.hold_down_widgets &&& ((1 <<< widgetIndex) % 18446744073709551616) ≠ 0
              ∧ g._clickRepeatTicks + 1 ≥ 16 ∧ (g._clickRepeatTicks + 1) % 4 = 0
              from ⟨h0, hhold, hrep.1, hrep.2⟩)]
          split
          · split
            · exact ⟨[WidgetCall.set_gDropdownHighlightedIndex D.gDropdownDefaultIndex,
                WidgetCall.window_invalidate_by_class_WC_DROPDOWN], by simp, by simp⟩
            · exact ⟨[], by simp, by simp⟩
          · exact ⟨[WidgetCall.widget_invalidate_by_number
              g.input.gPressedWidget.window_classification
              g.input.gPressedWidget.window_number (widgetIndex : Int)], by simp, by simp⟩
        · simp only [if_pos h0, if_pos hrep, if_neg hhold,
            if_neg (show ¬ (g._clickRepeatTicks ≠ 0
              ∧ w.hold_down_widgets &&& ((1 <<< widgetIndex) % 18446744073709551616) ≠ 0
              ∧ g._clickRepeatTicks + 1 ≥ 16 ∧ (g._clickRepeatTicks + 1) % 4 = 0)
              from fun h => hhold h.2.1)]
          split
          · split
            · exact ⟨[WidgetCall.set_gDropdownHighlightedIndex D.gDropdownDefaultIndex,
                WidgetCall.window_invalidate_by_class_WC_DROPDOWN], by simp, by simp⟩
            · exact ⟨[], by simp, by simp⟩
          · exact ⟨[WidgetCall.widget_invalidate_by_number
              g.input.gPressedWidget.window_classification
              g.input.gPressedWidget.window_number (widgetIndex : Int)], by simp, by simp⟩
      · simp only [if_pos h0, if_neg hrep,
          if_neg (show ¬ (g._clickRepeatTicks ≠ 0
            ∧ w.hold_down_widgets &&& ((1 <<< widgetIndex) % 18446744073709551616) ≠ 0
            ∧ g._clickRepeatTicks + 1 ≥ 16 ∧ (g._clickRepeatTicks + 1) % 4 = 0)
            from fun h => hrep ⟨h.2.2.1, h.2.2.2⟩)]
        split
        · split
          · exact ⟨[WidgetCall.set_gDropdownHighlightedIndex D.gDropdownDefaultIndex,
              WidgetCall.window_invalidate_by_class_WC_DROPDOWN], by simp, by simp⟩
          · exact ⟨[], by simp, by simp⟩
        · exact ⟨[WidgetCall.widget_invalidate_by_number
            g.input.gPressedWidget.window_classification
            g.input.gPressedWidget.window_number (widgetIndex : Int)], by simp, by simp⟩
    · simp only [if_neg h0,
        if_neg (show ¬ (g._clickRepeatTicks ≠ 0
          ∧ w.hold_down_widgets &&& ((1 <<< widgetIndex) % 18446744073709551616) ≠ 0
          ∧ g._clickRepeatTicks + 1 ≥ 16 ∧ (g._clickRepeatTicks + 1) % 4 = 0)
          from fun h => h0 h.1)]
      split
      · split
        · exact ⟨[WidgetCall.set_gDropdownHighlightedIndex D.gDropdownDefaultIndex,
            WidgetCall.window_invalidate_by_class_WC_DROPDOWN], by simp, by simp⟩
        · exact ⟨[], by simp, by simp⟩
      · exact ⟨[WidgetCall.widget_invalidate_by_number
          g.input.gPressedWidget.window_classification
          g.input.gPressedWidget.window_number (widgetIndex : Int)], by simp, by simp⟩
  · unfold input_state_widget_pressed_released
    simp only [not_true_eq_false, if_false, if_neg hmatch, if_neg hdis, ht16]
    by_cases h0 : g._clickRepeatTicks ≠ 0
    · simp only [if_pos h0]
      split_ifs <;> rfl
    · have h00 : g._clickRepeatTicks = 0 := not_not.mp h0
      simp only [if_neg h0]
      split_ifs <;> simp [h00]
  · intro hen
    unfold input_widget_left_default
    rw [if_pos ⟨hen, by simp [hnd]⟩]

/-- Witness for C27: the counter at 19 goes to 20 and the callback is re-fired. -/
theorem click_repeat_fires_from_sixteen_witness :
    (input_state_widget_pressed_released UiConstants.sample DropdownEnv.sample true ⟨10, 10⟩
        (some { classification := 1, number := 2, windowPos := ⟨0, 0⟩,
                widgets := [], enabled_widgets := 8, disabled_widgets := 0,
                pressed_widgets := 0, hold_down_widgets := 8, scrolls := [] })
        3 ⟨⟨InputState.WidgetPressed, 1, ⟨1, 2, 3⟩⟩, 19, []⟩)._clickRepeatTicks
      = (if (19 : Int) ≠ 0 then 19 + 1 else 0) :=
  (click_repeat_fires_from_sixteen UiConstants.sample DropdownEnv.sample ⟨10, 10⟩
    { classification := 1, number := 2, windowPos := ⟨0, 0⟩,
      widgets := [], enabled_widgets := 8, disabled_widgets := 0,
      pressed_widgets := 0, hold_down_widgets := 8, scrolls := [] }
    3 ⟨⟨InputState.WidgetPressed, 1, ⟨1, 2, 3⟩⟩, 19, []⟩ rfl (by decide)
    (by decide)).2.1

/-- A hover sample that has left the pressed widget (widget 5 while widget 3 is pressed)
takes the `break`: the counter is reset, the widget-pressed flag cleared and the pressed
widget invalidated. -/
theorem input_state_widget_pressed_break_clears_flag :
    input_state_widget_pressed_released UiConstants.sample DropdownEnv.sample true ⟨10, 10⟩
        (some { classification := 1, number := 2, windowPos := ⟨0, 0⟩,
                widgets := [], enabled_widgets := 8, disabled_widgets := 0,
                pressed_widgets := 0, hold_down_widgets := 8, scrolls := [] })
        5 ⟨⟨InputState.WidgetPressed, 1, ⟨1, 2, 3⟩⟩, 15, []⟩
      = ⟨⟨InputState.WidgetPressed, 0, ⟨1, 2, 3⟩⟩, 0,
          [WidgetCall.widget_invalidate_by_number 1 2 3]⟩ := by
  decide

/-! ## Theorems: transposition of the scrollbar hit-test -/

theorem widgetAt_transpose (w : rct_window) (i : Nat) :
    w.transpose.widgetAt i = (w.widgetAt i).transpose := by
  unfold rct_window.widgetAt rct_window.transpose
  simp only [List.getD_eq_getElem?_getD, List.getElem?_map]
  cases w.widgets[i]? <;> rfl

theorem scrollAt_transpose (w : rct_window) (i : Nat) :
    w.transpose.scrollAt i = (w.scrollAt i).transpose := by
  unfold rct_window.scrollAt rct_window.transpose
  simp only [List.getD_eq_getElem?_getD, List.getElem?_map]
  cases w.scrolls[i]? <;> rfl

theorem widgetScrollId_transpose (w : rct_window) (i : Nat) :
    widgetScrollId w.transpose i = widgetScrollId w i := by
  unfold widgetScrollId rct_window.transpose
  simp only [← List.map_take, List.countP_map]
  congr 1

/-- C28 (the code at a failing input): a 100 by 100 scroll widget at the origin with only
the vertical scrollbar visible, `SCROLLBAR_WIDTH` 10. At (95, 100) the vertical branch returns
none where the transposed horizontal classification gives the far button; at (95, 90) it
returns the bottom button where the transposed classification gives the thumb. -/
theorem vertical_scrollbar_not_transpose_of_horizontal :
    (widget_scroll_get_part UiConstants.sample
        { classification := 1, number := 2, windowPos := ⟨0, 0⟩,
          widgets := [⟨WidgetType.WWT_SCROLL, 0, 100, 0, 100⟩],
          enabled_widgets := 0, disabled_widgets := 0, pressed_widgets := 0,
          hold_down_widgets := 0, scrolls := [⟨16, 0, 0, 0, 0, 0, 300, 20, 95⟩] }
        0 ⟨95, 100⟩ ⟨0, 0⟩).output_scroll_area = ScrollPart.SCROLL_PART_NONE
    ∧ transposedScrollPart UiConstants.sample
        { classification := 1, number := 2, windowPos := ⟨0, 0⟩,
          widgets := [⟨WidgetType.WWT_SCROLL, 0, 100, 0, 100⟩],
          enabled_widgets := 0, disabled_widgets := 0, pressed_widgets := 0,
          hold_down_widgets := 0, scrolls := [⟨16, 0, 0, 0, 0, 0, 300, 20, 95⟩] }
        0 ⟨95, 100⟩ = ScrollPart.SCROLL_PART_VSCROLLBAR_BOTTOM
    ∧ (widget_scroll_get_part UiConstants.sample
        { classification := 1, number := 2, windowPos := ⟨0, 0⟩,
          widgets := [⟨WidgetType.WWT_SCROLL, 0, 100, 0, 100⟩],
          enabled_widgets := 0, disabled_widgets := 0, pressed_widgets := 0,
          hold_down_widgets := 0, scrolls := [⟨16, 0, 0, 0, 0, 0, 300, 20, 95⟩] }
        0 ⟨95, 90⟩ ⟨0, 0⟩).output_scroll_area = ScrollPart.SCROLL_PART_VSCROLLBAR_BOTTOM
    ∧ transposedScrollPart UiConstants.sample
        { classification := 1, number := 2, windowPos := ⟨0, 0⟩,
          widgets := [⟨WidgetType.WWT_SCROLL, 0, 100, 0, 100⟩],
          enabled_widgets := 0, disabled_widgets := 0, pressed_widgets := 0,
          hold_down_widgets := 0, scrolls := [⟨16, 0, 0, 0, 0, 0, 300, 20, 95⟩] }
        0 ⟨95, 90⟩ = ScrollPart.SCROLL_PART_VSCROLLBAR_THUMB := by
  decide

/-- The two scrollbar branches compared: for every window, scroll region and coordinate
(x, y) that `widget_scroll_get_part` classifies in its vertical branch, with `SCROLLBAR_WIDTH` not
negative: on the top button and before the first pixel of the bottom button the part is the
transpose of the part that the horizontal branch chooses for the transposed input at `y`;
from the first pixel of the bottom button on (the bottom button and the zone where none is
returned) it is the transpose of the horizontal part at `y + 1`. The bottom button and the
none zone of the vertical scrollbar begin one pixel earlier than the transposed right
button and none zone. -/
theorem vertical_scrollbar_transpose_shifted (K : UiConstants) (w : rct_window)
    (widgetIndex : Nat) (x y : Int) (retScreenCoords : ScreenCoordsXY)
    (hSW : 0 ≤ K.SCROLLBAR_WIDTH)
    (hnoth : ¬ ((w.scrollAt (widgetScrollId w widgetIndex)).flags &&& K.HSCROLLBAR_VISIBLE ≠ 0
      ∧ y ≥ w.windowPos.y + (w.widgetAt widgetIndex).bottom - (K.SCROLLBAR_WIDTH + 1)))
    (hv : (w.scrollAt (widgetScrollId w widgetIndex)).flags &&& K.VSCROLLBAR_VISIBLE ≠ 0
      ∧ x ≥ w.windowPos.x + (w.widgetAt widgetIndex).right - (K.SCROLLBAR_WIDTH + 1)) :
    ((y ≤ (w.widgetAt widgetIndex).top + w.windowPos.y + K.SCROLLBAR_WIDTH
        ∨ y < (w.widgetAt widgetIndex).bottom + w.windowPos.y
            - (if (w.scrollAt (widgetScrollId w widgetIndex)).flags &&& K.HSCROLLBAR_VISIBLE ≠ 0
                then K.SCROLLBAR_WIDTH + 1 else 0) - K.SCROLLBAR_WIDTH) →
      (widget_scroll_get_part K w widgetIndex ⟨x, y⟩ retScreenCoords).output_scroll_area
        = transposedScrollPart K w widgetIndex ⟨x, y⟩)
    ∧ (y > (w.widgetAt widgetIndex).top + w.windowPos.y + K.SCROLLBAR_WIDTH →
      y ≥ (w.widgetAt widgetIndex).bottom + w.windowPos.y
            - (if (w.scrollAt (widgetScrollId w widgetIndex)).flags &&& K.HSCROLLBAR_VISIBLE ≠ 0
                then K.SCROLLBAR_WIDTH + 1 else 0) - K.SCROLLBAR_WIDTH →
      (widget_scroll_get_part K w widgetIndex ⟨x, y⟩ retScreenCoords).output_scroll_area
        = transposedScrollPart K w widgetIndex ⟨x, y + 1⟩) := by
  have e1 : K.transpose.HSCROLLBAR_VISIBLE = K.VSCROLLBAR_VISIBLE := rfl
  have e2 : K.transpose.VSCROLLBAR_VISIBLE = K.HSCROLLBAR_VISIBLE := rfl
  have e3 : K.transpose.SCROLLBAR_WIDTH = K.SCROLLBAR_WIDTH := rfl
  constructor
  · intro hy
    unfold transposedScrollPart widget_scroll_get_part
    simp only [widgetAt_transpose, scrollAt_transpose, widgetScrollId_transpose, e1, e2, e3]
    simp only [rct_widget.transpose, rct_scroll.transpose, rct_window.transpose]
    rw [if_neg hnoth, if_pos hv, if_pos hv]
    simp only
    by_cases hH : (w.scrollAt (widgetScrollId w widgetIndex)).flags &&& K.HSCROLLBAR_VISIBLE ≠ 0
    · simp only [hH, not_true_eq_false, if_true, if_false, ne_eq, not_false_eq_true] at hy ⊢
      split_ifs <;> first | rfl | (exfalso; omega)
    · simp only [hH, not_true_eq_false, if_true, if_false, ne_eq, not_false_eq_true] at hy ⊢
      split_ifs <;> first | rfl | (exfalso; omega)
  · intro hy1 hy2
    unfold transposedScrollPart widget_scroll_get_part
    simp only [widgetAt_transpose, scrollAt_transpose, widgetScrollId_transpose, e1, e2, e3]
    simp only [rct_widget.transpose, rct_scroll.transpose, rct_window.transpose]
    rw [if_neg hnoth, if_pos hv, if_pos hv]
    simp only
    by_cases hH : (w.scrollAt (widgetScrollId w widgetIndex)).flags &&& K.HSCROLLBAR_VISIBLE ≠ 0
    · simp only [hH, not_true_eq_false, if_true, if_false, ne_eq, not_false_eq_true,
        true_and] at hy2 hnoth ⊢
      rw [if_neg (by omega), if_neg (by omega), if_pos (by omega), if_neg (by omega),
        if_neg (by omega), if_pos (by omega)]
      rfl
    · simp only [hH, not_true_eq_false, if_true, if_false, ne_eq, not_false_eq_true]
        at hy2 ⊢
      by_cases hnone : y ≥ (w.widgetAt widgetIndex).bottom + w.windowPos.y
      · rw [if_neg (by omega), if_pos (by omega), if_neg (by omega), if_pos (by omega)]
        rfl
      · rw [if_neg (by omega), if_neg (by omega), if_pos (by omega), if_neg (by omega),
          if_neg (by omega), if_pos (by omega)]
        rfl

/-- An instance of `vertical_scrollbar_transpose_shifted`: the point (95, 50) of the window
above lies on the cached thumb,
before the bottom button; the vertical part is the transposed horizontal part. -/
theorem vertical_scrollbar_transpose_shifted_witness :
    (widget_scroll_get_part UiConstants.sample
        { classification := 1, number := 2, windowPos := ⟨0, 0⟩,
          widgets := [⟨WidgetType.WWT_SCROLL, 0, 100, 0, 100⟩],
          enabled_widgets := 0, disabled_widgets := 0, pressed_widgets := 0,
          hold_down_widgets := 0, scrolls := [⟨16, 0, 0, 0, 0, 0, 300, 20, 95⟩] }
        0 ⟨95, 50⟩ ⟨0, 0⟩).output_scroll_area
      = transposedScrollPart UiConstants.sample
        { classification := 1, number := 2, windowPos := ⟨0, 0⟩,
          widgets := [⟨WidgetType.WWT_SCROLL, 0, 100, 0, 100⟩],
          enabled_widgets := 0, disabled_widgets := 0, pressed_widgets := 0,
          hold_down_widgets := 0, scrolls := [⟨16, 0, 0, 0, 0, 0, 300, 20, 95⟩] }
        0 ⟨95, 50⟩ :=
  (vertical_scrollbar_transpose_shifted UiConstants.sample
    { classification := 1, number := 2, windowPos := ⟨0, 0⟩,
      widgets := [⟨WidgetType.WWT_SCROLL, 0, 100, 0, 100⟩],
      enabled_widgets := 0, disabled_widgets := 0, pressed_widgets := 0,
      hold_down_widgets := 0, scrolls := [⟨16, 0, 0, 0, 0, 0, 300, 20, 95⟩] }
    0 95 50 ⟨0, 0⟩ (by decide) (by decide) (by decide)).1 (by decide)

/-! ## Theorems: footpath item loader -/

/-- C21 (failing input): a legacy stream whose header decodes to price 1, draw type 0 and
cursor 0, read with the packed layout of the union. `ReadLegacy` logs `InvalidProperty`,
because the validation reads `large_scenery.price`, which lies on the draw-type and cursor
bytes; and the stream with price 0 and draw type 1 is read without a diagnostic. -/
theorem ReadLegacy_validates_large_scenery_price :
    (FootpathItemObject.ReadLegacy LegacyReadEnv.sample
        ⟨[0, 0, 0, 0, 0, 0, 8, 0, 0, 0, 1, 0, 0, 0,
          0, 0, 0, 0, 0, 0, 0, 0, 0, 0, 0, 0, 0, 0, 0, 0], 0⟩).map
        (fun o => (o.path_bit.price, o.errors))
      = some (1, [ObjectError.InvalidProperty])
    ∧ (FootpathItemObject.ReadLegacy LegacyReadEnv.sample
        ⟨[0, 0, 0, 0, 0, 0, 8, 0, 1, 0, 0, 0, 0, 0,
          0, 0, 0, 0, 0, 0, 0, 0, 0, 0, 0, 0, 0, 0, 0, 0], 0⟩).map
        (fun o => (o.path_bit.price, o.errors))
      = some (0, []) := by
  decide

theorem ReadLegacy_eq_tables (E : LegacyReadEnv) (stream : IStream)
    (hpos : stream.position = 0) (hlen : 14 ≤ stream.data.length) :
    FootpathItemObject.ReadLegacy E stream
      = FootpathItemObject.ReadLegacy.tables E
          ⟨stream.data.getD 6 0 % 256 + 256 * (stream.data.getD 7 0 % 256),
           stream.data.getD 8 0 % 256,
           stream.data.getD 9 0 % 256,
           toInt16 ((stream.data.getD 10 0 % 256 + 256 * (stream.data.getD 11 0 % 256) : Nat)),
           E.OBJECT_ENTRY_INDEX_NULL⟩
          ⟨stream.data, 14⟩ := by
  rcases stream with ⟨data, position⟩
  simp only at hpos hlen
  subst hpos
  unfold FootpathItemObject.ReadLegacy
  simp only [IStream.Seek, IStream.ReadValue_uint16, IStream.ReadValue_uint8,
    IStream.ReadValue_int16, Nat.zero_add]
  rw [if_pos (by omega)]
  simp only [Nat.reduceAdd]
  rw [if_pos (by omega)]
  simp only [Nat.reduceAdd]
  rw [if_pos (by omega)]
  simp only [Nat.reduceAdd]
  rw [if_pos (by omega)]

theorem ReadLegacy_tables_some (E : LegacyReadEnv) (path_bit : rct_path_bit_scenery_entry)
    (stream : IStream) (o : FootpathItemObject)
    (h : FootpathItemObject.ReadLegacy.tables E path_bit stream = some o) :
    o.path_bit = path_bit
    ∧ ∃ stream1 errors1 sgEntry stream2 errors2,
        E.StringTableRead stream = some (stream1, errors1)
        ∧ stream1.ReadValue_rct_object_entry = some (sgEntry, stream2)
        ∧ E.ImageTableRead stream2 = some (o.stream, errors2)
        ∧ errors1 ++ errors2 <+: o.errors := by
  unfold FootpathItemObject.ReadLegacy.tables at h
  cases h1 : E.StringTableRead stream with
  | none => rw [h1] at h; simp at h
  | some r1 =>
    obtain ⟨stream1, errors1⟩ := r1
    rw [h1] at h
    simp only at h
    cases h2 : stream1.ReadValue_rct_object_entry with
    | none => rw [h2] at h; simp at h
    | some r2 =>
      obtain ⟨sgEntry, stream2⟩ := r2
      rw [h2] at h
      simp only at h
      cases h3 : E.ImageTableRead stream2 with
      | none => rw [h3] at h; simp at h
      | some r3 =>
        obtain ⟨stream3, errors2⟩ := r3
        rw [h3] at h
        simp only [Option.some.injEq] at h
        subst h
        exact ⟨rfl, stream1, errors1, sgEntry, stream2, errors2, rfl, h2, h3,
          List.prefix_append _ _⟩

/-- C22: for every legacy stream that stands at offset 0 and holds at least 14 bytes, and
every behaviour of the table readers: the object that `ReadLegacy` returns has the flags of
bytes 6 and 7 (low byte first), the draw type of byte 8, the cursor of byte 9, the price of
bytes 10 and 11 as a signed 16-bit value and the sentinel as scenery tab, so bytes 0 to 5
and 12 to 13 do not enter the header: two streams that agree on bytes 6 to 11 give the same
header. The name string table is read from the stream at offset 14: when that read throws,
`ReadLegacy` has no result; when it, the read of the 16-byte group entry behind it and the
image table read succeed, `ReadLegacy` returns the object, whose stream is the one the
image table read left and whose error log begins with the errors of the two table reads. -/
theorem ReadLegacy_header_layout (E : LegacyReadEnv) (stream : IStream)
    (hpos : stream.position = 0) (hlen : 14 ≤ stream.data.length) :
    (∀ o, FootpathItemObject.ReadLegacy E stream = some o →
      o.path_bit.flags = stream.data.getD 6 0 % 256 + 256 * (stream.data.getD 7 0 % 256)
      ∧ o.path_bit.draw_type = stream.data.getD 8 0 % 256
      ∧ o.path_bit.tool_id = stream.data.getD 9 0 % 256
      ∧ o.path_bit.price
          = toInt16 ((stream.data.getD 10 0 % 256 + 256 * (stream.data.getD 11 0 % 256) : Nat))
      ∧ o.path_bit.scenery_tab_id = E.OBJECT_ENTRY_INDEX_NULL)
    ∧ (∀ (other : IStream) (o o' : FootpathItemObject),
        other.position = 0 → 14 ≤ other.data.length →
        (∀ k, 6 ≤ k → k < 12 → other.data.getD k 0 = stream.data.getD k 0) →
        FootpathItemObject.ReadLegacy E stream = some o →
        FootpathItemObject.ReadLegacy E other = some o' →
        o'.path_bit = o.path_bit)
    ∧ (E.StringTableRead ⟨stream.data, 14⟩ = none →
        FootpathItemObject.ReadLegacy E stream = none)
    ∧ (∀ stream1 errors1 sgEntry stream2 stream3 errors2,
        E.StringTableRead ⟨stream.data, 14⟩ = some (stream1, errors1) →
        stream1.ReadValue_rct_object_entry = some (sgEntry, stream2) →
        E.ImageTableRead stream2 = some (stream3, errors2) →
        ∃ o, FootpathItemObject.ReadLegacy E stream = some o
          ∧ o.stream = stream3 ∧ errors1 ++ errors2 <+: o.errors)
    ∧ (∀ o, FootpathItemObject.ReadLegacy E stream = some o →
        ∃ stream1 errors1 sgEntry stream2 errors2,
          E.StringTableRead ⟨stream.data, 14⟩ = some (stream1, errors1)
          ∧ stream1.ReadValue_rct_object_entry = some (sgEntry, stream2)
          ∧ E.ImageTableRead stream2 = some (o.stream, errors2)) := by
  have heq := ReadLegacy_eq_tables E stream hpos hlen
  refine ⟨?_, ?_, ?_, ?_, ?_⟩
  · intro o ho
    rw [heq] at ho
    have := (ReadLegacy_tables_some E _ _ o ho).1
    rw [this]
    exact ⟨rfl, rfl, rfl, rfl, rfl⟩
  · intro other o o' hpos' hlen' hsame ho ho'
    rw [heq] at ho
    rw [ReadLegacy_eq_tables E other hpos' hlen'] at ho'
    rw [(ReadLegacy_tables_some E _ _ o ho).1, (ReadLegacy_tables_some E _ _ o' ho').1]
    rw [hsame 6 (by omega) (by omega), hsame 7 (by omega) (by omega),
      hsame 8 (by omega) (by omega), hsame 9 (by omega) (by omega),
      hsame 10 (by omega) (by omega), hsame 11 (by omega) (by omega)]
  · intro hnone
    rw [heq]
    unfold FootpathItemObject.ReadLegacy.tables
    rw [hnone]
  · intro stream1 errors1 sgEntry stream2 stream3 errors2 h1 h2 h3
    rw [heq]
    unfold FootpathItemObject.ReadLegacy.tables
    simp only [h1, h2, h3]
    exact ⟨_, rfl, rfl, List.prefix_append _ _⟩
  · intro o ho
    rw [heq] at ho
    obtain ⟨_, stream1, errors1, sgEntry, stream2, errors2, h1, h2, h3, _⟩ :=
      ReadLegacy_tables_some E _ _ o ho
    exact ⟨stream1, errors1, sgEntry, stream2, errors2, h1, h2, h3⟩

/-- Witness for C22: a header with flags 0x0108, draw type 2, cursor 3 and price -2,
followed by the sixteen bytes of the group entry; the sample table readers read nothing. -/
theorem ReadLegacy_header_layout_witness :
    ∃ o, FootpathItemObject.ReadLegacy LegacyReadEnv.sample
        ⟨[9, 9, 9, 9, 9, 9, 8, 1, 2, 3, 254, 255, 9, 9,
          0, 0, 0, 0, 0, 0, 0, 0, 0, 0, 0, 0, 0, 0, 0, 0], 0⟩ = some o
      ∧ o.path_bit = ⟨264, 2, 3, -2, 65535⟩
      ∧ o.stream.position = 30 := by
  obtain ⟨hheader, _, _, hreturns, _⟩ := ReadLegacy_header_layout LegacyReadEnv.sample
    ⟨[9, 9, 9, 9, 9, 9, 8, 1, 2, 3, 254, 255, 9, 9,
      0, 0, 0, 0, 0, 0, 0, 0, 0, 0, 0, 0, 0, 0, 0, 0], 0⟩ rfl (by decide)
  obtain ⟨o, ho, hstream, _⟩ := hreturns _ _ _ _ _ _ rfl rfl rfl
  obtain ⟨h1, h2, h3, h4, h5⟩ := hheader o ho
  refine ⟨o, ho, ?_, ?_⟩
  · rcases o with ⟨⟨f, d, t, p, s⟩, g, st, e⟩
    simp only at h1 h2 h3 h4 h5
    subst h1 h2 h3 h4 h5
    rfl
  · rw [hstream]

/-! ## Theorems: mouse input of a frame -/

theorem addEntry_spec (i : Nat) (ride_type : List Nat) :
    ∀ (map : List (List Nat)),
      (ResetTypeToRideEntryIndexMap.addEntry i ride_type map).length = map.length
      ∧ ∀ t, t < map.length →
        (ResetTypeToRideEntryIndexMap.addEntry i ride_type map).getD t []
          = map.getD t [] ++ List.replicate (ride_type.count t) (i % 65536) := by
  induction ride_type with
  | nil =>
    intro map
    simp [ResetTypeToRideEntryIndexMap.addEntry]
  | cons x rest ih =>
    intro map
    have hstep : ResetTypeToRideEntryIndexMap.addEntry i (x :: rest) map
        = ResetTypeToRideEntryIndexMap.addEntry i rest
            (if x < map.length then map.set x (map.getD x [] ++ [i % 65536]) else map) := by
      simp [ResetTypeToRideEntryIndexMap.addEntry]
    rw [hstep]
    by_cases hx : x < map.length
    · rw [if_pos hx]
      obtain ⟨hl, hg⟩ := ih (map.set x (map.getD x [] ++ [i % 65536]))
      rw [List.length_set] at hl hg
      refine ⟨hl, ?_⟩
      intro t ht
      rw [hg t ht]
      by_cases hxt : x = t
      · subst hxt
        rw [List.count_cons_self, List.replicate_succ]
        simp [List.getD_eq_getElem?_getD, hx]
      · rw [List.count_cons_of_ne (Ne.symm hxt)]
        simp [List.getD_eq_getElem?_getD, List.getElem?_set_ne hxt]
    · rw [if_neg hx]
      obtain ⟨hl, hg⟩ := ih map
      refine ⟨hl, ?_⟩
      intro t ht
      rw [hg t ht]
      have hxt : x ≠ t := by omega
      rw [List.count_cons_of_ne (Ne.symm hxt)]

theorem rideMap_fold_spec (L : ObjectLimits) (R : RideConstants) (m : ObjectManager)
    (len : Nat) :
    ∀ (n : Nat),
      ((List.range n).foldl
        (fun map i =>
          match GetLoadedObject.ofType L m R.OBJECT_TYPE_RIDE i with
          | none => map
          | some rideObject =>
            match R.ride_type rideObject with
            | none => map
            | some ride_type => ResetTypeToRideEntryIndexMap.addEntry i ride_type map)
        (List.replicate len ([] : List Nat))).length = len
      ∧ ∀ t, t < len →
        ((List.range n).foldl
          (fun map i =>
            match GetLoadedObject.ofType L m R.OBJECT_TYPE_RIDE i with
            | none => map
            | some rideObject =>
              match R.ride_type rideObject with
              | none => map
              | some ride_type => ResetTypeToRideEntryIndexMap.addEntry i ride_type map)
          (List.replicate len ([] : List Nat))).getD t []
          = ((List.range n).map (fun i =>
              List.replicate ((rideTypesOfSlot L R m i).count t) (i % 65536))).flatten := by
  intro n
  induction n with
  | zero =>
    refine ⟨by simp, ?_⟩
    intro t ht
    simp [List.getD_eq_getElem?_getD, ht]
  | succ n ih =>
    obtain ⟨hl, hg⟩ := ih
    rw [List.range_succ, List.foldl_append]
    simp only [List.foldl_cons, List.foldl_nil, List.map_append, List.map_cons, List.map_nil,
      List.flatten_append, List.flatten_cons, List.flatten_nil, List.append_nil]
    cases hobj : GetLoadedObject.ofType L m R.OBJECT_TYPE_RIDE n with
    | none =>
      have hslot : rideTypesOfSlot L R m n = [] := by
        unfold rideTypesOfSlot
        rw [hobj]
      simp only
      refine ⟨hl, ?_⟩
      intro t ht
      rw [hg t ht, hslot]
      simp
    | some rideObject =>
      simp only
      cases htypes : R.ride_type rideObject with
      | none =>
        have hslot : rideTypesOfSlot L R m n = [] := by
          unfold rideTypesOfSlot
          rw [hobj]
          simp only [htypes]
          rfl
        simp only
        refine ⟨hl, ?_⟩
        intro t ht
        rw [hg t ht, hslot]
        simp
      | some ride_type =>
        have hslot : rideTypesOfSlot L R m n = ride_type := by
          unfold rideTypesOfSlot
          rw [hobj]
          simp only [htypes]
          rfl
        simp only
        obtain ⟨hal, hag⟩ := addEntry_spec n ride_type
          ((List.range n).foldl
            (fun map i =>
              match GetLoadedObject.ofType L m R.OBJECT_TYPE_RIDE i with
              | none => map
              | some rideObject =>
                match R.ride_type rideObject with
                | none => map
                | some ride_type => ResetTypeToRideEntryIndexMap.addEntry i ride_type map)
            (List.replicate len ([] : List Nat)))
        rw [hl] at hal hag
        refine ⟨hal, ?_⟩
        intro t ht
        rw [hag t ht, hg t ht, hslot]

theorem pairwise_le_replicate (c a : Nat) : List.Pairwise (· ≤ ·) (List.replicate c a) := by
  induction c with
  | zero => simp
  | succ c ih =>
    rw [List.replicate_succ, List.pairwise_cons]
    refine ⟨?_, ih⟩
    intro b hb
    rw [List.eq_of_mem_replicate hb]

theorem rideBucket_sorted (c : Nat → Nat) :
    ∀ n, n ≤ 65536 →
      List.Pairwise (· ≤ ·)
        ((List.range n).map (fun i => List.replicate (c i) (i % 65536))).flatten
      ∧ ((∀ i, c i ≤ 1) → List.Pairwise (· < ·)
        ((List.range n).map (fun i => List.replicate (c i) (i % 65536))).flatten)
      ∧ ∀ x, x ∈ ((List.range n).map (fun i => List.replicate (c i) (i % 65536))).flatten
        ↔ (x < n ∧ 0 < c x) := by
  intro n
  induction n with
  | zero =>
    intro _
    simp
  | succ n ih =>
    intro hn
    obtain ⟨h1, h2, h3⟩ := ih (by omega)
    have hmod : n % 65536 = n := Nat.mod_eq_of_lt (by omega)
    rw [List.range_succ, List.map_append, List.flatten_append]
    simp only [List.map_cons, List.map_nil, List.flatten_cons, List.flatten_nil,
      List.append_nil, hmod]
    refine ⟨?_, ?_, ?_⟩
    · rw [List.pairwise_append]
      refine ⟨h1, pairwise_le_replicate _ _, ?_⟩
      intro a ha b hb
      rw [List.eq_of_mem_replicate hb]
      have := (h3 a).1 ha
      omega
    · intro hc
      rw [List.pairwise_append]
      refine ⟨h2 hc, ?_, ?_⟩
      · have hcn := hc n
        have : c n = 0 ∨ c n = 1 := by omega
        rcases this with h | h <;> rw [h] <;> simp
      · intro a ha b hb
        rw [List.eq_of_mem_replicate hb]
        exact ((h3 a).1 ha).1
    · intro x
      rw [List.mem_append, h3 x, List.mem_replicate]
      constructor
      · rintro (⟨hx, hc⟩ | ⟨hc, hx⟩)
        · exact ⟨by omega, hc⟩
        · subst hx
          exact ⟨by omega, by omega⟩
      · rintro ⟨hx, hc⟩
        by_cases hxn : x = n
        · subst hxn
          exact Or.inr ⟨by omega, rfl⟩
        · exact Or.inl ⟨by omega, hc⟩

/-- C23: the old index has one bucket per ride type and the ride capacity is at most 65536.
After `ResetTypeToRideEntryIndexMap`, for every ride type `t < RIDE_TYPE_COUNT` the list
`GetAllRideEntries(t)` is in ascending order (strictly, when no ride object names `t` twice)
and contains `i` exactly when ride slot `i` holds a loaded object whose legacy `ride_type`
list contains `t`, whatever the old index held; for every `t ≥ RIDE_TYPE_COUNT` the list is
empty. -/
theorem ride_type_index_rebuilt (L : ObjectLimits) (R : RideConstants) (m : ObjectManager)
    (old : List (List Nat))
    (hold : old.length = R.RIDE_TYPE_COUNT)
    (hcap : toSizeT (L.object_entry_group_counts.getD R.OBJECT_TYPE_RIDE 0) ≤ 65536) :
    (∀ t, t < R.RIDE_TYPE_COUNT →
      List.Pairwise (· ≤ ·) (GetAllRideEntries R (ResetTypeToRideEntryIndexMap L R m old) t)
      ∧ ((∀ i, (rideTypesOfSlot L R m i).count t ≤ 1) →
        List.Pairwise (· < ·) (GetAllRideEntries R (ResetTypeToRideEntryIndexMap L R m old) t))
      ∧ ∀ i, i ∈ GetAllRideEntries R (ResetTypeToRideEntryIndexMap L R m old) t
        ↔ ∃ rideObject ride_type,
            GetLoadedObject.ofType L m R.OBJECT_TYPE_RIDE i = some rideObject
            ∧ R.ride_type rideObject = some ride_type ∧ t ∈ ride_type)
    ∧ (∀ t, R.RIDE_TYPE_COUNT ≤ t →
      GetAllRideEntries R (ResetTypeToRideEntryIndexMap L R m old) t = []) := by
  refine ⟨?_, ?_⟩
  · intro t ht
    have hcleared : old.map (fun _ => ([] : List Nat))
        = List.replicate R.RIDE_TYPE_COUNT ([] : List Nat) := by
      rw [← hold]
      clear hold
      induction old with
      | nil => rfl
      | cons a rest ih => simp [List.replicate_succ, ih]
    have hspec := (rideMap_fold_spec L R m R.RIDE_TYPE_COUNT
      (toSizeT (L.object_entry_group_counts.getD R.OBJECT_TYPE_RIDE 0))).2 t ht
    have hget : GetAllRideEntries R (ResetTypeToRideEntryIndexMap L R m old) t
        = ((List.range (toSizeT (L.object_entry_group_counts.getD R.OBJECT_TYPE_RIDE 0))).map
            (fun i => List.replicate ((rideTypesOfSlot L R m i).count t) (i % 65536))).flatten := by
      unfold GetAllRideEntries ResetTypeToRideEntryIndexMap
      rw [if_neg (by omega)]
      simp only [hcleared]
      exact hspec
    rw [hget]
    obtain ⟨h1, h2, h3⟩ := rideBucket_sorted (fun i => (rideTypesOfSlot L R m i).count t)
      (toSizeT (L.object_entry_group_counts.getD R.OBJECT_TYPE_RIDE 0)) hcap
    refine ⟨h1, h2, ?_⟩
    intro i
    rw [h3 i]
    rw [List.count_pos_iff]
    constructor
    · rintro ⟨_, hmem⟩
      unfold rideTypesOfSlot at hmem
      cases hobj : GetLoadedObject.ofType L m R.OBJECT_TYPE_RIDE i with
      | none => rw [hobj] at hmem; simp at hmem
      | some rideObject =>
        rw [hobj] at hmem
        simp only at hmem
        cases htypes : R.ride_type rideObject with
        | none => rw [htypes] at hmem; simp at hmem
        | some ride_type =>
          rw [htypes] at hmem
          exact ⟨rideObject, ride_type, rfl, htypes, by simpa using hmem⟩
    · rintro ⟨rideObject, ride_type, hobj, htypes, hmem⟩
      refine ⟨?_, ?_⟩
      · by_contra hge
        unfold GetLoadedObject.ofType at hobj
        rw [if_pos (by omega)] at hobj
        simp at hobj
      · unfold rideTypesOfSlot
        rw [hobj]
        simp only [htypes]
        simpa using hmem
  · intro t ht
    unfold GetAllRideEntries
    rw [if_pos ht]

/-- Witness for C23 on the sample slot array, whose old index holds stale entries: ride
type 2 is listed for slots 0 and 2, ride type 1 for slot 0, ride type 3 for slot 2. -/
theorem ride_type_index_rebuilt_witness :
    ([[7], [8], [], [9]] : List (List Nat)).length = RideConstants.sample.RIDE_TYPE_COUNT
    ∧ toSizeT (sampleRideLimits.object_entry_group_counts.getD
        RideConstants.sample.OBJECT_TYPE_RIDE 0) ≤ 65536
    ∧ (List.range 5).map (GetAllRideEntries RideConstants.sample
        (ResetTypeToRideEntryIndexMap sampleRideLimits RideConstants.sample sampleRideManager
          [[7], [8], [], [9]])) = [[], [0], [0, 2], [2], []]
    ∧ ((∀ t, t < RideConstants.sample.RIDE_TYPE_COUNT →
        List.Pairwise (· ≤ ·) (GetAllRideEntries RideConstants.sample
          (ResetTypeToRideEntryIndexMap sampleRideLimits RideConstants.sample sampleRideManager
            [[7], [8], [], [9]]) t)
        ∧ ((∀ i, (rideTypesOfSlot sampleRideLimits RideConstants.sample sampleRideManager
              i).count t ≤ 1) →
          List.Pairwise (· < ·) (GetAllRideEntries RideConstants.sample
            (ResetTypeToRideEntryIndexMap sampleRideLimits RideConstants.sample
              sampleRideManager [[7], [8], [], [9]]) t))
        ∧ ∀ i, i ∈ GetAllRideEntries RideConstants.sample
            (ResetTypeToRideEntryIndexMap sampleRideLimits RideConstants.sample
              sampleRideManager [[7], [8], [], [9]]) t
          ↔ ∃ rideObject ride_type,
              GetLoadedObject.ofType sampleRideLimits sampleRideManager
                RideConstants.sample.OBJECT_TYPE_RIDE i = some rideObject
              ∧ RideConstants.sample.ride_type rideObject = some ride_type ∧ t ∈ ride_type)
      ∧ (∀ t, RideConstants.sample.RIDE_TYPE_COUNT ≤ t →
        GetAllRideEntries RideConstants.sample
          (ResetTypeToRideEntryIndexMap sampleRideLimits RideConstants.sample sampleRideManager
            [[7], [8], [], [9]]) t = [])) :=
  ⟨by decide, by decide, by decide,
    ride_type_index_rebuilt sampleRideLimits RideConstants.sample sampleRideManager
      [[7], [8], [], [9]] (by decide) (by decide)⟩

/-! ## Theorems: receiving list of a drop -/

theorem get_item_scan_lt (rowHeight : Int) :
    ∀ (l : List ResearchItem) (y : Int) (i0 i : Nat),
      get_item_from_scroll_y_include_seps.scan rowHeight l y i0 = some i →
      i0 ≤ i ∧ i < i0 + l.length := by
  intro l
  induction l with
  | nil =>
    intro y i0 i h
    simp [get_item_from_scroll_y_include_seps.scan] at h
  | cons a rest ih =>
    intro y i0 i h
    rw [get_item_from_scroll_y_include_seps.scan] at h
    by_cases hy : y - rowHeight < 0
    · rw [if_pos hy] at h
      simp only [Option.some.injEq] at h
      subst h
      simp
    · rw [if_neg hy] at h
      have := ih _ _ _ h
      simp only [List.length_cons]
      omega

theorem get_research_item_at_some (E : InventionsConstants) (K : UiConstants)
    (win : rct_window) (L : ResearchLists) (c : ScreenCoordsXY) (p : ResearchItemPtr)
    (h : (get_research_item_at E K (some win) L c).1 = some p) :
    (∃ it, L.deref p = some it) ∧ win.windowPos.y + win.height > c.y := by
  unfold get_research_item_at at h
  simp only at h
  by_cases hin : win.windowPos.x ≤ c.x ∧ win.windowPos.y < c.y
      ∧ win.windowPos.x + win.width > c.x ∧ win.windowPos.y + win.height > c.y
  · rw [if_pos hin] at h
    refine ⟨?_, hin.2.2.2⟩
    by_cases hw : E.window_find_widget_from_point win c = WIDX_PRE_RESEARCHED_SCROLL
        ∨ E.window_find_widget_from_point win c = WIDX_RESEARCH_ORDER_SCROLL
    · rw [if_pos hw] at h
      by_cases hv : (widget_scroll_get_part K win (E.window_find_widget_from_point win c).toNat
          c ⟨0, 0⟩).output_scroll_area = ScrollPart.SCROLL_PART_VIEW
      · rw [if_pos hv] at h
        simp only [window_editor_inventions_list_get_item_from_scroll_y_include_seps,
          Option.map_eq_some'] at h
        obtain ⟨i, hscan, hp⟩ := h
        have hlt := (get_item_scan_lt _ _ _ _ _ hscan).2
        subst hp
        unfold ResearchLists.deref
        simp only [List.get?_eq_getElem?]
        rw [Nat.zero_add] at hlt
        exact ⟨_, List.getElem?_eq_getElem hlt⟩
      · rw [if_neg hv] at h
        simp at h
    · rw [if_neg hw] at h
      simp at h
  · rw [if_neg hin] at h
    simp at h

theorem insertBefore_mem (T d : ResearchItem) :
    ∀ (l l' : List ResearchItem), move_research_item.insertBefore T d l = some l' → d ∈ l' := by
  intro l
  induction l with
  | nil =>
    intro l' h
    simp [move_research_item.insertBefore] at h
  | cons x rest ih =>
    intro l' h
    rw [move_research_item.insertBefore] at h
    by_cases hx : x.Equals T = true
    · rw [if_pos hx] at h
      simp only [Option.some.injEq] at h
      subst h
      simp
    · rw [if_neg hx] at h
      simp only [Option.map_eq_some'] at h
      obtain ⟨l2, hl2, hl'⟩ := h
      subst hl'
      exact List.mem_cons_of_mem _ (ih l2 hl2)

theorem move_research_item_mem (beforeItem : Option ResearchItemPtr) (s : Int)
    (d : ResearchItem) (L L' : ResearchLists)
    (h : move_research_item beforeItem s d L = some L') : d ∈ L'.list s := by
  unfold move_research_item at h
  simp only at h
  cases beforeItem with
  | none =>
    simp only [Option.some.injEq] at h
    subst h
    rw [list_setList]
    simp
  | some p =>
    simp only at h
    by_cases hempty : (research_remove d L).list s = []
    · rw [if_pos hempty] at h
      simp only [Option.some.injEq] at h
      subst h
      rw [list_setList]
      simp
    · rw [if_neg hempty] at h
      cases hderef : (research_remove d L).deref p with
      | none => rw [hderef] at h; simp at h
      | some target =>
        rw [hderef] at h
        simp only at h
        cases hins : move_research_item.insertBefore target d ((research_remove d L).list s) with
        | none =>
          rw [hins] at h
          simp only [Option.some.injEq] at h
          subst h
          rw [list_setList]
          simp
        | some l =>
          rw [hins] at h
          simp only [Option.some.injEq] at h
          subst h
          rw [list_setList]
          exact insertBefore_mem _ _ _ _ hins

theorem drag_moved_walk_returns (E : InventionsConstants) (K : UiConstants)
    (win : rct_window) (L : ResearchLists) (x : Int) (hrow : 0 < E.LIST_ROW_HEIGHT) :
    ∀ (fuel : Nat) (y : Int), (win.windowPos.y + win.height - y).toNat < fuel →
      ∃ (n : Nat),
        (∀ k, k < n → ∃ p it,
          (get_research_item_at E K (some win) L ⟨x, y + k * E.LIST_ROW_HEIGHT⟩).1 = some p
          ∧ L.deref p = some it ∧ it.IsAlwaysResearched = true)
        ∧ (∀ p it,
          (get_research_item_at E K (some win) L ⟨x, y + n * E.LIST_ROW_HEIGHT⟩).1 = some p →
          L.deref p = some it → it.IsAlwaysResearched = false)
        ∧ drag_moved.walk E K (some win) L fuel ⟨x, y⟩
          = some (get_research_item_at E K (some win) L ⟨x, y + n * E.LIST_ROW_HEIGHT⟩) := by
  intro fuel
  induction fuel with
  | zero => intro y h; omega
  | succ fuel ih =>
    intro y hfuel
    rw [drag_moved.walk]
    cases hr : (get_research_item_at E K (some win) L ⟨x, y⟩).1 with
    | none =>
      refine ⟨0, fun k hk => by omega, ?_, ?_⟩
      · intro p it hp
        simp only [Nat.cast_zero, zero_mul, add_zero] at hp
        rw [hr] at hp
        simp at hp
      · simp only [hr, Nat.cast_zero, zero_mul, add_zero]
    | some p =>
      obtain ⟨⟨it, hit⟩, hinside⟩ := get_research_item_at_some E K win L ⟨x, y⟩ p hr
      simp only at hinside
      simp only [hr, hit]
      by_cases halways : it.IsAlwaysResearched = true
      · rw [if_pos halways]
        obtain ⟨n, hskip, hlast, hwalk⟩ := ih (y + E.LIST_ROW_HEIGHT) (by omega)
        have hshift : ∀ k : Nat, y + E.LIST_ROW_HEIGHT + (k : Int) * E.LIST_ROW_HEIGHT
            = y + ((k + 1 : Nat) : Int) * E.LIST_ROW_HEIGHT := by
          intro k
          push_cast
          ring
        refine ⟨n + 1, ?_, ?_, ?_⟩
        · intro k hk
          cases k with
          | zero =>
            refine ⟨p, it, ?_, hit, halways⟩
            simp only [Nat.cast_zero, zero_mul, add_zero]
            exact hr
          | succ k =>
            have := hskip k (by omega)
            rw [hshift k] at this
            exact this
        · rw [← hshift n]
          exact hlast
        · rw [← hshift n]
          exact hwalk
      · rw [if_neg halways]
        refine ⟨0, fun k hk => by omega, ?_, ?_⟩
        · intro p2 it2 hp2 hit2
          simp only [Nat.cast_zero, zero_mul, add_zero] at hp2
          rw [hr] at hp2
          simp only [Option.some.injEq] at hp2
          subst hp2
          rw [hit] at hit2
          simp only [Option.some.injEq] at hit2
          subst hit2
          simpa using halways
        · simp only [Nat.cast_zero, zero_mul, add_zero]

set_option maxRecDepth 100000 in
/-- C26 (the code at a failing input): the inventions window at its opening size; the
invented list holds ten plain rows and then four always-researched rows (rows 10 to 13), the uninvented
list the items 100 and 101. Item 100 is dropped at (100, 180), in the upper pane on row 10.
The walk skips rows 10 to 13 and then probes (100, 228), between the two panes, where the
scroll id is -1: no list receives the item and it stays in the uninvented list, although the
drop point lies in the pane of the invented list and the comment in front of the walk has
the item placed underneath the rows skipped. -/
theorem drag_moved_upper_pane_drop_not_received :
    get_research_item_at InventionsConstants.sample UiConstants.sample
        (some sampleInventionsWindow)
        ⟨(List.range 10).map (fun i => ⟨i + 1, 0, 0⟩)
            ++ (List.range 4).map (fun i => ⟨i + 11, 64, 0⟩),
          [⟨100, 0, 0⟩, ⟨101, 0, 0⟩]⟩ ⟨100, 180⟩ = (some ⟨0, 10⟩, 0)
    ∧ get_research_item_at InventionsConstants.sample UiConstants.sample
        (some sampleInventionsWindow)
        ⟨(List.range 10).map (fun i => ⟨i + 1, 0, 0⟩)
            ++ (List.range 4).map (fun i => ⟨i + 11, 64, 0⟩),
          [⟨100, 0, 0⟩, ⟨101, 0, 0⟩]⟩ ⟨100, 228⟩ = (none, -1)
    ∧ (window_editor_inventions_list_drag_moved InventionsConstants.sample UiConstants.sample
        (some sampleInventionsWindow) 6 ⟨100, 180⟩ ⟨100, 0, 0⟩
        ⟨(List.range 10).map (fun i => ⟨i + 1, 0, 0⟩)
            ++ (List.range 4).map (fun i => ⟨i + 11, 64, 0⟩),
          [⟨100, 0, 0⟩, ⟨101, 0, 0⟩]⟩).map
        (fun L => (L.list 0).contains ⟨100, 0, 0⟩) = some false
    ∧ (window_editor_inventions_list_drag_moved InventionsConstants.sample UiConstants.sample
        (some sampleInventionsWindow) 6 ⟨100, 180⟩ ⟨100, 0, 0⟩
        ⟨(List.range 10).map (fun i => ⟨i + 1, 0, 0⟩)
            ++ (List.range 4).map (fun i => ⟨i + 11, 64, 0⟩),
          [⟨100, 0, 0⟩, ⟨101, 0, 0⟩]⟩).map
        (fun L => L.list 1) = some [⟨100, 0, 0⟩, ⟨101, 0, 0⟩] := by
  refine ⟨by rfl, by rfl, by rfl, by rfl⟩

/-- The walk returns: the row height is positive and the fuel exceeds the distance from the
drop point to the bottom edge of the inventions window. Then the walk of
`window_editor_inventions_list_drag_moved` returns after skipping `n` always-researched
rows, and the list that receives the dragged item `d` is the list of the pane of the last
point probed, `n` rows below the drop point: if the scroll id found there is not -1, the
drop is `move_research_item` with that scroll id and, when it returns, `d` is in that list;
if it is -1, no list receives `d` and the lists are as before. The last point probed is the
drop point itself (`n = 0`) when the drop point is not on an always-researched row. -/
theorem drag_moved_receiving_list (E : InventionsConstants) (K : UiConstants)
    (win : rct_window) (L : ResearchLists) (d : ResearchItem) (x y : Int) (fuel : Nat)
    (hrow : 0 < E.LIST_ROW_HEIGHT)
    (hfuel : (win.windowPos.y + win.height - y).toNat < fuel) :
    ∃ (n : Nat),
      (∀ k, k < n → ∃ p it,
        (get_research_item_at E K (some win) L ⟨x, y + k * E.LIST_ROW_HEIGHT⟩).1 = some p
        ∧ L.deref p = some it ∧ it.IsAlwaysResearched = true)
      ∧ (∀ p it,
        (get_research_item_at E K (some win) L ⟨x, y + n * E.LIST_ROW_HEIGHT⟩).1 = some p →
        L.deref p = some it → it.IsAlwaysResearched = false)
      ∧ ((get_research_item_at E K (some win) L ⟨x, y + n * E.LIST_ROW_HEIGHT⟩).2 = -1 →
        window_editor_inventions_list_drag_moved E K (some win) fuel ⟨x, y⟩ d L = some L)
      ∧ ((get_research_item_at E K (some win) L ⟨x, y + n * E.LIST_ROW_HEIGHT⟩).2 ≠ -1 →
        window_editor_inventions_list_drag_moved E K (some win) fuel ⟨x, y⟩ d L
          = move_research_item
              (get_research_item_at E K (some win) L ⟨x, y + n * E.LIST_ROW_HEIGHT⟩).1
              (get_research_item_at E K (some win) L ⟨x, y + n * E.LIST_ROW_HEIGHT⟩).2 d L
        ∧ ∀ L', window_editor_inventions_list_drag_moved E K (some win) fuel ⟨x, y⟩ d L
            = some L' →
          d ∈ L'.list
            (get_research_item_at E K (some win) L ⟨x, y + n * E.LIST_ROW_HEIGHT⟩).2)
      ∧ ((∀ p it, (get_research_item_at E K (some win) L ⟨x, y⟩).1 = some p →
          L.deref p = some it → it.IsAlwaysResearched = false) → n = 0) := by
  obtain ⟨n, hskip, hlast, hwalk⟩ := drag_moved_walk_returns E K win L x hrow fuel y hfuel
  have hres : ∀ (s : Int), (get_research_item_at E K (some win) L
        ⟨x, y + n * E.LIST_ROW_HEIGHT⟩).2 = s →
      window_editor_inventions_list_drag_moved E K (some win) fuel ⟨x, y⟩ d L
        = if s ≠ -1 then move_research_item
            (get_research_item_at E K (some win) L ⟨x, y + n * E.LIST_ROW_HEIGHT⟩).1 s d L
          else some L := by
    intro s hs
    unfold window_editor_inventions_list_drag_moved
    rw [hwalk, ← hs]
  refine ⟨n, hskip, hlast, ?_, ?_, ?_⟩
  · intro hs
    rw [hres _ hs]
    simp
  · intro hs
    have := hres _ rfl
    rw [if_pos hs] at this
    refine ⟨this, ?_⟩
    intro L' hL'
    rw [this] at hL'
    exact move_research_item_mem _ _ _ _ _ hL'
  · intro hfirst
    by_contra hn
    obtain ⟨p, it, hp, hit, halways⟩ := hskip 0 (by omega)
    simp only [Nat.cast_zero, zero_mul, add_zero] at hp
    have := hfirst p it hp hit
    rw [halways] at this
    simp at this

set_option maxRecDepth 100000 in
/-- An instance of `drag_moved_receiving_list` at the opening size of the inventions
window, rows of 12 pixels: the invented list begins with two always-researched rows; the uninvented item 101 dropped on
the top row, at (100, 60), is received by the invented list under the two rows. -/
theorem drag_moved_receiving_list_witness :
    (0 : Int) < InventionsConstants.sample.LIST_ROW_HEIGHT
    ∧ (sampleInventionsWindow.windowPos.y + sampleInventionsWindow.height - 60).toNat < 341
    ∧ window_editor_inventions_list_drag_moved InventionsConstants.sample UiConstants.sample
        (some sampleInventionsWindow) 341 ⟨100, 60⟩ ⟨101, 0, 0⟩
        ⟨[⟨1, 64, 0⟩, ⟨2, 64, 0⟩, ⟨3, 0, 0⟩, ⟨4, 0, 0⟩],
          [⟨100, 0, 0⟩, ⟨101, 0, 0⟩, ⟨102, 0, 0⟩]⟩
      = some ⟨[⟨1, 64, 0⟩, ⟨2, 64, 0⟩, ⟨101, 0, 0⟩, ⟨3, 0, 0⟩, ⟨4, 0, 0⟩],
          [⟨100, 0, 0⟩, ⟨102, 0, 0⟩]⟩
    ∧ ∃ (n : Nat),
      (∀ k, k < n → ∃ p it,
        (get_research_item_at InventionsConstants.sample UiConstants.sample
          (some sampleInventionsWindow)
          ⟨[⟨1, 64, 0⟩, ⟨2, 64, 0⟩, ⟨3, 0, 0⟩, ⟨4, 0, 0⟩],
            [⟨100, 0, 0⟩, ⟨101, 0, 0⟩, ⟨102, 0, 0⟩]⟩
          ⟨100, 60 + k * InventionsConstants.sample.LIST_ROW_HEIGHT⟩).1 = some p
        ∧ ResearchLists.deref ⟨[⟨1, 64, 0⟩, ⟨2, 64, 0⟩, ⟨3, 0, 0⟩, ⟨4, 0, 0⟩],
            [⟨100, 0, 0⟩, ⟨101, 0, 0⟩, ⟨102, 0, 0⟩]⟩ p = some it
        ∧ it.IsAlwaysResearched = true)
      ∧ (∀ p it,
        (get_research_item_at InventionsConstants.sample UiConstants.sample
          (some sampleInventionsWindow)
          ⟨[⟨1, 64, 0⟩, ⟨2, 64, 0⟩, ⟨3, 0, 0⟩, ⟨4, 0, 0⟩],
            [⟨100, 0, 0⟩, ⟨101, 0, 0⟩, ⟨102, 0, 0⟩]⟩
          ⟨100, 60 + n * InventionsConstants.sample.LIST_ROW_HEIGHT⟩).1 = some p →
        ResearchLists.deref ⟨[⟨1, 64, 0⟩, ⟨2, 64, 0⟩, ⟨3, 0, 0⟩, ⟨4, 0, 0⟩],
            [⟨100, 0, 0⟩, ⟨101, 0, 0⟩, ⟨102, 0, 0⟩]⟩ p = some it →
        it.IsAlwaysResearched = false)
      ∧ ((get_research_item_at InventionsConstants.sample UiConstants.sample
          (some sampleInventionsWindow)
          ⟨[⟨1, 64, 0⟩, ⟨2, 64, 0⟩, ⟨3, 0, 0⟩, ⟨4, 0, 0⟩],
            [⟨100, 0, 0⟩, ⟨101, 0, 0⟩, ⟨102, 0, 0⟩]⟩
          ⟨100, 60 + n * InventionsConstants.sample.LIST_ROW_HEIGHT⟩).2 = -1 →
        window_editor_inventions_list_drag_moved InventionsConstants.sample
            UiConstants.sample (some sampleInventionsWindow) 341 ⟨100, 60⟩ ⟨101, 0, 0⟩
            ⟨[⟨1, 64, 0⟩, ⟨2, 64, 0⟩, ⟨3, 0, 0⟩, ⟨4, 0, 0⟩],
              [⟨100, 0, 0⟩, ⟨101, 0, 0⟩, ⟨102, 0, 0⟩]⟩
          = some ⟨[⟨1, 64, 0⟩, ⟨2, 64, 0⟩, ⟨3, 0, 0⟩, ⟨4, 0, 0⟩],
              [⟨100, 0, 0⟩, ⟨101, 0, 0⟩, ⟨102, 0, 0⟩]⟩)
      ∧ ((get_research_item_at InventionsConstants.sample UiConstants.sample
          (some sampleInventionsWindow)
          ⟨[⟨1, 64, 0⟩, ⟨2, 64, 0⟩, ⟨3, 0, 0⟩, ⟨4, 0, 0⟩],
            [⟨100, 0, 0⟩, ⟨101, 0, 0⟩, ⟨102, 0, 0⟩]⟩
          ⟨100, 60 + n * InventionsConstants.sample.LIST_ROW_HEIGHT⟩).2 ≠ -1 →
        window_editor_inventions_list_drag_moved InventionsConstants.sample
            UiConstants.sample (some sampleInventionsWindow) 341 ⟨100, 60⟩ ⟨101, 0, 0⟩
            ⟨[⟨1, 64, 0⟩, ⟨2, 64, 0⟩, ⟨3, 0, 0⟩, ⟨4, 0, 0⟩],
              [⟨100, 0, 0⟩, ⟨101, 0, 0⟩, ⟨102, 0, 0⟩]⟩
          = move_research_item
              (get_research_item_at InventionsConstants.sample UiConstants.sample
                (some sampleInventionsWindow)
                ⟨[⟨1, 64, 0⟩, ⟨2, 64, 0⟩, ⟨3, 0, 0⟩, ⟨4, 0, 0⟩],
                  [⟨100, 0, 0⟩, ⟨101, 0, 0⟩, ⟨102, 0, 0⟩]⟩
                ⟨100, 60 + n * InventionsConstants.sample.LIST_ROW_HEIGHT⟩).1
              (get_research_item_at InventionsConstants.sample UiConstants.sample
                (some sampleInventionsWindow)
                ⟨[⟨1, 64, 0⟩, ⟨2, 64, 0⟩, ⟨3, 0, 0⟩, ⟨4, 0, 0⟩],
                  [⟨100, 0, 0⟩, ⟨101, 0, 0⟩, ⟨102, 0, 0⟩]⟩
                ⟨100, 60 + n * InventionsConstants.sample.LIST_ROW_HEIGHT⟩).2 ⟨101, 0, 0⟩
              ⟨[⟨1, 64, 0⟩, ⟨2, 64, 0⟩, ⟨3, 0, 0⟩, ⟨4, 0, 0⟩],
                [⟨100, 0, 0⟩, ⟨101, 0, 0⟩, ⟨102, 0, 0⟩]⟩
        ∧ ∀ L', window_editor_inventions_list_drag_moved InventionsConstants.sample
              UiConstants.sample (some sampleInventionsWindow) 341 ⟨100, 60⟩ ⟨101, 0, 0⟩
              ⟨[⟨1, 64, 0⟩, ⟨2, 64, 0⟩, ⟨3, 0, 0⟩, ⟨4, 0, 0⟩],
                [⟨100, 0, 0⟩, ⟨101, 0, 0⟩, ⟨102, 0, 0⟩]⟩ = some L' →
          (⟨101, 0, 0⟩ : ResearchItem) ∈ L'.list
            (get_research_item_at InventionsConstants.sample UiConstants.sample
              (some sampleInventionsWindow)
              ⟨[⟨1, 64, 0⟩, ⟨2, 64, 0⟩, ⟨3, 0, 0⟩, ⟨4, 0, 0⟩],
                [⟨100, 0, 0⟩, ⟨101, 0, 0⟩, ⟨102, 0, 0⟩]⟩
              ⟨100, 60 + n * InventionsConstants.sample.LIST_ROW_HEIGHT⟩).2)
      ∧ ((∀ p it, (get_research_item_at InventionsConstants.sample UiConstants.sample
            (some sampleInventionsWindow)
            ⟨[⟨1, 64, 0⟩, ⟨2, 64, 0⟩, ⟨3, 0, 0⟩, ⟨4, 0, 0⟩],
              [⟨100, 0, 0⟩, ⟨101, 0, 0⟩, ⟨102, 0, 0⟩]⟩ ⟨100, 60⟩).1 = some p →
          ResearchLists.deref ⟨[⟨1, 64, 0⟩, ⟨2, 64, 0⟩, ⟨3, 0, 0⟩, ⟨4, 0, 0⟩],
              [⟨100, 0, 0⟩, ⟨101, 0, 0⟩, ⟨102, 0, 0⟩]⟩ p = some it →
          it.IsAlwaysResearched = false) → n = 0) :=
  ⟨by decide, by decide, by rfl,
    drag_moved_receiving_list InventionsConstants.sample UiConstants.sample
      sampleInventionsWindow
      ⟨[⟨1, 64, 0⟩, ⟨2, 64, 0⟩, ⟨3, 0, 0⟩, ⟨4, 0, 0⟩],
        [⟨100, 0, 0⟩, ⟨101, 0, 0⟩, ⟨102, 0, 0⟩]⟩
      ⟨101, 0, 0⟩ 100 60 341 (by decide) (by decide)⟩

end OpenRCT2
